import Mathlib

/-! # side-sync: a verification development

Shallow embedding of the time-tracking application `side-sync`
(`pkg/models`, `pkg/pdf`, `pkg/api`, `pkg/tui`) and theorems about it.

Conventions of the embedding:

* Go `int` is `Int`; where the 64-bit width matters the wrap-around is explicit (`wrapInt64`).
* Go `float64` arithmetic is taken through a record of operations (`FloatOps`), so that the
  theorems about sums hold for IEEE-754 arithmetic as it is (no algebraic law is assumed unless a
  theorem lists it as a hypothesis). `Float64` is a concrete executable model of it.
* A pointer field that may be nil (`*float64`, `*int`, `*time.Time`) is an `Option`.
* The clock, the database and the library parsers are inputs of the functions that use them.
-/

namespace SideSync

/-! ## time.Time -/

/-- The two locations the programs meet: `time.UTC` and `time.Local`. -/
inductive Location where
  | UTC
  | Local
  deriving DecidableEq, Repr

/-- A `time.Time` without monotonic reading: an instant, as seconds and nanoseconds since the
Unix epoch, and the location it is presented in. -/
structure Time where
  sec : Int
  nsec : Int
  loc : Location
  deriving DecidableEq, Repr

/-- The zero `time.Time`: January 1, year 1, 00:00:00 UTC. -/
def Time.zero : Time := { sec := -62135596800, nsec := 0, loc := Location.UTC }

/-! ## pkg/models -/

/-- The record `models.Project`; `F` is the carrier of `float64`. -/
structure Project (F : Type) where
  ID : Int
  Name : String
  Description : String
  UserID : Int
  HourlyRate : Option F
  CreatedAt : Time
  UpdatedAt : Time

/-- The record `models.Settings`. -/
structure Settings (F : Type) where
  ID : Int
  DefaultHourlyRate : Option F
  Currency : String
  CreatedAt : Time
  UpdatedAt : Time

/-- The record `models.TimeEntry`. -/
structure TimeEntry where
  ID : Int
  ProjectID : Int
  UserID : Int
  Description : String
  StartTime : Time
  EndTime : Option Time
  Duration : Option Int
  Billable : Bool
  CreatedAt : Time
  UpdatedAt : Time
  deriving DecidableEq, Repr

/-! ## float64 -/

/-- The `float64` operations the programs use. -/
structure FloatOps (F : Type) where
  zero : F
  add : F → F → F
  mul : F → F → F
  div : F → F → F
  ofInt : Int → F

/-! ## float64, concretely

An executable model of IEEE-754 binary64 with round-to-nearest-even, as Go computes with
`float64`. -/

/-- The number of binary digits of `n`, counted with `fuel` as the bound on the iterations. -/
def bitLen : Nat → Nat → Nat
  | 0, _ => 0
  | fuel + 1, n => if n = 0 then 0 else bitLen fuel (n / 2) + 1

/-- The position of the leading binary digit of `n`: the integer part of its binary logarithm
(0 for `n = 0`). -/
def ilog2 (n : Nat) : Nat := bitLen n n - 1

/-- The quotient `n / d` rounded to the nearest integer, a tie going to the even neighbour. -/
def divRoundEven (n d : Nat) : Nat :=
  let q := n / d
  let r := n % d
  if 2 * r < d then q else if d < 2 * r then q + 1 else if q % 2 = 0 then q else q + 1

/-- The numerator of `n / d / 2 ^ e`. -/
def scaleNum (n : Nat) (e : Int) : Nat := if 0 ≤ e then n else n * 2 ^ (-e).toNat

/-- The denominator of `n / d / 2 ^ e`. -/
def scaleDen (d : Nat) (e : Int) : Nat := if 0 ≤ e then d * 2 ^ e.toNat else d

/-- The exponent of the unit in the last place of the binary64 numbers around `n / d`
(`n, d > 0`): the `e` with `2 ^ 52 ≤ n / d / 2 ^ e < 2 ^ 53`, and `-1074` in the subnormal
range. -/
def ulpExp (n d : Nat) : Int :=
  let e1 : Int := (ilog2 n : Int) - (ilog2 d : Int) - 53
  let m := scaleNum n e1 / scaleDen d e1
  let e := if 2 ^ 53 ≤ m then e1 + 1 else e1
  max e (-1074)

/-- A `float64` value: a finite number `m * 2 ^ e`, an infinity or a NaN. The sign of a zero is
not represented (`-0` is `0`), which no comparison and no conversion to `int` can see. -/
inductive Float64 where
  | fin (m : Int) (e : Int)
  | posInf
  | negInf
  | nan
  deriving DecidableEq, Repr

namespace Float64

/-- Negation. -/
def neg : Float64 → Float64
  | fin m e => fin (-m) e
  | posInf => negInf
  | negInf => posInf
  | nan => nan

/-- The binary64 number nearest to `n / d` for `n, d > 0` (ties to even), `+Inf` beyond the
range. A result has its mantissa in `[2 ^ 52, 2 ^ 53)`, or exponent `-1074` (subnormal). -/
def roundPos (n d : Nat) : Float64 :=
  let e := ulpExp n d
  let m := divRoundEven (scaleNum n e) (scaleDen d e)
  let m1 : Nat := if m = 2 ^ 53 then 2 ^ 52 else m
  let e1 : Int := if m = 2 ^ 53 then e + 1 else e
  if m1 = 0 then fin 0 0 else if 971 < e1 then posInf else fin m1 e1

/-- The binary64 number nearest to the fraction `n / d` (`d > 0`): the value of a decimal
literal, of an integer conversion, and of the exact result of an arithmetic operation. -/
def ofFrac (n : Int) (d : Nat) : Float64 :=
  if n = 0 then fin 0 0
  else if 0 < n then roundPos n.toNat d
  else (roundPos (-n).toNat d).neg

/-- The binary64 number nearest to `m * 2 ^ e`. -/
def ofDyadic (m : Int) (e : Int) : Float64 :=
  ofFrac (m * 2 ^ e.toNat) (2 ^ (-e).toNat)

/-- The conversion `float64(i)` of an integer. -/
def ofInt (i : Int) : Float64 := ofFrac i 1

/-- The infinity with the sign of `s`, NaN for `s = 0`. -/
def infOfSign (s : Int) : Float64 :=
  if s = 0 then nan else if 0 < s then posInf else negInf

/-- Addition `x + y`. -/
def add : Float64 → Float64 → Float64
  | fin a e, fin b f =>
    let g := min e f
    ofDyadic (a * 2 ^ (e - g).toNat + b * 2 ^ (f - g).toNat) g
  | fin _ _, posInf => posInf
  | fin _ _, negInf => negInf
  | posInf, fin _ _ => posInf
  | negInf, fin _ _ => negInf
  | posInf, posInf => posInf
  | negInf, negInf => negInf
  | _, _ => nan

/-- Multiplication `x * y`. -/
def mul : Float64 → Float64 → Float64
  | fin a e, fin b f => ofDyadic (a * b) (e + f)
  | fin a _, posInf => infOfSign a
  | fin a _, negInf => infOfSign (-a)
  | posInf, fin b _ => infOfSign b
  | negInf, fin b _ => infOfSign (-b)
  | posInf, posInf => posInf
  | negInf, negInf => posInf
  | posInf, negInf => negInf
  | negInf, posInf => negInf
  | _, _ => nan

/-- Division `x / y`; a finite non-zero value divided by zero gives the infinity of its own
sign. -/
def div : Float64 → Float64 → Float64
  | fin a e, fin b f =>
    if b = 0 then infOfSign a
    else ofFrac (Int.sign b * a * 2 ^ (e - f).toNat) (b.natAbs * 2 ^ (f - e).toNat)
  | fin _ _, posInf => fin 0 0
  | fin _ _, negInf => fin 0 0
  | posInf, fin b _ => if 0 ≤ b then posInf else negInf
  | negInf, fin b _ => if 0 ≤ b then negInf else posInf
  | _, _ => nan

/-- The comparison `x <= y`; false as soon as one side is a NaN. -/
def le : Float64 → Float64 → Bool
  | fin a e, fin b f =>
    let g := min e f
    decide (a * 2 ^ (e - g).toNat ≤ b * 2 ^ (f - g).toNat)
  | nan, _ => false
  | _, nan => false
  | negInf, _ => true
  | _, posInf => true
  | _, _ => false

/-- The comparison `x > y`; false as soon as one side is a NaN. -/
def gt : Float64 → Float64 → Bool
  | fin a e, fin b f =>
    let g := min e f
    decide (b * 2 ^ (f - g).toNat < a * 2 ^ (e - g).toNat)
  | nan, _ => false
  | _, nan => false
  | posInf, posInf => false
  | posInf, _ => true
  | fin _ _, negInf => true
  | _, _ => false

/-- The integer part of a finite value, the fraction discarded (towards zero). -/
def trunc (m e : Int) : Int := (m * 2 ^ e.toNat).tdiv (2 ^ (-e).toNat)

/-- The conversion `int(x)`: the value with its fraction discarded when that fits 64 bits;
otherwise the result is implementation-dependent, here `unspec x`. -/
def toInt (unspec : Float64 → Int) : Float64 → Int
  | fin m e =>
    let t := trunc m e
    if -2 ^ 63 ≤ t ∧ t < 2 ^ 63 then t else unspec (fin m e)
  | x => unspec x

end Float64

/-- The `float64` operations on the concrete model. -/
def float64Ops : FloatOps Float64 where
  zero := Float64.fin 0 0
  add := Float64.add
  mul := Float64.mul
  div := Float64.div
  ofInt := Float64.ofInt

/-- Exact rational arithmetic, which `float64` arithmetic approximates. -/
def exactOps : FloatOps ℚ where
  zero := 0
  add := fun x y => x + y
  mul := fun x y => x * y
  div := fun x y => x / y
  ofInt := fun i => (i : ℚ)

/-! ## pkg/pdf: calculateTotals -/

/-- The record `pdf.ReportConfig`. -/
structure ReportConfig (F : Type) where
  Project : Project F
  TimeEntries : List TimeEntry
  Settings : Settings F
  IncludePricing : Bool
  DateFrom : String
  DateTo : String
  BillableFilter : String

/-- The running sums of the loop of `calculateTotals`. -/
structure Sums (F : Type) where
  totalHours : F
  billableHours : F
  totalCost : F
  billableCost : F

/-- The six results of `calculateTotals`, in the order the function returns them. -/
structure Totals (F : Type) where
  totalHours : F
  billableHours : F
  totalCost : F
  billableCost : F
  effectiveRate : F
  currency : String

/-- The rate `calculateTotals` settles on before its loop. -/
def effectiveRateOf {F : Type} (ops : FloatOps F) (config : ReportConfig F) : F :=
  match config.Project.HourlyRate with
  | some r => r
  | none =>
    match config.Settings.DefaultHourlyRate with
    | some r => r
    | none => ops.zero

/-- One iteration of the loop of `calculateTotals`. -/
def totalsStep {F : Type} (ops : FloatOps F) (effectiveRate : F) (acc : Sums F)
    (entry : TimeEntry) : Sums F :=
  match entry.Duration with
  | none => acc
  | some d =>
    let hours := ops.div (ops.ofInt d) (ops.ofInt 3600)
    let acc1 := { acc with totalHours := ops.add acc.totalHours hours }
    let acc2 :=
      if entry.Billable then
        { acc1 with
          billableHours := ops.add acc1.billableHours hours
          billableCost := ops.add acc1.billableCost (ops.mul hours effectiveRate) }
      else acc1
    { acc2 with totalCost := ops.add acc2.totalCost (ops.mul hours effectiveRate) }

/-- The method `Generator.calculateTotals`. -/
def calculateTotals {F : Type} (ops : FloatOps F) (config : ReportConfig F) : Totals F :=
  let effectiveRate := effectiveRateOf ops config
  let currency := if config.Settings.Currency ≠ "" then config.Settings.Currency else "EUR"
  let sums := config.TimeEntries.foldl (totalsStep ops effectiveRate)
    { totalHours := ops.zero, billableHours := ops.zero,
      totalCost := ops.zero, billableCost := ops.zero }
  { totalHours := sums.totalHours
    billableHours := sums.billableHours
    totalCost := sums.totalCost
    billableCost := sums.billableCost
    effectiveRate := effectiveRate
    currency := currency }

/-! ### The totals, as the specification words them -/

/-- The sum of a list of `float64` values, added from the left starting at zero, as a Go loop
`s += x` does. -/
def sumF {F : Type} (ops : FloatOps F) (xs : List F) : F :=
  xs.foldl ops.add ops.zero

/-- Per-entry hours of an entry that has a duration: the duration in seconds divided by 3600. -/
def hoursOf {F : Type} (ops : FloatOps F) (entry : TimeEntry) : Option F :=
  entry.Duration.map (fun d => ops.div (ops.ofInt d) (ops.ofInt 3600))

/-- Per-entry cost of an entry that has a duration: hours × rate. -/
def costOf {F : Type} (ops : FloatOps F) (rate : F) (entry : TimeEntry) : Option F :=
  entry.Duration.map (fun d => ops.mul (ops.div (ops.ofInt d) (ops.ofInt 3600)) rate)

/-- Per-entry hours: the duration in seconds divided by 3600, zero without a duration. -/
def entryHours {F : Type} (ops : FloatOps F) (entry : TimeEntry) : F :=
  match entry.Duration with
  | some d => ops.div (ops.ofInt d) (ops.ofInt 3600)
  | none => ops.zero

/-- Per-entry cost: hours × rate for an entry with a duration, zero without one. -/
def entryCost {F : Type} (ops : FloatOps F) (rate : F) (entry : TimeEntry) : F :=
  match entry.Duration with
  | some d => ops.mul (ops.div (ops.ofInt d) (ops.ofInt 3600)) rate
  | none => ops.zero

/-- A time entry for the worked examples. -/
def sampleEntry (d : Option Int) (billable : Bool) : TimeEntry :=
  { ID := 0, ProjectID := 1, UserID := 1, Description := "", StartTime := Time.zero,
    EndTime := none, Duration := d, Billable := billable, CreatedAt := Time.zero,
    UpdatedAt := Time.zero }

/-- A report configuration for the worked examples: no project rate, default rate 50, three
entries of which one has no duration and one is not billable. -/
def sampleConfig : ReportConfig ℚ :=
  { Project := { ID := 1, Name := "p", Description := "", UserID := 1, HourlyRate := none,
                 CreatedAt := Time.zero, UpdatedAt := Time.zero }
    TimeEntries := [sampleEntry (some 5400) true, sampleEntry none true,
                    sampleEntry (some 1800) false]
    Settings := { ID := 1, DefaultHourlyRate := some 50, Currency := "",
                  CreatedAt := Time.zero, UpdatedAt := Time.zero }
    IncludePricing := true, DateFrom := "", DateTo := "", BillableFilter := "" }

/-! ## time: dates, durations -/

/-- The value of an `int64` computation whose mathematical result is `x`: two's-complement
wrap-around. -/
def wrapInt64 (x : Int) : Int := (x + 2 ^ 63) % 2 ^ 64 - 2 ^ 63

/-- The constant `time.Second`, in nanoseconds. -/
def Second : Int := 1000000000

/-- The number of days from 1970-01-01 to the day `year-month-day` of the proleptic Gregorian
calendar (`1 ≤ month ≤ 12`). -/
def daysFromCivil (year month day : Int) : Int :=
  let y := if month ≤ 2 then year - 1 else year
  let era := y / 400
  let yoe := y - era * 400
  let mp := (month + 9) % 12
  let doy := (153 * mp + 2) / 5 + day - 1
  let doe := yoe * 365 + yoe / 4 - yoe / 100 + doy
  era * 146097 + doe - 719468

/-- The function `time.Date(year, month, day, hour, min, sec, nsec, loc)` for fields within their ranges: the
instant at which the clock of `loc` shows that date and time. `localOffset w` is the offset east
of UTC, in seconds, that `time.Local` has when its clock shows the wall time `w`. -/
def Date (localOffset : Int → Int) (year month day hour min sec nsec : Int) (loc : Location) :
    Time :=
  let wall := daysFromCivil year month day * 86400 + hour * 3600 + min * 60 + sec
  match loc with
  | Location.UTC => { sec := wall, nsec := nsec, loc := Location.UTC }
  | Location.Local => { sec := wall - localOffset wall, nsec := nsec, loc := Location.Local }

/-- The method `Time.Add(d)` for a duration `d` in nanoseconds (the range of the seconds counter is not
reached by the instants met here). -/
def Time.Add (t : Time) (d : Int) : Time :=
  let dsec := d.tdiv 1000000000
  let nsec := t.nsec + d.tmod 1000000000
  if 1000000000 ≤ nsec then { t with sec := t.sec + dsec + 1, nsec := nsec - 1000000000 }
  else if nsec < 0 then { t with sec := t.sec + dsec - 1, nsec := nsec + 1000000000 }
  else { t with sec := t.sec + dsec, nsec := nsec }

/-- The instant of a `Time` in nanoseconds since the Unix epoch. -/
def Time.unixNano (t : Time) : Int := t.sec * 1000000000 + t.nsec

/-! ## The libraries and the database, as inputs -/

/-- The date that `time.Parse("2006-01-02", s)` read. -/
structure ParsedDate where
  Year : Int
  Month : Int
  Day : Int
  deriving DecidableEq, Repr

/-- The method `Time.Location()` of a parsed date: the layout has no zone, and "in the absence of a time
zone indicator, Parse returns a time in UTC". -/
def ParsedDate.Location (_ : ParsedDate) : Location := Location.UTC

/-- The library functions and the platform that `ImportTimeEntriesCSV` relies on. -/
structure Lib where
  /-- The function `strings.TrimSpace`. -/
  TrimSpace : String → String
  /-- The call `time.Parse("2006-01-02", s)`; `none` is a non-nil error. -/
  ParseDate : String → Option ParsedDate
  /-- The call `strconv.ParseFloat(s, 64)`; `none` is a non-nil error. -/
  ParseFloat : String → Option Float64
  /-- The function `strconv.Atoi`; `none` is a non-nil error. -/
  Atoi : String → Option Int
  /-- What `int(x)` gives for an `x` that `int` cannot represent. -/
  intOfUnrepresentable : Float64 → Int
  /-- The offset of `time.Local` east of UTC, by wall time. -/
  localOffset : Int → Int

/-- An argument of a SQL statement. -/
inductive SQLArg where
  | Int (i : Int)
  | Str (s : String)
  | Bool (b : Bool)
  | Time (t : Time)
  | OptTime (t : Option Time)
  | OptInt (i : Option Int)
  | OptFloat (x : Option Float64)
  deriving DecidableEq, Repr

/-- The method `db.Exec` on a database in state `σ`: the state afterwards and the error, if any. -/
structure Database (σ : Type) where
  Exec : σ → String → List SQLArg → σ × Option String

/-! ## pkg/api: ImportTimeEntriesCSV -/

/-- What `ImportTimeEntriesCSV` reads from its request. -/
structure ImportRequest where
  Method : String
  /-- Whether `r.ParseMultipartForm(10 << 20)` succeeds. -/
  FormParses : Bool
  /-- The value `r.FormValue("project_id")`. -/
  ProjectID : String
  /-- The result of `r.FormFile("csv_file")`, `none` when it fails; inside, the result of `ReadAll` of the CSV
  reader over the file, `none` when that fails. -/
  File : Option (Option (List (List String)))

/-- A response of `ImportTimeEntriesCSV`: `http.Error` with a status and a text, or the JSON
object of a completed import (status 200). -/
inductive ImportResponse where
  | Error (status : Nat) (text : String)
  | Imported (success : Bool) (message : String) (imported_count : Int)
  deriving DecidableEq, Repr

/-- The body of the first loop of `ImportTimeEntriesCSV` for the record at index `i` of
`records[1:]`: the time entry built, or the line printed when the record is skipped. -/
def importRow (lib : Lib) (projectID : Int) (i : Nat) (record : List String) :
    Except String TimeEntry :=
  if record.length < 2 then
    Except.error ("Skipping row " ++ toString (i + 2) ++ ": insufficient columns\n")
  else
    let dateStr := lib.TrimSpace (record.getD 0 "")
    match lib.ParseDate dateStr with
    | none =>
      Except.error ("Skipping row " ++ toString (i + 2) ++ ": invalid date format '" ++ dateStr
        ++ "'\n")
    | some date =>
      let durationStr := lib.TrimSpace (record.getD 1 "")
      match lib.ParseFloat durationStr with
      | none =>
        Except.error ("Skipping row " ++ toString (i + 2) ++ ": invalid duration '"
          ++ durationStr ++ "'\n")
      | some durationHours =>
        if Float64.le durationHours (Float64.ofInt 0) then
          Except.error ("Skipping row " ++ toString (i + 2) ++ ": invalid duration '"
            ++ durationStr ++ "'\n")
        else
          let durationSeconds :=
            Float64.toInt lib.intOfUnrepresentable
              (Float64.mul durationHours (Float64.ofInt 3600))
          let startTime :=
            Date lib.localOffset date.Year date.Month date.Day 17 0 0 0 date.Location
          let endTime := startTime.Add (wrapInt64 (durationSeconds * Second))
          Except.ok
            { ID := 0
              ProjectID := projectID
              UserID := 1
              Description := "Imported from CSV"
              StartTime := startTime
              EndTime := some endTime
              Duration := some durationSeconds
              Billable := true
              CreatedAt := Time.zero
              UpdatedAt := Time.zero }

/-- The first loop of `ImportTimeEntriesCSV` over `records[1:]`, from index `i` on, with the
entries and the printed lines accumulated so far. -/
def importRows (lib : Lib) (projectID : Int) :
    Nat → List (List String) → List TimeEntry × List String → List TimeEntry × List String
  | _, [], acc => acc
  | i, record :: rest, (timeEntries, log) =>
    match importRow lib projectID i record with
    | Except.error line => importRows lib projectID (i + 1) rest (timeEntries, log ++ [line])
    | Except.ok timeEntry =>
      importRows lib projectID (i + 1) rest (timeEntries ++ [timeEntry], log)

/-- The INSERT statement of the import. -/
def insertTimeEntryQuery : String :=
  "INSERT INTO time_entries (project_id, user_id, description, start_time, end_time, duration, billable) VALUES ($1, $2, $3, $4, $5, $6, $7)"

/-- The arguments the import passes to the INSERT statement for `entry`. -/
def insertTimeEntryArgs (entry : TimeEntry) : List SQLArg :=
  [SQLArg.Int entry.ProjectID, SQLArg.Int entry.UserID, SQLArg.Str entry.Description,
   SQLArg.Time entry.StartTime, SQLArg.OptTime entry.EndTime, SQLArg.OptInt entry.Duration,
   SQLArg.Bool entry.Billable]

/-- The state of the second loop of `ImportTimeEntriesCSV`. -/
structure InsertState (σ : Type) where
  db : σ
  createdCount : Int
  log : List String

/-- The second loop of `ImportTimeEntriesCSV`: one INSERT per entry, a failure printed and
passed over. -/
def insertEntries {σ : Type} (database : Database σ) :
    List TimeEntry → InsertState σ → InsertState σ
  | [], st => st
  | entry :: rest, st =>
    match database.Exec st.db insertTimeEntryQuery (insertTimeEntryArgs entry) with
    | (db1, some err) =>
      insertEntries database rest
        { st with db := db1, log := st.log ++ ["Error inserting time entry: " ++ err ++ "\n"] }
    | (db1, none) =>
      insertEntries database rest { st with db := db1, createdCount := st.createdCount + 1 }

/-- What a call of a handler leaves behind: the response, the database and the lines printed. -/
structure Outcome (σ : Type) (ρ : Type) where
  response : ρ
  db : σ
  log : List String

/-- The handler `Server.ImportTimeEntriesCSV`. -/
def ImportTimeEntriesCSV {σ : Type} (lib : Lib) (database : Database σ) (db : σ)
    (r : ImportRequest) : Outcome σ ImportResponse :=
  if r.Method ≠ "POST" then
    { response := ImportResponse.Error 405 "Method not allowed", db := db, log := [] }
  else if !r.FormParses then
    { response := ImportResponse.Error 400 "Failed to parse form", db := db, log := [] }
  else if r.ProjectID = "" then
    { response := ImportResponse.Error 400 "Project ID is required", db := db, log := [] }
  else
    match lib.Atoi r.ProjectID with
    | none => { response := ImportResponse.Error 400 "Invalid project ID", db := db, log := [] }
    | some projectID =>
      match r.File with
      | none =>
        { response := ImportResponse.Error 400 "Failed to get uploaded file", db := db,
          log := [] }
      | some none =>
        { response := ImportResponse.Error 400 "Failed to parse CSV file", db := db, log := [] }
      | some (some records) =>
        if records.length < 2 then
          { response :=
              ImportResponse.Error 400 "CSV file must have header and at least one data row"
            db := db, log := [] }
        else
          let built := importRows lib projectID 0 (records.drop 1) ([], [])
          let st := insertEntries database built.1
            { db := db, createdCount := 0, log := built.2 }
          { response :=
              ImportResponse.Imported true
                ("Successfully imported " ++ toString st.createdCount ++ " time entries")
                st.createdCount
            db := st.db
            log := st.log }

/-- The entries the first loop builds from the rows, numbered from `i`, that pass its checks. -/
def acceptedEntries (lib : Lib) (projectID : Int) (i : Nat) (rows : List (List String)) :
    List TimeEntry :=
  (rows.enumFrom i).filterMap (fun p => (importRow lib projectID p.1 p.2).toOption)

/-- The outcomes of the INSERTs of the second loop, in order: `true` for a success. -/
def insertOutcomes {σ : Type} (database : Database σ) : σ → List TimeEntry → List Bool
  | _, [] => []
  | db, entry :: rest =>
    (database.Exec db insertTimeEntryQuery (insertTimeEntryArgs entry)).2.isNone ::
      insertOutcomes database
        (database.Exec db insertTimeEntryQuery (insertTimeEntryArgs entry)).1 rest

/-- White space as `unicode.IsSpace` defines it. -/
def isSpace (c : Char) : Bool :=
  c = '\t' || c = '\n' || c.toNat = 0x0B || c.toNat = 0x0C || c = '\r' || c = ' ' ||
  c.toNat = 0x85 || c.toNat = 0xA0 || c.toNat = 0x1680 ||
  (0x2000 ≤ c.toNat && c.toNat ≤ 0x200A) || c.toNat = 0x2028 || c.toNat = 0x2029 ||
  c.toNat = 0x202F || c.toNat = 0x205F || c.toNat = 0x3000

/-- A text with its leading and trailing white space removed, as `strings.TrimSpace` does. -/
def trimSpace (s : String) : String :=
  String.mk ((s.data.dropWhile isSpace).reverse.dropWhile isSpace).reverse

/-- The library on the texts of the worked examples (its answers on other texts are not used),
on a platform where `int(x)` of an unrepresentable `x` is the least `int64` (amd64) and the local
zone is one hour east of UTC. -/
def sampleLib : Lib where
  TrimSpace := trimSpace
  ParseDate := fun s => if s = "2024-01-15" then some ⟨2024, 1, 15⟩ else none
  ParseFloat := fun s =>
    if s = "3.5" then some (Float64.ofFrac 7 2)
    else if s = "1.13" then some (Float64.ofFrac 113 100)
    else if s = "3000000" then some (Float64.ofFrac 3000000 1)
    else if s = "0" then some (Float64.ofFrac 0 1)
    else if s = "-2" then some (Float64.ofFrac (-2) 1)
    else if s = "NaN" then some Float64.nan
    else none
  Atoi := fun s => if s = "7" then some 7 else none
  intOfUnrepresentable := fun _ => -9223372036854775808
  localOffset := fun _ => 3600

/-- A database that accepts every statement and keeps the argument lists it was given. -/
def recordingDB : Database (List (List SQLArg)) where
  Exec := fun db _ args => (db ++ [args], none)

/-- An upload for project 7 with the given CSV records. -/
def sampleUpload (records : List (List String)) : ImportRequest :=
  { Method := "POST", FormParses := true, ProjectID := "7", File := some (some records) }

/-! ## pkg/api: GetTimeEntriesByProject -/

/-- The type `url.Values`, the parsed query string. -/
abbrev Values := List (String × List String)

/-- The method `Values.Get`: the first value of the key, the empty string when there is none. -/
def Values.Get (v : Values) (key : String) : String :=
  match v.lookup key with
  | some (x :: _) => x
  | _ => ""

/-- The statement under construction in the filtered listings: the text, the arguments and the
index of the next placeholder. -/
structure Statement where
  query : String
  args : List SQLArg
  argIndex : Int

/-- The SELECT that `GetTimeEntriesByProject` starts from. -/
def selectByProject : String :=
  "SELECT id, project_id, user_id, description, start_time, end_time, duration, billable, created_at, updated_at FROM time_entries WHERE project_id = $1"

/-- The statement `GetTimeEntriesByProject` builds from its four query parameters. -/
def byProjectStatement (projectID dateFrom dateTo billableFilter : String) : Statement :=
  let s0 : Statement := { query := selectByProject, args := [SQLArg.Str projectID], argIndex := 2 }
  let s1 : Statement :=
    if dateFrom ≠ "" then
      { query := s0.query ++ (" AND DATE(start_time) >= $" ++ toString s0.argIndex)
        args := s0.args ++ [SQLArg.Str dateFrom]
        argIndex := s0.argIndex + 1 }
    else s0
  let s2 : Statement :=
    if dateTo ≠ "" then
      { query := s1.query ++ (" AND DATE(start_time) <= $" ++ toString s1.argIndex)
        args := s1.args ++ [SQLArg.Str dateTo]
        argIndex := s1.argIndex + 1 }
    else s1
  let s3 : Statement :=
    if billableFilter = "billable" then
      { s2 with
        query := s2.query ++ (" AND billable = $" ++ toString s2.argIndex)
        args := s2.args ++ [SQLArg.Bool true] }
    else if billableFilter = "non-billable" then
      { s2 with
        query := s2.query ++ (" AND billable = $" ++ toString s2.argIndex)
        args := s2.args ++ [SQLArg.Bool false] }
    else s2
  { s3 with query := s3.query ++ " ORDER BY start_time DESC" }

/-- A response of a listing of time entries: `http.Error`, or the JSON array (status 200). -/
inductive ListResponse where
  | Error (status : Nat) (text : String)
  | JSON (timeEntries : List TimeEntry)
  deriving DecidableEq, Repr

/-- The handler `Server.GetTimeEntriesByProject`; `select` is `db.Select` into a slice of time entries. The
result is the response with the lines printed. -/
def GetTimeEntriesByProject (select : String → List SQLArg → Except String (List TimeEntry))
    (urlQuery : Values) : ListResponse × List String :=
  let projectID := urlQuery.Get "project_id"
  if projectID = "" then (ListResponse.Error 400 "Project ID is required", [])
  else
    let dateFrom := urlQuery.Get "date_from"
    let dateTo := urlQuery.Get "date_to"
    let billableFilter := urlQuery.Get "billable"
    let st := byProjectStatement projectID dateFrom dateTo billableFilter
    match select st.query st.args with
    | Except.error err =>
      (ListResponse.Error 500 "Failed to fetch time entries",
        ["Error fetching time entries: " ++ err ++ "\n"])
    | Except.ok timeEntries => (ListResponse.JSON timeEntries, [])

/-! ### The filters, as the specification words them -/

/-- An optional filter of the listing. -/
inductive Clause where
  | DateFrom (v : String)
  | DateTo (v : String)
  | Billable (b : Bool)
  deriving DecidableEq, Repr

/-- The filters the specification asks for: date-from when given, date-to when given, billable
for the two literals. -/
def clausesFor (dateFrom dateTo billableFilter : String) : List Clause :=
  (if dateFrom = "" then [] else [Clause.DateFrom dateFrom]) ++
  (if dateTo = "" then [] else [Clause.DateTo dateTo]) ++
  (if billableFilter = "billable" then [Clause.Billable true]
   else if billableFilter = "non-billable" then [Clause.Billable false]
   else [])

/-- The SQL condition of a filter whose value is the placeholder `$k`. -/
def Clause.sql (k : Int) : Clause → String
  | Clause.DateFrom _ => " AND DATE(start_time) >= $" ++ toString k
  | Clause.DateTo _ => " AND DATE(start_time) <= $" ++ toString k
  | Clause.Billable _ => " AND billable = $" ++ toString k

/-- The value a filter binds to its placeholder. -/
def Clause.arg : Clause → SQLArg
  | Clause.DateFrom v => SQLArg.Str v
  | Clause.DateTo v => SQLArg.Str v
  | Clause.Billable b => SQLArg.Bool b

/-- The conditions of a list of filters AND-ed in order, their placeholders numbered from `k`. -/
def whereClauses : Int → List Clause → String
  | _, [] => ""
  | k, c :: cs => c.sql k ++ whereClauses (k + 1) cs

/-! ## pkg/api: UpdateSettings -/

/-- The UPDATE statement of `UpdateSettings`. -/
def updateSettingsQuery : String :=
  "UPDATE settings SET default_hourly_rate = $1, currency = $2, updated_at = NOW() WHERE id = 1 RETURNING id, created_at, updated_at"

/-- The arguments `UpdateSettings` passes to its statement for the decoded body. -/
def updateSettingsArgs (settings : Settings Float64) : List SQLArg :=
  [SQLArg.OptFloat settings.DefaultHourlyRate, SQLArg.Str settings.Currency]

/-- The row a statement `... RETURNING id, created_at, updated_at` gives back. -/
structure Returned where
  ID : Int
  CreatedAt : Time
  UpdatedAt : Time

/-- A response of `UpdateSettings`: `http.Error`, or the settings as JSON (status 200). -/
inductive SettingsResponse where
  | Error (status : Nat) (text : String)
  | JSON (settings : Settings Float64)

/-- The handler `Server.UpdateSettings`. `body` is what decoding the JSON body gives, `none` when that
fails; `queryRow` is `db.QueryRow(...).Scan(...)`, giving the state afterwards and the row or
the error. -/
def UpdateSettings {σ : Type}
    (queryRow : σ → String → List SQLArg → σ × Except String Returned) (db : σ)
    (method : String) (body : Option (Settings Float64)) : Outcome σ SettingsResponse :=
  if method ≠ "PUT" then
    { response := SettingsResponse.Error 405 "Method not allowed", db := db, log := [] }
  else
    match body with
    | none => { response := SettingsResponse.Error 400 "Invalid JSON payload", db := db, log := [] }
    | some settings =>
      match queryRow db updateSettingsQuery (updateSettingsArgs settings) with
      | (db1, Except.error err) =>
        { response := SettingsResponse.Error 500 "Failed to update settings", db := db1,
          log := ["Error updating settings: " ++ err ++ "\n"] }
      | (db1, Except.ok row) =>
        { response := SettingsResponse.JSON
            { settings with ID := row.ID, CreatedAt := row.CreatedAt, UpdatedAt := row.UpdatedAt }
          db := db1, log := [] }

/-- A `QueryRow` that keeps the statement and the arguments it was given and answers `result`. -/
def recordingQueryRow (result : Except String Returned) (db : List (String × List SQLArg))
    (query : String) (args : List SQLArg) :
    List (String × List SQLArg) × Except String Returned :=
  (db ++ [(query, args)], result)

/-! ## pkg/tui -/

/-- The states of the terminal UI. -/
inductive state where
  | stateSelectProject
  | stateTimer
  | stateConfirm
  | stateSuccess
  | stateError
  deriving DecidableEq, Repr

open state

/-- The record `tui.Model`. The client is given by its base URL, a duration is a number of nanoseconds, and
an error by its text. -/
structure Model where
  client : String
  projects : List (Project Float64)
  selectedProject : Int
  state : state
  startTime : Time
  elapsed : Int
  running : Bool
  description : String
  err : Option String
  quitting : Bool
  cursor : Int
  confirmSelection : Int

/-- The constructor `NewModel`. -/
def NewModel (apiURL : String) : Model :=
  { client := apiURL
    projects := []
    selectedProject := 0
    state := stateSelectProject
    startTime := Time.zero
    elapsed := 0
    running := false
    description := ""
    err := none
    quitting := false
    cursor := 0
    confirmSelection := 0 }

/-- The messages `Update` receives; a key press is given by its `String()`, and `other` stands
for every message of the toolkit that `Update` has no case for. -/
inductive Msg where
  | KeyMsg (key : String)
  | tickMsg (t : Time)
  | projectsLoadedMsg (projects : List (Project Float64))
  | successMsg
  | errorMsg (err : String)
  | other

/-- The commands `Init` and `Update` return. `saveTimeEntry m` is the closure that
`m.saveTimeEntry()` returns: it holds the model it was made from. -/
inductive Cmd where
  | Quit
  | tickCmd
  | loadProjectsCmd (client : String)
  | saveTimeEntry (m : Model)

/-- The method `Model.Init`. -/
def Model.Init (m : Model) : Cmd := Cmd.loadProjectsCmd m.client

/-- A value within the range of `int64`, the nearest bound otherwise. -/
def clampInt64 (x : Int) : Int :=
  if x < -2 ^ 63 then -2 ^ 63 else if 2 ^ 63 - 1 < x then 2 ^ 63 - 1 else x

/-- The method `t.Sub(u)`: the duration between two instants, in nanoseconds, the extreme duration when
the difference is out of range. -/
def Time.Sub (t u : Time) : Int := clampInt64 (t.unixNano - u.unixNano)

/-- The method `Model.Update`, on the message `msg` when the clock reads `now`: the next model and the
command, `none` for `nil`. -/
def Model.Update (now : Time) (m : Model) (msg : Msg) : Model × Option Cmd :=
  match msg with
  | Msg.KeyMsg key =>
    if key = "ctrl+c" ∨ key = "q" then
      ({ m with quitting := true }, some Cmd.Quit)
    else if key = "up" ∨ key = "k" then
      if m.state = stateSelectProject ∧ m.cursor > 0 then
        ({ m with cursor := m.cursor - 1 }, none)
      else if m.state = stateConfirm ∧ m.confirmSelection > 0 then
        ({ m with confirmSelection := m.confirmSelection - 1 }, none)
      else (m, none)
    else if key = "down" ∨ key = "j" then
      if m.state = stateSelectProject ∧ m.cursor < (m.projects.length : Int) - 1 then
        ({ m with cursor := m.cursor + 1 }, none)
      else if m.state = stateConfirm ∧ m.confirmSelection < 1 then
        ({ m with confirmSelection := m.confirmSelection + 1 }, none)
      else (m, none)
    else if key = "enter" then
      match m.state with
      | stateSelectProject =>
        if m.projects.length > 0 then
          ({ m with selectedProject := m.cursor, state := stateTimer }, none)
        else (m, none)
      | stateTimer =>
        if m.running then
          ({ m with
              running := false
              elapsed := wrapInt64 (m.elapsed + now.Sub m.startTime)
              state := stateConfirm }, none)
        else
          let m1 := { m with startTime := now, running := true }
          (m1, some Cmd.tickCmd)
      | stateConfirm =>
        if m.confirmSelection = 0 then
          (m, some (Cmd.saveTimeEntry m))
        else
          ({ m with state := stateTimer, confirmSelection := 0 }, none)
      | stateSuccess =>
        ({ m with state := stateSelectProject, elapsed := 0, running := false, err := none,
                  confirmSelection := 0 }, none)
      | stateError =>
        ({ m with state := stateSelectProject, elapsed := 0, running := false, err := none,
                  confirmSelection := 0 }, none)
    else if key = "esc" then
      if m.state = stateTimer ∧ !m.running then
        ({ m with state := stateSelectProject, elapsed := 0 }, none)
      else if m.state = stateConfirm then
        ({ m with state := stateTimer, confirmSelection := 0 }, none)
      else (m, none)
    else (m, none)
  | Msg.tickMsg _ =>
    if m.running then (m, some Cmd.tickCmd) else (m, none)
  | Msg.projectsLoadedMsg projects => ({ m with projects := projects }, none)
  | Msg.successMsg => ({ m with state := stateSuccess }, none)
  | Msg.errorMsg err => ({ m with err := some err, state := stateError }, none)
  | Msg.other => (m, none)

/-- The method `Duration.Seconds()`: the duration as a floating-point number of seconds. -/
def DurationSeconds (d : Int) : Float64 :=
  let sec := d.tdiv Second
  let nsec := d.tmod Second
  Float64.add (Float64.ofInt sec) (Float64.div (Float64.ofInt nsec) (Float64.ofFrac 1000000000 1))

/-- The time entry that the closure of `saveTimeEntry` builds, when the two calls of
`time.Now()` read `now1` (for the start time) and then `now2` (for the end time); `none` when
the index of the selected project is out of range, where the closure panics. -/
def Model.saveTimeEntryPayload (intOfUnrepresentable : Float64 → Int) (m : Model)
    (now1 now2 : Time) : Option TimeEntry :=
  if m.selectedProject < 0 then none
  else
    match m.projects[m.selectedProject.toNat]? with
    | none => none
    | some project =>
      let startTime := now1.Add (wrapInt64 (-m.elapsed))
      let endTime := now2
      let durationSeconds := Float64.toInt intOfUnrepresentable (DurationSeconds m.elapsed)
      some
        { ID := 0
          ProjectID := project.ID
          UserID := 1
          Description := "Tracked via TUI"
          StartTime := startTime
          EndTime := some endTime
          Duration := some durationSeconds
          Billable := true
          CreatedAt := Time.zero
          UpdatedAt := Time.zero }

/-- Running the closure of `saveTimeEntry`: the message it returns, `none` when it panics.
`createTimeEntry` is `Client.CreateTimeEntry`. -/
def Model.saveTimeEntry (intOfUnrepresentable : Float64 → Int)
    (createTimeEntry : TimeEntry → Except String TimeEntry) (m : Model) (now1 now2 : Time) :
    Option Msg :=
  match m.saveTimeEntryPayload intOfUnrepresentable now1 now2 with
  | none => none
  | some entry =>
    match createTimeEntry entry with
    | Except.error err => some (Msg.errorMsg err)
    | Except.ok _ => some Msg.successMsg

/-- A run of the event loop: `Update` applied to the messages in turn, each with the reading of
the clock at its arrival; the result is the last model and the commands issued, in order. -/
def runUpdates : Model → List (Time × Msg) → Model × List Cmd
  | m, [] => (m, [])
  | m, (now, msg) :: rest =>
    let step := m.Update now msg
    let tail := runUpdates step.1 rest
    (tail.1, step.2.toList ++ tail.2)

/-- The states after each message of a run of the event loop. -/
def runStates : Model → List (Time × Msg) → List state
  | _, [] => []
  | m, (now, msg) :: rest =>
    let m1 := (m.Update now msg).1
    m1.state :: runStates m1 rest

/-- Whether a command is a submission of a time entry. -/
def Cmd.isSave : Cmd → Bool
  | Cmd.saveTimeEntry _ => true
  | _ => false

/-- A project for the worked examples. -/
def sampleProject (id : Int) (name : String) : Project Float64 :=
  { ID := id, Name := name, Description := "", UserID := 1, HourlyRate := none,
    CreatedAt := Time.zero, UpdatedAt := Time.zero }

/-- A reading of the clock for the worked examples: `s` seconds and `ns` nanoseconds after the
epoch, local time. -/
def clockAt (s ns : Int) : Time := { sec := s, nsec := ns, loc := Location.Local }

/-- A model in Confirm for the worked examples: one project, with id 42, selected, and 5.9 s on
the stopwatch. -/
def sampleConfirmModel : Model :=
  { NewModel "http://localhost:8080" with
    projects := [sampleProject 42 "a"]
    selectedProject := 0
    state := stateConfirm
    elapsed := 5900000000 }

/-! ## fmt: the verbs the programs use -/

/-- The text of `fmt.Sprintf("%02d", n)`: the decimal digits of `n` in a field of width two
filled with zeros, the sign counting for the width. -/
def sprintf02d (n : Int) : String :=
  if n < 0 then "-" ++ toString n.natAbs
  else if n < 10 then "0" ++ toString n.natAbs
  else toString n.natAbs

/-- The decimal digits of `n` in a field of width `width` filled with zeros on the left. -/
def zeroPad (width : Nat) (n : Nat) : String :=
  String.mk (List.replicate (width - (toString n).length) '0') ++ toString n

/-- The text of `fmt.Sprintf("%.<prec>f", x)`: the exact value of `x` rounded to `prec`
decimals, to the nearest with a tie going to the even digit. -/
def sprintfFixed (prec : Nat) : Float64 → String
  | Float64.nan => "NaN"
  | Float64.posInf => "+Inf"
  | Float64.negInf => "-Inf"
  | Float64.fin m e =>
    let r := divRoundEven (m.natAbs * 2 ^ e.toNat * 10 ^ prec) (2 ^ (-e).toNat)
    (if m < 0 then "-" else "") ++ toString (r / 10 ^ prec) ++
      (if prec = 0 then "" else "." ++ zeroPad prec (r % 10 ^ prec))

/-- The bytes of a Go string: its UTF-8 encoding. `len(s)` is the length of this list and
`s[:n]` its first `n` elements. -/
def goBytes (s : String) : List UInt8 := s.data.flatMap String.utf8EncodeChar

/-! ## pkg/pdf: the table of time entries -/

/-- The drawing operations of the PDF library that the table uses. A text is passed as the
bytes of the Go string; the constant abscissas, widths and heights are integers. -/
inductive PdfOp where
  | SetFont (family style : String) (size : Int)
  | SetFillColor (r g b : Int)
  | SetTextColor (r g b : Int)
  | SetXY (x : Int) (y : Float64)
  | Rect (x : Int) (y : Float64) (w h : Int) (style : String)
  | Cell (w h : Int) (txt : List UInt8)
  | AddPage
  deriving DecidableEq, Repr

/-- The function `formatAmount`. -/
def formatAmount (amount : Float64) : String := sprintfFixed 2 amount

/-- The cells of one data row in the layout with prices, from the body of the loop of
`addTimeEntriesTable`; `formatTime layout t` is `t.Format(layout)`. -/
def pricingRow (formatTime : String → Time → String) (effectiveRate entryHours entryCost : Float64)
    (entry : TimeEntry) : List PdfOp :=
  let date := formatTime "01-02" entry.StartTime
  let description :=
    if (goBytes entry.Description).length > 32 then
      (goBytes entry.Description).take 29 ++ goBytes "..."
    else goBytes entry.Description
  let durationText :=
    match entry.Duration with
    | some d => sprintf02d (d.tdiv 3600) ++ ":" ++ sprintf02d ((d.tmod 3600).tdiv 60)
    | none => "00:00"
  let billableText := if entry.Billable then "Yes" else "No"
  [PdfOp.Cell 22 6 (goBytes date),
   PdfOp.Cell 65 6 description,
   PdfOp.Cell 22 6 (goBytes durationText),
   PdfOp.Cell 18 6 (goBytes billableText),
   PdfOp.Cell 18 6 (goBytes (sprintfFixed 1 entryHours)),
   (if entry.Billable then PdfOp.Cell 22 6 (goBytes (formatAmount effectiveRate))
    else PdfOp.Cell 22 6 (goBytes "-")),
   (if entry.Billable then PdfOp.Cell 23 6 (goBytes (formatAmount entryCost))
    else PdfOp.Cell 23 6 (goBytes "-"))]

/-- The cells of one data row in the layout without prices. -/
def plainRow (formatTime : String → Time → String) (entryHours : Float64) (entry : TimeEntry) :
    List PdfOp :=
  let date := formatTime "2006-01-02" entry.StartTime
  let description :=
    if (goBytes entry.Description).length > 45 then
      (goBytes entry.Description).take 42 ++ goBytes "..."
    else goBytes entry.Description
  let durationText :=
    match entry.Duration with
    | some d => sprintf02d (d.tdiv 3600) ++ ":" ++ sprintf02d ((d.tmod 3600).tdiv 60)
    | none => "00:00"
  let billableText := if entry.Billable then "Yes" else "No"
  [PdfOp.Cell 30 6 (goBytes date),
   PdfOp.Cell 80 6 description,
   PdfOp.Cell 30 6 (goBytes durationText),
   PdfOp.Cell 25 6 (goBytes billableText),
   PdfOp.Cell 25 6 (goBytes (sprintfFixed 1 entryHours))]

/-- The cells of one data row: the body of the loop of `addTimeEntriesTable` after the
positioning. -/
def tableRow (formatTime : String → Time → String) (includePricing : Bool)
    (effectiveRate : Float64) (entry : TimeEntry) : List PdfOp :=
  let entryHours : Float64 :=
    match entry.Duration with
    | some d => Float64.div (Float64.ofInt d) (Float64.ofInt 3600)
    | none => Float64.ofInt 0
  let entryCost : Float64 :=
    match entry.Duration with
    | some _ =>
      if Float64.gt effectiveRate (Float64.ofInt 0) then Float64.mul entryHours effectiveRate
      else Float64.ofInt 0
    | none => Float64.ofInt 0
  if Float64.gt effectiveRate (Float64.ofInt 0) && includePricing then
    pricingRow formatTime effectiveRate entryHours entryCost entry
  else
    plainRow formatTime entryHours entry

/-- The loop of `addTimeEntriesTable` with the row cursor at `y`. -/
def tableRows (formatTime : String → Time → String) (includePricing : Bool)
    (effectiveRate : Float64) : Float64 → List TimeEntry → List PdfOp
  | _, [] => []
  | y, entry :: rest =>
    [PdfOp.SetXY 10 y] ++
      (if Float64.gt y (Float64.ofInt 270) then [PdfOp.AddPage, PdfOp.SetXY 10 (Float64.ofInt 20)]
       else []) ++
      tableRow formatTime includePricing effectiveRate entry ++
      tableRows formatTime includePricing effectiveRate
        (Float64.add (if Float64.gt y (Float64.ofInt 270) then Float64.ofInt 20 else y)
          (Float64.ofInt 6))
        rest

/-- The method `Generator.addTimeEntriesTable`: the operations it performs on the document when
`pdf.GetXY()` gives the ordinate `currentY`. -/
def addTimeEntriesTable (formatTime : String → Time → String) (currentY : Float64)
    (config : ReportConfig Float64) (effectiveRate : Float64) : List PdfOp :=
  let tableY := Float64.add currentY (Float64.ofInt 10)
  let headerY := Float64.add tableY (Float64.ofInt 10)
  [PdfOp.SetFont "Arial" "B" 14,
   PdfOp.SetXY 10 tableY,
   PdfOp.Cell 190 8 (goBytes "TIME ENTRIES"),
   PdfOp.SetFillColor 52 152 219,
   PdfOp.SetTextColor 255 255 255,
   PdfOp.SetFont "Arial" "B" 9,
   PdfOp.SetXY 10 headerY,
   PdfOp.Rect 10 headerY 190 8 "F"] ++
  (if Float64.gt effectiveRate (Float64.ofInt 0) && config.IncludePricing then
    [PdfOp.Cell 22 8 (goBytes "Date"), PdfOp.Cell 65 8 (goBytes "Description"),
     PdfOp.Cell 22 8 (goBytes "Duration"), PdfOp.Cell 18 8 (goBytes "Billable"),
     PdfOp.Cell 18 8 (goBytes "Hours"), PdfOp.Cell 22 8 (goBytes "Rate"),
     PdfOp.Cell 23 8 (goBytes "Cost")]
   else
    [PdfOp.Cell 30 8 (goBytes "Date"), PdfOp.Cell 80 8 (goBytes "Description"),
     PdfOp.Cell 30 8 (goBytes "Duration"), PdfOp.Cell 25 8 (goBytes "Billable"),
     PdfOp.Cell 25 8 (goBytes "Hours")]) ++
  [PdfOp.SetTextColor 0 0 0, PdfOp.SetFont "Arial" "" 8] ++
  tableRows formatTime config.IncludePricing effectiveRate
    (Float64.add headerY (Float64.ofInt 8)) config.TimeEntries

/-- The page and the ordinate at which each cell of a sequence of operations is drawn, for a
document on page `page` with its cursor at `y`: `SetXY` moves the cursor, `AddPage` starts a
page with the cursor at the top margin (10 mm), and a cell is drawn where the cursor is. -/
def cellPositions : Nat → Float64 → List PdfOp → List (Nat × Float64)
  | _, _, [] => []
  | page, _, PdfOp.SetXY _ y :: ops => cellPositions page y ops
  | page, _, PdfOp.AddPage :: ops => cellPositions (page + 1) (Float64.ofInt 10) ops
  | page, y, PdfOp.Cell _ _ _ :: ops => (page, y) :: cellPositions page y ops
  | page, y, _ :: ops => cellPositions page y ops

/-- A formatting of dates for the worked examples, which gives the layout back. -/
def sampleFormatTime (layout : String) (_ : Time) : String := layout

/-- The ordinate of the first data row for a table that starts at `currentY`: 10 for the title,
10 for the header band and 8 for its height. -/
def firstRowY (currentY : Float64) : Float64 :=
  Float64.add (Float64.add (Float64.add currentY (Float64.ofInt 10)) (Float64.ofInt 10))
    (Float64.ofInt 8)

/-- Five entries of one hour for the worked examples. -/
def sampleFiveEntries : List TimeEntry := List.replicate 5 (sampleEntry (some 3600) true)

/-- A description of 17 characters that takes 34 bytes. -/
def sampleAccentedDescription : String := "ééééééééééééééééé"

/-- A report configuration on the concrete `float64` for the worked examples: no rates, no
prices. -/
def sampleConfigFloat : ReportConfig Float64 :=
  { Project := sampleProject 1 "p"
    TimeEntries := []
    Settings := { ID := 1, DefaultHourlyRate := none, Currency := "",
                  CreatedAt := Time.zero, UpdatedAt := Time.zero }
    IncludePricing := false, DateFrom := "", DateTo := "", BillableFilter := "" }

/-! ## cmd/migrate -/

namespace Migrate

/-- The calls `main` makes on the migration engine. -/
inductive Call where
  | Migrate (version : Nat)
  | Steps (n : Int)
  | Up
  | Down
  deriving DecidableEq, Repr

/-- What a call on the engine returns: no error, `migrate.ErrNoChange`, or another error. -/
inductive Result where
  | Ok
  | ErrNoChange
  | Error (text : String)
  deriving DecidableEq, Repr

/-- The errors of the three steps before the switch, `none` for a success: the connection to
the database, the driver and the engine. -/
structure Setup where
  connection : Option String
  driver : Option String
  engine : Option String

/-- How the run ends: `log.Fatalf` with a message, or a line printed and a normal return. -/
inductive Exit where
  | Fatal (message : String)
  | Printed (line : String)
  deriving DecidableEq, Repr

/-- The switch of `main` on the direction: the call it makes on the engine, `none` where it
makes none. -/
def selectCall (direction : String) (steps : Int) (version : Nat) : Option Call :=
  if direction = "up" then
    if version > 0 then some (Call.Migrate version)
    else if steps > 0 then some (Call.Steps steps)
    else some Call.Up
  else if direction = "down" then
    if version > 0 then some (Call.Migrate version)
    else if steps > 0 then some (Call.Steps (-steps))
    else some Call.Down
  else none

/-- The function `main` of the migration command, for the values of the flags `-direction`,
`-steps` and `-version`; `run` is the engine. The result is how the run ends and the calls made
on the engine. -/
def main (setup : Setup) (run : Call → Result) (direction : String) (steps : Int)
    (version : Nat) : Exit × List Call :=
  match setup.connection with
  | some err => (Exit.Fatal ("Failed to connect to database: " ++ err), [])
  | none =>
    match setup.driver with
    | some err => (Exit.Fatal ("Failed to create postgres driver: " ++ err), [])
    | none =>
      match setup.engine with
      | some err => (Exit.Fatal ("Failed to create migrate instance: " ++ err), [])
      | none =>
        match selectCall direction steps version with
        | none =>
          (Exit.Fatal ("Invalid direction: " ++ direction ++ ". Use 'up' or 'down'"), [])
        | some call =>
          match run call with
          | Result.Error text => (Exit.Fatal ("Migration failed: " ++ text), [call])
          | Result.ErrNoChange => (Exit.Printed "No migration changes to apply\n", [call])
          | Result.Ok =>
            (Exit.Printed ("Migration " ++ direction ++ " completed successfully\n"), [call])

/-- A setup in which the three steps succeed. -/
def setupOk : Setup := { connection := none, driver := none, engine := none }

end Migrate

/-- A model for the worked examples in the state `s`, with the choice `confirmSelection`
highlighted, an error text, two projects, the cursor on the second and 5.9 s on the stopwatch. -/
def sampleModelIn (s : state) (confirmSelection : Int) : Model :=
  { NewModel "http://localhost:8080" with
    projects := [sampleProject 41 "a", sampleProject 42 "b"]
    selectedProject := 1
    cursor := 1
    state := s
    elapsed := 5900000000
    err := some "failed to create time entry: status 500"
    confirmSelection := confirmSelection }

/-! ## pkg/api: the server -/

/-- Modelled from the spec: the record `models.User`, whose declaration is not among the
sources; an account with a numeric identifier, an email, a display name and the two
timestamps, the columns that `GetUsers` selects. -/
structure User where
  ID : Int
  Email : String
  Name : String
  CreatedAt : Time
  UpdatedAt : Time

/-- An error of the database: `sql.ErrNoRows`, or a failure with its text. -/
inductive DBError where
  | NoRows
  | Failure (text : String)
  deriving DecidableEq, Repr

/-- The text of an error, as `%v` prints it. -/
def DBError.text : DBError → String
  | DBError.NoRows => "sql: no rows in result set"
  | DBError.Failure text => text

/-- The database handle of the server on a database in state `σ`: each operation gives the
state afterwards and its result or its error. -/
structure Store (σ : Type) where
  SelectUsers : σ → String → List SQLArg → σ × Except DBError (List User)
  SelectProjects : σ → String → List SQLArg → σ × Except DBError (List (Project Float64))
  SelectTimeEntries : σ → String → List SQLArg → σ × Except DBError (List TimeEntry)
  GetProject : σ → String → List SQLArg → σ × Except DBError (Project Float64)
  GetTimeEntry : σ → String → List SQLArg → σ × Except DBError TimeEntry
  GetSettings : σ → String → List SQLArg → σ × Except DBError (Settings Float64)
  GetInt : σ → String → List SQLArg → σ × Except DBError Int
  QueryRow : σ → String → List SQLArg → σ × Except DBError Returned
  Exec : σ → String → List SQLArg → σ × Option DBError

/-- What the handlers read from a request: the verb, the path, the query string, and what
decoding the body gives for each of the shapes that a handler decodes it into (`none` when the
decoding fails), with the parts of an upload. -/
structure Request where
  Method : String
  Path : String
  Query : Values
  ProjectBody : Option (Project Float64)
  TimeEntryBody : Option TimeEntry
  SettingsBody : Option (Settings Float64)
  BillableBody : Option Bool
  FormParses : Bool
  FormProjectID : String
  FormFile : Option (Option (List (List String)))

/-- The body of a response: the text of `http.Error`, or the value encoded as JSON, or the
PDF with the name of its file. -/
inductive Body where
  | Text (text : String)
  | Health
  | Users (users : List User)
  | Projects (projects : List (Project Float64))
  | Project (project : Project Float64)
  | TimeEntries (timeEntries : List TimeEntry)
  | TimeEntry (timeEntry : TimeEntry)
  | Settings (settings : Settings Float64)
  | Currencies
  | Success (message : String)
  | Billable (billable : Bool)
  | Imported (message : String) (imported_count : Int)
  | PDF (filename : String) (bytes : List UInt8)

/-- A response: the status and the body. -/
structure Response where
  status : Nat
  body : Body

/-- The response of `http.Error(w, text, status)`, without a database operation. -/
def httpError {σ : Type} (db : σ) (status : Nat) (text : String) (log : List String) :
    Outcome σ Response :=
  { response := { status := status, body := Body.Text text }, db := db, log := log }

/-- The response of a JSON encoding with the given status. -/
def jsonResponse {σ : Type} (db : σ) (status : Nat) (body : Body) : Outcome σ Response :=
  { response := { status := status, body := body }, db := db, log := [] }

/-- The handler `Server.HealthCheck`. -/
def HealthCheck {σ : Type} (db : σ) (_ : Request) : Outcome σ Response :=
  jsonResponse db 200 Body.Health

/-- The handler `Server.GetSupportedCurrencies`. -/
def GetSupportedCurrencies {σ : Type} (db : σ) (_ : Request) : Outcome σ Response :=
  jsonResponse db 200 Body.Currencies

/-- The handler `Server.GetUsers`. -/
def GetUsers {σ : Type} (store : Store σ) (db : σ) (_ : Request) : Outcome σ Response :=
  match store.SelectUsers db
    "SELECT id, email, name, created_at, updated_at FROM users ORDER BY created_at DESC" []
  with
  | (db1, Except.error err) => httpError db1 500 "Failed to fetch users" [err.text ++ "\n"]
  | (db1, Except.ok users) => jsonResponse db1 200 (Body.Users users)

/-- The handler `Server.GetProjects`. -/
def GetProjects {σ : Type} (store : Store σ) (db : σ) (_ : Request) : Outcome σ Response :=
  match store.SelectProjects db
    "SELECT id, name, description, user_id, hourly_rate, created_at, updated_at FROM projects ORDER BY created_at DESC"
    []
  with
  | (db1, Except.error _) => httpError db1 500 "Failed to fetch projects" []
  | (db1, Except.ok projects) => jsonResponse db1 200 (Body.Projects projects)

/-- The handler `Server.CreateProject`. -/
def CreateProject {σ : Type} (store : Store σ) (db : σ) (r : Request) : Outcome σ Response :=
  if r.Method ≠ "POST" then httpError db 405 "Method not allowed" []
  else
    match r.ProjectBody with
    | none => httpError db 400 "Invalid JSON payload" []
    | some project =>
      match store.QueryRow db
        "INSERT INTO projects (name, description, user_id, hourly_rate) VALUES ($1, $2, $3, $4) RETURNING id, created_at, updated_at"
        [SQLArg.Str project.Name, SQLArg.Str project.Description, SQLArg.Int project.UserID,
         SQLArg.OptFloat project.HourlyRate]
      with
      | (db1, Except.error err) =>
        httpError db1 500 "Failed to create project"
          ["Error creating project: " ++ err.text ++ "\n"]
      | (db1, Except.ok row) =>
        jsonResponse db1 201
          (Body.Project
            { project with ID := row.ID, CreatedAt := row.CreatedAt, UpdatedAt := row.UpdatedAt })

/-- The handler `Server.GetProject`. -/
def GetProject {σ : Type} (store : Store σ) (db : σ) (r : Request) : Outcome σ Response :=
  if r.Method ≠ "GET" then httpError db 405 "Method not allowed" []
  else if r.Query.Get "id" = "" then httpError db 400 "Project ID is required" []
  else
    match store.GetProject db
      "SELECT id, name, description, user_id, hourly_rate, created_at, updated_at FROM projects WHERE id = $1"
      [SQLArg.Str (r.Query.Get "id")]
    with
    | (db1, Except.error err) =>
      httpError db1 404 "Project not found" ["Error fetching project: " ++ err.text ++ "\n"]
    | (db1, Except.ok project) => jsonResponse db1 200 (Body.Project project)

/-- The handler `Server.UpdateProject`. -/
def UpdateProject {σ : Type} (store : Store σ) (db : σ) (r : Request) : Outcome σ Response :=
  if r.Method ≠ "PUT" then httpError db 405 "Method not allowed" []
  else if r.Query.Get "id" = "" then httpError db 400 "Project ID is required" []
  else
    match r.ProjectBody with
    | none => httpError db 400 "Invalid JSON payload" []
    | some project =>
      match store.QueryRow db
        "UPDATE projects SET name = $1, description = $2, hourly_rate = $3, updated_at = NOW() WHERE id = $4 RETURNING id, created_at, updated_at"
        [SQLArg.Str project.Name, SQLArg.Str project.Description,
         SQLArg.OptFloat project.HourlyRate, SQLArg.Str (r.Query.Get "id")]
      with
      | (db1, Except.error err) =>
        httpError db1 500 "Failed to update project"
          ["Error updating project: " ++ err.text ++ "\n"]
      | (db1, Except.ok row) =>
        match store.GetInt db1 "SELECT user_id FROM projects WHERE id = $1"
          [SQLArg.Str (r.Query.Get "id")]
        with
        | (db2, res) =>
          jsonResponse db2 200
            (Body.Project
              { project with
                ID := row.ID, CreatedAt := row.CreatedAt, UpdatedAt := row.UpdatedAt
                UserID := match res with
                  | Except.ok userID => userID
                  | Except.error _ => 0 })

/-- The handler `Server.DeleteProject`. -/
def DeleteProject {σ : Type} (store : Store σ) (db : σ) (r : Request) : Outcome σ Response :=
  if r.Method ≠ "DELETE" then httpError db 405 "Method not allowed" []
  else if r.Query.Get "id" = "" then httpError db 400 "Project ID is required" []
  else
    match store.Exec db "DELETE FROM projects WHERE id = $1" [SQLArg.Str (r.Query.Get "id")] with
    | (db1, some err) =>
      httpError db1 500 "Failed to delete project"
        ["Error deleting project: " ++ err.text ++ "\n"]
    | (db1, none) => jsonResponse db1 200 (Body.Success "Project deleted")

/-- The handler `Server.GetTimeEntries`. -/
def GetTimeEntries {σ : Type} (store : Store σ) (db : σ) (_ : Request) : Outcome σ Response :=
  match store.SelectTimeEntries db
    "SELECT id, project_id, user_id, description, start_time, end_time, duration, billable, created_at, updated_at FROM time_entries ORDER BY start_time DESC"
    []
  with
  | (db1, Except.error err) =>
    httpError db1 500 "Failed to fetch time entries" [err.text ++ "\n"]
  | (db1, Except.ok timeEntries) => jsonResponse db1 200 (Body.TimeEntries timeEntries)

/-- The handler `Server.CreateTimeEntry`. -/
def CreateTimeEntry {σ : Type} (store : Store σ) (db : σ) (r : Request) : Outcome σ Response :=
  if r.Method ≠ "POST" then httpError db 405 "Method not allowed" []
  else
    match r.TimeEntryBody with
    | none => httpError db 400 "Invalid JSON payload" []
    | some timeEntry =>
      match store.QueryRow db
        "INSERT INTO time_entries (project_id, user_id, description, start_time, end_time, duration, billable) VALUES ($1, $2, $3, $4, $5, $6, $7) RETURNING id, created_at, updated_at"
        (insertTimeEntryArgs timeEntry)
      with
      | (db1, Except.error err) =>
        httpError db1 500 "Failed to create time entry"
          ["Error creating time entry: " ++ err.text ++ "\n"]
      | (db1, Except.ok row) =>
        jsonResponse db1 201
          (Body.TimeEntry
            { timeEntry with
              ID := row.ID, CreatedAt := row.CreatedAt, UpdatedAt := row.UpdatedAt })

/-- The handler `Server.GetTimeEntriesByProject` on the store. -/
def serveTimeEntriesByProject {σ : Type} (store : Store σ) (db : σ) (r : Request) :
    Outcome σ Response :=
  let projectID := r.Query.Get "project_id"
  if projectID = "" then httpError db 400 "Project ID is required" []
  else
    let st := byProjectStatement projectID (r.Query.Get "date_from") (r.Query.Get "date_to")
      (r.Query.Get "billable")
    match store.SelectTimeEntries db st.query st.args with
    | (db1, Except.error err) =>
      httpError db1 500 "Failed to fetch time entries"
        ["Error fetching time entries: " ++ err.text ++ "\n"]
    | (db1, Except.ok timeEntries) => jsonResponse db1 200 (Body.TimeEntries timeEntries)

/-- The handler `Server.UpdateTimeEntryBillable`. -/
def UpdateTimeEntryBillable {σ : Type} (store : Store σ) (db : σ) (r : Request) :
    Outcome σ Response :=
  if r.Method ≠ "PUT" then httpError db 405 "Method not allowed" []
  else if r.Query.Get "id" = "" then httpError db 400 "Time entry ID is required" []
  else
    match r.BillableBody with
    | none => httpError db 400 "Invalid JSON payload" []
    | some billable =>
      match store.Exec db
        "UPDATE time_entries SET billable = $1, updated_at = NOW() WHERE id = $2"
        [SQLArg.Bool billable, SQLArg.Str (r.Query.Get "id")]
      with
      | (db1, some err) =>
        httpError db1 500 "Failed to update time entry"
          ["Error updating time entry billable status: " ++ err.text ++ "\n"]
      | (db1, none) => jsonResponse db1 200 (Body.Billable billable)

/-- The handler `Server.GetTimeEntry`. -/
def GetTimeEntry {σ : Type} (store : Store σ) (db : σ) (r : Request) : Outcome σ Response :=
  if r.Method ≠ "GET" then httpError db 405 "Method not allowed" []
  else if r.Query.Get "id" = "" then httpError db 400 "Time entry ID is required" []
  else
    match store.GetTimeEntry db
      "SELECT id, project_id, user_id, description, start_time, end_time, duration, billable, created_at, updated_at FROM time_entries WHERE id = $1"
      [SQLArg.Str (r.Query.Get "id")]
    with
    | (db1, Except.error err) =>
      httpError db1 404 "Time entry not found"
        ["Error fetching time entry: " ++ err.text ++ "\n"]
    | (db1, Except.ok timeEntry) => jsonResponse db1 200 (Body.TimeEntry timeEntry)

/-- The handler `Server.UpdateTimeEntry`. -/
def UpdateTimeEntry {σ : Type} (store : Store σ) (db : σ) (r : Request) : Outcome σ Response :=
  if r.Method ≠ "PUT" then httpError db 405 "Method not allowed" []
  else if r.Query.Get "id" = "" then httpError db 400 "Time entry ID is required" []
  else
    match r.TimeEntryBody with
    | none => httpError db 400 "Invalid JSON payload" []
    | some timeEntry =>
      match store.QueryRow db
        "UPDATE time_entries SET project_id = $1, description = $2, start_time = $3, end_time = $4, duration = $5, billable = $6, updated_at = NOW() WHERE id = $7 RETURNING id, created_at, updated_at"
        [SQLArg.Int timeEntry.ProjectID, SQLArg.Str timeEntry.Description,
         SQLArg.Time timeEntry.StartTime, SQLArg.OptTime timeEntry.EndTime,
         SQLArg.OptInt timeEntry.Duration, SQLArg.Bool timeEntry.Billable,
         SQLArg.Str (r.Query.Get "id")]
      with
      | (db1, Except.error err) =>
        httpError db1 500 "Failed to update time entry"
          ["Error updating time entry: " ++ err.text ++ "\n"]
      | (db1, Except.ok row) =>
        jsonResponse db1 200
          (Body.TimeEntry
            { timeEntry with
              ID := row.ID, CreatedAt := row.CreatedAt, UpdatedAt := row.UpdatedAt })

/-- The handler `Server.DeleteTimeEntry`. -/
def DeleteTimeEntry {σ : Type} (store : Store σ) (db : σ) (r : Request) : Outcome σ Response :=
  if r.Method ≠ "DELETE" then httpError db 405 "Method not allowed" []
  else if r.Query.Get "id" = "" then httpError db 400 "Time entry ID is required" []
  else
    match store.Exec db "DELETE FROM time_entries WHERE id = $1"
      [SQLArg.Str (r.Query.Get "id")]
    with
    | (db1, some err) =>
      httpError db1 500 "Failed to delete time entry"
        ["Error deleting time entry: " ++ err.text ++ "\n"]
    | (db1, none) => jsonResponse db1 200 (Body.Success "Time entry deleted")

/-- The handler `Server.GetSettings`. -/
def GetSettings {σ : Type} (store : Store σ) (db : σ) (_ : Request) : Outcome σ Response :=
  match store.GetSettings db
    "SELECT id, default_hourly_rate, currency, created_at, updated_at FROM settings LIMIT 1" []
  with
  | (db1, Except.error err) =>
    httpError db1 500 "Failed to fetch settings"
      ["Error fetching settings: " ++ err.text ++ "\n"]
  | (db1, Except.ok settings) => jsonResponse db1 200 (Body.Settings settings)

/-- The handler `Server.UpdateSettings` on the store. -/
def serveUpdateSettings {σ : Type} (store : Store σ) (db : σ) (r : Request) :
    Outcome σ Response :=
  let out := UpdateSettings
    (fun db query args =>
      ((store.QueryRow db query args).1,
        match (store.QueryRow db query args).2 with
        | Except.error err => Except.error err.text
        | Except.ok row => Except.ok row))
    db r.Method r.SettingsBody
  { response :=
      match out.response with
      | SettingsResponse.Error status text => { status := status, body := Body.Text text }
      | SettingsResponse.JSON settings => { status := 200, body := Body.Settings settings }
    db := out.db
    log := out.log }

/-- The handler `Server.ImportTimeEntriesCSV` on the store. -/
def serveImportTimeEntriesCSV {σ : Type} (lib : Lib) (store : Store σ) (db : σ) (r : Request) :
    Outcome σ Response :=
  let out := ImportTimeEntriesCSV lib
    { Exec := fun db query args =>
        ((store.Exec db query args).1, (store.Exec db query args).2.map DBError.text) }
    db
    { Method := r.Method, FormParses := r.FormParses, ProjectID := r.FormProjectID,
      File := r.FormFile }
  { response :=
      match out.response with
      | ImportResponse.Error status text => { status := status, body := Body.Text text }
      | ImportResponse.Imported _ message count =>
        { status := 200, body := Body.Imported message count }
    db := out.db
    log := out.log }

/-- The statement `GeneratePDFReport` builds from its four query parameters. -/
def reportStatement (projectID dateFrom dateTo billableFilter : String) : Statement :=
  let s0 : Statement :=
    { query := "SELECT id, project_id, user_id, description, start_time, end_time, duration, billable, created_at, updated_at FROM time_entries WHERE project_id = $1"
      args := [SQLArg.Str projectID], argIndex := 2 }
  let s1 : Statement :=
    if dateFrom ≠ "" then
      { query := s0.query ++ (" AND DATE(start_time) >= $" ++ toString s0.argIndex)
        args := s0.args ++ [SQLArg.Str dateFrom]
        argIndex := s0.argIndex + 1 }
    else s0
  let s2 : Statement :=
    if dateTo ≠ "" then
      { query := s1.query ++ (" AND DATE(start_time) <= $" ++ toString s1.argIndex)
        args := s1.args ++ [SQLArg.Str dateTo]
        argIndex := s1.argIndex + 1 }
    else s1
  let s3 : Statement :=
    if billableFilter = "billable" then
      { s2 with
        query := s2.query ++ (" AND billable = $" ++ toString s2.argIndex)
        args := s2.args ++ [SQLArg.Bool true] }
    else if billableFilter = "non-billable" then
      { s2 with
        query := s2.query ++ (" AND billable = $" ++ toString s2.argIndex)
        args := s2.args ++ [SQLArg.Bool false] }
    else s2
  { s3 with query := s3.query ++ " ORDER BY start_time ASC" }

/-- The PDF generator as the report handler uses it: `GenerateTimeReport`, which gives the
bytes of the document or an error, and `GetFilename`. -/
structure ReportGenerator where
  GenerateTimeReport : ReportConfig Float64 → Except String (List UInt8)
  GetFilename : String → String

/-- The zero value of `models.Settings`. -/
def Settings.zero : Settings Float64 :=
  { ID := 0, DefaultHourlyRate := none, Currency := "", CreatedAt := Time.zero,
    UpdatedAt := Time.zero }

/-- The handler `Server.GeneratePDFReport`. -/
def GeneratePDFReport {σ : Type} (generator : ReportGenerator) (store : Store σ) (db : σ)
    (r : Request) : Outcome σ Response :=
  if r.Method ≠ "GET" then httpError db 405 "Method not allowed" []
  else if r.Query.Get "project_id" = "" then httpError db 400 "Project ID is required" []
  else
    let projectID := r.Query.Get "project_id"
    let dateFrom := r.Query.Get "date_from"
    let dateTo := r.Query.Get "date_to"
    let billableFilter := r.Query.Get "billable"
    let includePricing := r.Query.Get "include_pricing" ≠ "false"
    match store.GetProject db
      "SELECT id, name, description, user_id, hourly_rate, created_at, updated_at FROM projects WHERE id = $1"
      [SQLArg.Str projectID]
    with
    | (db1, Except.error _) => httpError db1 404 "Project not found" []
    | (db1, Except.ok project) =>
      match store.GetSettings db1
        "SELECT id, default_hourly_rate, currency, created_at, updated_at FROM settings LIMIT 1"
        []
      with
      | (db2, settingsResult) =>
        let settings := match settingsResult with
          | Except.ok settings => settings
          | Except.error _ => Settings.zero
        let log1 := match settingsResult with
          | Except.ok _ => []
          | Except.error err => ["Error fetching settings: " ++ err.text ++ "\n"]
        let st := reportStatement projectID dateFrom dateTo billableFilter
        match store.SelectTimeEntries db2 st.query st.args with
        | (db3, Except.error err) =>
          httpError db3 500 "Failed to fetch time entries"
            (log1 ++ ["Error fetching time entries: " ++ err.text ++ "\n"])
        | (db3, Except.ok timeEntries) =>
          match generator.GenerateTimeReport
            { Project := project, TimeEntries := timeEntries, Settings := settings,
              IncludePricing := decide includePricing, DateFrom := dateFrom, DateTo := dateTo,
              BillableFilter := billableFilter }
          with
          | Except.error err =>
            httpError db3 500 "Failed to generate PDF"
              (log1 ++ ["Error generating PDF: " ++ err ++ "\n"])
          | Except.ok buf =>
            { response :=
                { status := 200, body := Body.PDF (generator.GetFilename project.Name) buf }
              db := db3, log := log1 }

/-- The response of the multiplexer to a path that no route matches. -/
def notFound {σ : Type} (db : σ) : Outcome σ Response :=
  httpError db 404 "404 page not found" []

/-- The routes of `Server.SetupRoutes`: the handler that the multiplexer runs for the path of
the request, with the switch on the verb where the route has one. -/
def ServeHTTP {σ : Type} (lib : Lib) (generator : ReportGenerator) (store : Store σ) (db : σ)
    (r : Request) : Outcome σ Response :=
  if r.Path = "/healthz" then HealthCheck db r
  else if r.Path = "/api/users" then GetUsers store db r
  else if r.Path = "/api/projects" then
    if r.Method = "GET" then GetProjects store db r
    else if r.Method = "POST" then CreateProject store db r
    else httpError db 405 "Method not allowed" []
  else if r.Path = "/api/time-entries" then
    if r.Method = "GET" then GetTimeEntries store db r
    else if r.Method = "POST" then CreateTimeEntry store db r
    else httpError db 405 "Method not allowed" []
  else if r.Path = "/api/time-entries/project" then serveTimeEntriesByProject store db r
  else if r.Path = "/api/time-entries/billable" then UpdateTimeEntryBillable store db r
  else if r.Path = "/api/time-entries/import" then serveImportTimeEntriesCSV lib store db r
  else if r.Path = "/api/time-entries/single" then
    if r.Method = "GET" then GetTimeEntry store db r
    else if r.Method = "PUT" then UpdateTimeEntry store db r
    else if r.Method = "DELETE" then DeleteTimeEntry store db r
    else httpError db 405 "Method not allowed" []
  else if r.Path = "/api/settings" then
    if r.Method = "GET" then GetSettings store db r
    else if r.Method = "PUT" then serveUpdateSettings store db r
    else httpError db 405 "Method not allowed" []
  else if r.Path = "/api/projects/single" then
    if r.Method = "GET" then GetProject store db r
    else if r.Method = "PUT" then UpdateProject store db r
    else if r.Method = "DELETE" then DeleteProject store db r
    else httpError db 405 "Method not allowed" []
  else if r.Path = "/api/reports/pdf" then GeneratePDFReport generator store db r
  else if r.Path = "/api/currencies" then GetSupportedCurrencies db r
  else notFound db

/-- The routes with the verbs that the API surface of the specification lists for them. -/
def apiSurface : List (String × List String) :=
  [("/healthz", ["GET"]),
   ("/api/users", ["GET"]),
   ("/api/projects", ["GET", "POST"]),
   ("/api/projects/single", ["GET", "PUT", "DELETE"]),
   ("/api/time-entries", ["GET", "POST"]),
   ("/api/time-entries/project", ["GET"]),
   ("/api/time-entries/billable", ["PUT"]),
   ("/api/time-entries/import", ["POST"]),
   ("/api/time-entries/single", ["GET", "PUT", "DELETE"]),
   ("/api/settings", ["GET", "PUT"]),
   ("/api/currencies", ["GET"]),
   ("/api/reports/pdf", ["GET"])]

/-- The routes whose handler does not look at the verb. -/
def routesWithoutVerbCheck : List String :=
  ["/healthz", "/api/users", "/api/time-entries/project", "/api/currencies"]

/-- A store for the worked examples that counts the operations performed on it and answers each
of them without error: no row for a list, and fixed records for the other reads. -/
def countingStore : Store Nat where
  SelectUsers := fun db _ _ => (db + 1, Except.ok [])
  SelectProjects := fun db _ _ => (db + 1, Except.ok [])
  SelectTimeEntries := fun db _ _ => (db + 1, Except.ok [])
  GetProject := fun db _ _ => (db + 1, Except.ok (sampleProject 7 "p"))
  GetTimeEntry := fun db _ _ => (db + 1, Except.ok (sampleEntry (some 3600) true))
  GetSettings := fun db _ _ => (db + 1, Except.ok Settings.zero)
  GetInt := fun db _ _ => (db + 1, Except.ok 1)
  QueryRow := fun db _ _ =>
    (db + 1, Except.ok { ID := 1, CreatedAt := Time.zero, UpdatedAt := Time.zero })
  Exec := fun db _ _ => (db + 1, none)

/-- A store for the worked examples that counts the operations performed on it and fails each
of them: the database cannot be reached. -/
def failingStore : Store Nat where
  SelectUsers := fun db _ _ => (db + 1, Except.error (DBError.Failure "connection refused"))
  SelectProjects := fun db _ _ => (db + 1, Except.error (DBError.Failure "connection refused"))
  SelectTimeEntries := fun db _ _ =>
    (db + 1, Except.error (DBError.Failure "connection refused"))
  GetProject := fun db _ _ => (db + 1, Except.error (DBError.Failure "connection refused"))
  GetTimeEntry := fun db _ _ => (db + 1, Except.error (DBError.Failure "connection refused"))
  GetSettings := fun db _ _ => (db + 1, Except.error (DBError.Failure "connection refused"))
  GetInt := fun db _ _ => (db + 1, Except.error (DBError.Failure "connection refused"))
  QueryRow := fun db _ _ => (db + 1, Except.error (DBError.Failure "connection refused"))
  Exec := fun db _ _ => (db + 1, some (DBError.Failure "connection refused"))

/-- The counting store with a settings table that cannot be read. -/
def settingsDownStore : Store Nat :=
  { countingStore with
    GetSettings := fun db _ _ =>
      (db + 1, Except.error (DBError.Failure "relation \"settings\" does not exist")) }

/-- A generator for the worked examples: a document of no bytes, named after the project. -/
def sampleGenerator : ReportGenerator where
  GenerateTimeReport := fun _ => Except.ok []
  GetFilename := fun projectName => projectName ++ "-time-report.pdf"

/-- A request for the worked examples, with the given verb, path and query string, a body that
decodes into every shape, and an upload of one data row for project 7. -/
def sampleRequest (method path : String) (query : Values) : Request :=
  { Method := method, Path := path, Query := query
    ProjectBody := some (sampleProject 0 "p")
    TimeEntryBody := some (sampleEntry (some 3600) true)
    SettingsBody := some Settings.zero
    BillableBody := some true
    FormParses := true
    FormProjectID := "7"
    FormFile := some (some [["date", "hours"], ["2024-01-15", "3.5"]]) }

/-- The database handle as the import sees it: `Exec`, with the error as its text. -/
def Store.asDatabase {σ : Type} (store : Store σ) : Database σ where
  Exec := fun db query args =>
    ((store.Exec db query args).1, (store.Exec db query args).2.map DBError.text)

/-- The lines that the second loop of `ImportTimeEntriesCSV` prints: one for each INSERT that
fails, in the order of the entries. -/
def insertFailures {σ : Type} (database : Database σ) : σ → List TimeEntry → List String
  | _, [] => []
  | db, entry :: rest =>
    match (database.Exec db insertTimeEntryQuery (insertTimeEntryArgs entry)).2 with
    | some err =>
      ("Error inserting time entry: " ++ err ++ "\n") ::
        insertFailures database
          (database.Exec db insertTimeEntryQuery (insertTimeEntryArgs entry)).1 rest
    | none =>
      insertFailures database
        (database.Exec db insertTimeEntryQuery (insertTimeEntryArgs entry)).1 rest

/-- A store for the worked examples that counts the operations performed on it and answers
each read, while each write through `QueryRow` violates a constraint. -/
def constraintStore : Store Nat :=
  { countingStore with
    QueryRow := fun db _ _ =>
      (db + 1, Except.error (DBError.Failure "duplicate key value violates unique constraint")) }

/-- A store for the worked examples that answers each operation, with no row for a lookup by
id. -/
def noRowStore : Store Nat :=
  { countingStore with
    GetProject := fun db _ _ => (db + 1, Except.error DBError.NoRows)
    GetTimeEntry := fun db _ _ => (db + 1, Except.error DBError.NoRows) }

/-! ## The elapsed-time text (`tui/model.go`) -/

/-- One minute as a `time.Duration`, in nanoseconds. -/
def Minute : Int := 60000000000

/-- One hour as a `time.Duration`, in nanoseconds. -/
def Hour : Int := 3600000000000

/-- The method `Duration.Minutes()`: the duration as a floating-point number of minutes, the
whole minutes plus the remaining nanoseconds divided by `60 * 1e9`. -/
def DurationMinutes (d : Int) : Float64 :=
  let min := d.tdiv Minute
  let nsec := d.tmod Minute
  Float64.add (Float64.ofInt min) (Float64.div (Float64.ofInt nsec) (Float64.ofFrac 60000000000 1))

/-- The method `Duration.Hours()`: the duration as a floating-point number of hours, the whole
hours plus the remaining nanoseconds divided by `60 * 60 * 1e9`. -/
def DurationHours (d : Int) : Float64 :=
  let hour := d.tdiv Hour
  let nsec := d.tmod Hour
  Float64.add (Float64.ofInt hour)
    (Float64.div (Float64.ofInt nsec) (Float64.ofFrac 3600000000000 1))

/-- The function `formatDuration`: the three conversions `int(d.Hours())`,
`int(d.Minutes()) % 60` and `int(d.Seconds()) % 60`, printed with `%02d:%02d:%02d`. -/
def formatDuration (intOfUnrepresentable : Float64 → Int) (d : Int) : String :=
  let hours := Float64.toInt intOfUnrepresentable (DurationHours d)
  let minutes := (Float64.toInt intOfUnrepresentable (DurationMinutes d)).tmod 60
  let seconds := (Float64.toInt intOfUnrepresentable (DurationSeconds d)).tmod 60
  sprintf02d hours ++ ":" ++ sprintf02d minutes ++ ":" ++ sprintf02d seconds

/-- The clock text that `Model.viewTimer` renders, when `time.Since` reads the clock at `now`:
the elapsed time, with the time since the start added while the timer runs, printed as
`formatDuration` prints it. -/
def Model.viewTimerClock (intOfUnrepresentable : Float64 → Int) (now : Time) (m : Model) :
    String :=
  let elapsed := if m.running then wrapInt64 (m.elapsed + now.Sub m.startTime) else m.elapsed
  let hours := Float64.toInt intOfUnrepresentable (DurationHours elapsed)
  let minutes := (Float64.toInt intOfUnrepresentable (DurationMinutes elapsed)).tmod 60
  let seconds := (Float64.toInt intOfUnrepresentable (DurationSeconds elapsed)).tmod 60
  sprintf02d hours ++ ":" ++ sprintf02d minutes ++ ":" ++ sprintf02d seconds

/-- The duration of 4096 hours, 59 minutes and 59.999999999 seconds: one nanosecond short of
4097 hours. -/
def sampleLongDuration : Int := 4097 * Hour - 1

/-! ## Order of instants -/

/-- The method `t.Before(u)`: whether the instant `t` is earlier than the instant `u`. -/
def Time.Before (t u : Time) : Bool :=
  decide (t.sec < u.sec ∨ (t.sec = u.sec ∧ t.nsec < u.nsec))

/-! ## The project lookups of the terminal UI (`tui/model.go`) -/

/-- The lookup `m.projects[m.selectedProject]` of `viewTimer`, `viewConfirm` and the closure of
`saveTimeEntry`: `none` when the index is out of range, where the lookup panics. -/
def Model.lookupSelectedProject (m : Model) : Option (Project Float64) :=
  if m.selectedProject < 0 then none else m.projects[m.selectedProject.toNat]?

/-- The screens of `Model.View`; the timer and the confirmation screens show the selected
project. -/
inductive Screen where
  | Goodbye
  | ProjectSelection
  | Timer (project : Project Float64)
  | Confirm (project : Project Float64)
  | Success
  | Error

/-- The method `Model.View`, as to the screen it renders and the project it looks up for it;
`none` when the lookup panics. -/
def Model.View (m : Model) : Option Screen :=
  if m.quitting then some Screen.Goodbye
  else
    match m.state with
    | stateSelectProject => some Screen.ProjectSelection
    | stateTimer => m.lookupSelectedProject.map Screen.Timer
    | stateConfirm => m.lookupSelectedProject.map Screen.Confirm
    | stateSuccess => some Screen.Success
    | stateError => some Screen.Error

/-- Whether a message is a `projectsLoadedMsg`. -/
def Msg.isProjectsLoaded : Msg → Bool
  | Msg.projectsLoadedMsg _ => true
  | _ => false

/-- The invariant of the event loop, `loaded` telling whether the list of projects has arrived:
the cursor is 0 or an index of the list, the selected project is an index of the list in the
Timer and the Confirm states, and the list is empty until it arrives. -/
def Model.inRange (loaded : Bool) (m : Model) : Prop :=
  0 ≤ m.cursor ∧ (m.cursor = 0 ∨ m.cursor < m.projects.length) ∧
  ((m.state = stateTimer ∨ m.state = stateConfirm) →
    0 ≤ m.selectedProject ∧ m.selectedProject < m.projects.length) ∧
  (loaded = false → m.projects = [])

/-- A run for the worked examples: two projects arrive, then the keys "down" and "enter". -/
def sampleSelectRun : List (Time × Msg) :=
  [(clockAt 1000 0, Msg.projectsLoadedMsg [sampleProject 41 "a", sampleProject 42 "b"]),
   (clockAt 1001 0, Msg.KeyMsg "down"),
   (clockAt 1002 0, Msg.KeyMsg "enter")]

/-! ## The placeholders of a SQL text -/

/-- The number written by a list of decimal digits. -/
def digitsValue (digits : List Char) : Nat :=
  digits.foldl (fun n c => 10 * n + (c.toNat - 48)) 0

/-- The numbers of the placeholders `$n` in a list of characters, in the order of the text: a
`$` followed by at least one digit, with all the digits that follow it. -/
def placeholdersOf : List Char → List Nat
  | [] => []
  | c :: cs =>
    if c = '$' ∧ cs.takeWhile Char.isDigit ≠ [] then
      digitsValue (cs.takeWhile Char.isDigit) :: placeholdersOf cs
    else placeholdersOf cs

/-- The numbers of the placeholders `$n` of a SQL text, in the order of the text. -/
def placeholders (query : String) : List Nat := placeholdersOf query.data

/-! # Theorems -/

/-! ## calculateTotals -/

theorem totalsStep_totalHours {F : Type} (ops : FloatOps F) (h0 : ∀ x, ops.add x ops.zero = x)
    (rate : F) (acc : Sums F) (entry : TimeEntry) :
    (totalsStep ops rate acc entry).totalHours = ops.add acc.totalHours (entryHours ops entry) := by
  unfold totalsStep entryHours
  cases entry.Duration with
  | none => simp [h0]
  | some d => cases entry.Billable <;> simp

theorem totalsStep_billableHours {F : Type} (ops : FloatOps F)
    (h0 : ∀ x, ops.add x ops.zero = x) (rate : F) (acc : Sums F) (entry : TimeEntry) :
    (totalsStep ops rate acc entry).billableHours =
      if entry.Billable then ops.add acc.billableHours (entryHours ops entry)
      else acc.billableHours := by
  unfold totalsStep entryHours
  cases entry.Duration with
  | none => simp [h0]
  | some d => cases entry.Billable <;> simp

theorem totalsStep_totalCost {F : Type} (ops : FloatOps F) (h0 : ∀ x, ops.add x ops.zero = x)
    (rate : F) (acc : Sums F) (entry : TimeEntry) :
    (totalsStep ops rate acc entry).totalCost =
      ops.add acc.totalCost (entryCost ops rate entry) := by
  unfold totalsStep entryCost
  cases entry.Duration with
  | none => simp [h0]
  | some d => cases entry.Billable <;> simp

theorem totalsStep_billableCost {F : Type} (ops : FloatOps F)
    (h0 : ∀ x, ops.add x ops.zero = x) (rate : F) (acc : Sums F) (entry : TimeEntry) :
    (totalsStep ops rate acc entry).billableCost =
      if entry.Billable then ops.add acc.billableCost (entryCost ops rate entry)
      else acc.billableCost := by
  unfold totalsStep entryCost
  cases entry.Duration with
  | none => simp [h0]
  | some d => cases entry.Billable <;> simp

/-- The loop of `calculateTotals`, field by field: each running sum is the left-to-right sum of
the per-entry values, the billable ones over the billable entries only. -/
theorem foldl_totalsStep {F : Type} (ops : FloatOps F) (h0 : ∀ x, ops.add x ops.zero = x)
    (rate : F) (entries : List TimeEntry) (acc : Sums F) :
    let r := entries.foldl (totalsStep ops rate) acc
    r.totalHours = (entries.map (entryHours ops)).foldl ops.add acc.totalHours ∧
    r.billableHours =
      ((entries.filter (fun e => e.Billable)).map (entryHours ops)).foldl ops.add
        acc.billableHours ∧
    r.totalCost = (entries.map (entryCost ops rate)).foldl ops.add acc.totalCost ∧
    r.billableCost =
      ((entries.filter (fun e => e.Billable)).map (entryCost ops rate)).foldl ops.add
        acc.billableCost := by
  induction entries generalizing acc with
  | nil => simp
  | cons e es ih =>
    have h := ih (totalsStep ops rate acc e)
    simp only [List.foldl_cons, List.map_cons, List.filter_cons] at h ⊢
    rw [totalsStep_totalHours ops h0, totalsStep_billableHours ops h0,
      totalsStep_totalCost ops h0, totalsStep_billableCost ops h0] at h
    cases hb : e.Billable <;> simpa [hb] using h

/-- C1. `calculateTotals` returns as effective rate the project's own rate when it is present
(whatever its value), otherwise the settings' default rate when that is present, otherwise zero;
a project without a rate and a default of 50.0 gives 50.0, and a project with rate 75.0 gives
75.0 for every default. -/
theorem calculateTotals_effectiveRate {F : Type} (ops : FloatOps F) (config : ReportConfig F) :
    (calculateTotals ops config).effectiveRate =
        (match config.Project.HourlyRate, config.Settings.DefaultHourlyRate with
          | some r, _ => r
          | none, some d => d
          | none, none => ops.zero) ∧
      (∀ (config : ReportConfig Float64),
        (calculateTotals float64Ops
          { config with
            Project := { config.Project with HourlyRate := none }
            Settings := { config.Settings with
              DefaultHourlyRate := some (Float64.ofFrac 50 1) } }).effectiveRate
          = Float64.ofFrac 50 1) ∧
      (∀ (config : ReportConfig Float64),
        (calculateTotals float64Ops
          { config with
            Project := { config.Project with
              HourlyRate := some (Float64.ofFrac 75 1) } }).effectiveRate
          = Float64.ofFrac 75 1) := by
  refine ⟨?_, fun _ => rfl, fun _ => rfl⟩
  simp only [calculateTotals, effectiveRateOf]
  cases config.Project.HourlyRate <;> cases config.Settings.DefaultHourlyRate <;> rfl

/-- The loop of `calculateTotals` without any law of arithmetic: each running sum is the
left-to-right sum over the entries that have a duration, the billable ones over the billable
entries only. -/
theorem foldl_totalsStep_present {F : Type} (ops : FloatOps F) (rate : F)
    (entries : List TimeEntry) (acc : Sums F) :
    let r := entries.foldl (totalsStep ops rate) acc
    r.totalHours = (entries.filterMap (hoursOf ops)).foldl ops.add acc.totalHours ∧
    r.billableHours =
      ((entries.filter (fun e => e.Billable)).filterMap (hoursOf ops)).foldl ops.add
        acc.billableHours ∧
    r.totalCost = (entries.filterMap (costOf ops rate)).foldl ops.add acc.totalCost ∧
    r.billableCost =
      ((entries.filter (fun e => e.Billable)).filterMap (costOf ops rate)).foldl ops.add
        acc.billableCost := by
  induction entries generalizing acc with
  | nil => simp
  | cons e es ih =>
    have h := ih (totalsStep ops rate acc e)
    simp only [List.foldl_cons] at h ⊢
    cases hd : e.Duration <;> cases hb : e.Billable <;>
      simpa [totalsStep, hoursOf, costOf, hd, hb, List.filterMap_cons, List.filter_cons]
        using h

/-- C2. Total hours are the sum over all entries of duration / 3600, and billable hours the same
sum over the entries whose billable flag is set; an entry without a duration adds nothing, which
is adding zero where `x + 0 = x`. The sums are float64 sums taken in list order. -/
theorem calculateTotals_hours {F : Type} (ops : FloatOps F) (config : ReportConfig F) :
    ((calculateTotals ops config).totalHours =
        sumF ops (config.TimeEntries.filterMap (hoursOf ops)) ∧
      (calculateTotals ops config).billableHours =
        sumF ops ((config.TimeEntries.filter (fun e => e.Billable)).filterMap (hoursOf ops))) ∧
    ((∀ x, ops.add x ops.zero = x) →
      (calculateTotals ops config).totalHours =
        sumF ops (config.TimeEntries.map (entryHours ops)) ∧
      (calculateTotals ops config).billableHours =
        sumF ops ((config.TimeEntries.filter (fun e => e.Billable)).map (entryHours ops))) := by
  have h := foldl_totalsStep_present ops (effectiveRateOf ops config) config.TimeEntries
    { totalHours := ops.zero, billableHours := ops.zero,
      totalCost := ops.zero, billableCost := ops.zero }
  refine ⟨⟨h.1, h.2.1⟩, fun h0 => ?_⟩
  have h' := foldl_totalsStep ops h0 (effectiveRateOf ops config) config.TimeEntries
    { totalHours := ops.zero, billableHours := ops.zero,
      totalCost := ops.zero, billableCost := ops.zero }
  exact ⟨h'.1, h'.2.1⟩

/-- Witness of C2 on exact arithmetic: 5400 s and 1800 s make 2 hours in total, 3/2 of them
billable. -/
theorem calculateTotals_hours_witness :
    (∀ x : ℚ, exactOps.add x exactOps.zero = x) ∧
      ((calculateTotals exactOps sampleConfig).totalHours =
          sumF exactOps (sampleConfig.TimeEntries.map (entryHours exactOps)) ∧
        (calculateTotals exactOps sampleConfig).billableHours =
          sumF exactOps
            ((sampleConfig.TimeEntries.filter (fun e => e.Billable)).map
              (entryHours exactOps))) ∧
      (calculateTotals exactOps sampleConfig).totalHours = 2 ∧
      (calculateTotals exactOps sampleConfig).billableHours = 3 / 2 :=
  ⟨fun x => add_zero x, (calculateTotals_hours exactOps sampleConfig).2 (fun x => add_zero x),
    by norm_num [calculateTotals, sampleConfig, sampleEntry, totalsStep, exactOps],
    by norm_num [calculateTotals, sampleConfig, sampleEntry, totalsStep, exactOps]⟩

/-- C3. Total cost is the sum over all entries, billable or not, of hours × effective rate, and
billable cost is the sum over the billable entries only; an entry without a duration adds
nothing, which is adding zero where `x + 0 = x`. The sums are float64 sums taken in list
order. -/
theorem calculateTotals_cost {F : Type} (ops : FloatOps F) (config : ReportConfig F) :
    ((calculateTotals ops config).totalCost =
        sumF ops (config.TimeEntries.filterMap
          (costOf ops (calculateTotals ops config).effectiveRate)) ∧
      (calculateTotals ops config).billableCost =
        sumF ops ((config.TimeEntries.filter (fun e => e.Billable)).filterMap
          (costOf ops (calculateTotals ops config).effectiveRate))) ∧
    ((∀ x, ops.add x ops.zero = x) →
      (calculateTotals ops config).totalCost =
        sumF ops (config.TimeEntries.map
          (entryCost ops (calculateTotals ops config).effectiveRate)) ∧
      (calculateTotals ops config).billableCost =
        sumF ops ((config.TimeEntries.filter (fun e => e.Billable)).map
          (entryCost ops (calculateTotals ops config).effectiveRate))) := by
  have h := foldl_totalsStep_present ops (effectiveRateOf ops config) config.TimeEntries
    { totalHours := ops.zero, billableHours := ops.zero,
      totalCost := ops.zero, billableCost := ops.zero }
  refine ⟨⟨h.2.2.1, h.2.2.2⟩, fun h0 => ?_⟩
  have h' := foldl_totalsStep ops h0 (effectiveRateOf ops config) config.TimeEntries
    { totalHours := ops.zero, billableHours := ops.zero,
      totalCost := ops.zero, billableCost := ops.zero }
  exact ⟨h'.2.2.1, h'.2.2.2⟩

/-- Witness of C3 on exact arithmetic: at rate 50 the two hours cost 100, the billable hour and
a half 75. -/
theorem calculateTotals_cost_witness :
    (∀ x : ℚ, exactOps.add x exactOps.zero = x) ∧
      ((calculateTotals exactOps sampleConfig).totalCost =
          sumF exactOps (sampleConfig.TimeEntries.map
            (entryCost exactOps (calculateTotals exactOps sampleConfig).effectiveRate)) ∧
        (calculateTotals exactOps sampleConfig).billableCost =
          sumF exactOps ((sampleConfig.TimeEntries.filter (fun e => e.Billable)).map
            (entryCost exactOps (calculateTotals exactOps sampleConfig).effectiveRate))) ∧
      (calculateTotals exactOps sampleConfig).totalCost = 100 ∧
      (calculateTotals exactOps sampleConfig).billableCost = 75 :=
  ⟨fun x => add_zero x, (calculateTotals_cost exactOps sampleConfig).2 (fun x => add_zero x),
    by norm_num [calculateTotals, sampleConfig, sampleEntry, totalsStep, exactOps,
      effectiveRateOf],
    by norm_num [calculateTotals, sampleConfig, sampleEntry, totalsStep, exactOps,
      effectiveRateOf]⟩

/-! ## ImportTimeEntriesCSV: the entry built from a row -/

theorem ofInt_zero : Float64.ofInt 0 = Float64.fin 0 0 := rfl

theorem le_zero_of_pos (m e : Int) (h : 0 < m) :
    Float64.le (Float64.fin m e) (Float64.ofInt 0) = false := by
  rw [ofInt_zero]
  simp only [Float64.le, zero_mul, decide_eq_false_iff_not, not_le]
  positivity

theorem wrapInt64_of_fits (x : Int) (h1 : -2 ^ 63 ≤ x) (h2 : x < 2 ^ 63) : wrapInt64 x = x := by
  unfold wrapInt64
  rw [Int.emod_eq_of_lt (by omega) (by omega)]
  omega

theorem Time.Add_seconds (t : Time) (d : Int) (h : t.nsec = 0) :
    t.Add (d * Second) = { t with sec := t.sec + d } := by
  have h1 : (d * Second).tdiv 1000000000 = d := by
    unfold Second
    exact Int.mul_tdiv_cancel d (by decide)
  have h2 : (d * Second).tmod 1000000000 = 0 := by
    unfold Second
    exact Int.mul_tmod_left d 1000000000
  unfold Time.Add
  simp [h1, h2, h]

/-- The conversion to `int` discards the fraction: for a value `m * 2 ^ e ≥ 0` the result is
the integer `t` with `t ≤ m * 2 ^ e < t + 1`. -/
theorem Float64.trunc_floor (m e : Int) (hm : 0 ≤ m) :
    (Float64.trunc m e : ℚ) ≤ (m : ℚ) * (2 : ℚ) ^ e ∧
      (m : ℚ) * (2 : ℚ) ^ e < (Float64.trunc m e : ℚ) + 1 := by
  unfold Float64.trunc
  rcases le_or_lt 0 e with he | he
  · have h1 : (-e).toNat = 0 := by omega
    have h2 : ((e.toNat : ℤ)) = e := Int.toNat_of_nonneg he
    rw [h1, pow_zero, Int.tdiv_one]
    have h3 : (2 : ℚ) ^ e = (2 : ℚ) ^ e.toNat := by
      conv_lhs => rw [← h2]
      exact zpow_natCast 2 e.toNat
    rw [h3]
    push_cast
    constructor
    · exact le_refl _
    · linarith
  · have h1 : e.toNat = 0 := by omega
    have h2 : (((-e).toNat : ℤ)) = -e := Int.toNat_of_nonneg (by omega)
    rw [h1, pow_zero, mul_one]
    have hpos : (0 : ℤ) < 2 ^ (-e).toNat := by positivity
    rw [Int.tdiv_eq_ediv hm (le_of_lt hpos)]
    have h3 : (2 : ℚ) ^ e = ((2 : ℚ) ^ (-e).toNat)⁻¹ := by
      have : e = -((-e).toNat : ℤ) := by omega
      conv_lhs => rw [this]
      rw [zpow_neg, zpow_natCast]
    rw [h3]
    have hq : (0 : ℚ) < (2 : ℚ) ^ (-e).toNat := by positivity
    have hdm := Int.emod_add_ediv m (2 ^ (-e).toNat)
    have hmod1 := Int.emod_nonneg m (ne_of_gt hpos)
    have hmod2 := Int.emod_lt_of_pos m hpos
    have hdmq : ((m % 2 ^ (-e).toNat : ℤ) : ℚ) +
        (2 : ℚ) ^ (-e).toNat * ((m / 2 ^ (-e).toNat : ℤ) : ℚ) = m := by
      exact_mod_cast hdm
    have hm1 : (0 : ℚ) ≤ ((m % 2 ^ (-e).toNat : ℤ) : ℚ) := by exact_mod_cast hmod1
    have hm2 : ((m % 2 ^ (-e).toNat : ℤ) : ℚ) < (2 : ℚ) ^ (-e).toNat := by exact_mod_cast hmod2
    constructor
    · rw [← div_eq_mul_inv, le_div_iff₀ hq]
      nlinarith
    · rw [← div_eq_mul_inv, div_lt_iff₀ hq]
      nlinarith

/-- A finite result of rounding a positive fraction has a non-negative mantissa. -/
theorem Float64.roundPos_fin_nonneg (n d : Nat) (pm pe : Int)
    (h : Float64.roundPos n d = Float64.fin pm pe) : 0 ≤ pm := by
  unfold Float64.roundPos at h
  dsimp only at h
  split_ifs at h <;> simp only [Float64.fin.injEq, reduceCtorEq] at h <;> omega

/-- The product of a positive finite value and 3600, when finite, is not negative. -/
theorem Float64.mul_3600_nonneg (m e pm pe : Int) (hpos : 0 < m)
    (h : Float64.mul (Float64.fin m e) (Float64.ofInt 3600) = Float64.fin pm pe) : 0 ≤ pm := by
  have h3600 : Float64.ofInt 3600 = Float64.fin 7916483719987200 (-41) := by decide
  rw [h3600] at h
  simp only [Float64.mul, Float64.ofDyadic, Float64.ofFrac] at h
  have hp : 0 < m * 7916483719987200 * 2 ^ (e + -41).toNat := by positivity
  rw [if_neg (by omega), if_pos hp] at h
  exact Float64.roundPos_fin_nonneg _ _ _ _ h

/-- C4, as amended. A data row with at least two columns, whose first column parses as a date
and whose second parses as a finite positive number of hours `h`, is built into the entry with
the project id of the form, user id 1, description "Imported from CSV", billable, duration the
float64 product `h * 3600` with its fraction discarded (the integer `t` with
`t ≤ h * 3600 < t + 1`), start time that date at 17:00:00 UTC and end time the start plus the
duration, provided the product is finite and the duration in nanoseconds is within the range of
`time.Duration`. -/
theorem importRow_builds (lib : Lib) (projectID : Int) (i : Nat) (record : List String)
    (date : ParsedDate) (m e pm pe : Int)
    (hlen : 2 ≤ record.length)
    (hdate : lib.ParseDate (lib.TrimSpace (record.getD 0 "")) = some date)
    (hhours : lib.ParseFloat (lib.TrimSpace (record.getD 1 "")) = some (Float64.fin m e))
    (hpos : 0 < m)
    (hprod : Float64.mul (Float64.fin m e) (Float64.ofInt 3600) = Float64.fin pm pe)
    (hlo : -2 ^ 63 ≤ Float64.trunc pm pe * Second)
    (hhi : Float64.trunc pm pe * Second < 2 ^ 63) :
    importRow lib projectID i record =
      Except.ok
        { ID := 0
          ProjectID := projectID
          UserID := 1
          Description := "Imported from CSV"
          StartTime := Date lib.localOffset date.Year date.Month date.Day 17 0 0 0 Location.UTC
          EndTime := some
            { sec := (Date lib.localOffset date.Year date.Month date.Day 17 0 0 0
                Location.UTC).sec + Float64.trunc pm pe
              nsec := 0
              loc := Location.UTC }
          Duration := some (Float64.trunc pm pe)
          Billable := true
          CreatedAt := Time.zero
          UpdatedAt := Time.zero } ∧
      ((Float64.trunc pm pe : ℚ) ≤ (pm : ℚ) * (2 : ℚ) ^ pe ∧
        (pm : ℚ) * (2 : ℚ) ^ pe < (Float64.trunc pm pe : ℚ) + 1) := by
  refine ⟨?_, Float64.trunc_floor pm pe (Float64.mul_3600_nonneg m e pm pe hpos hprod)⟩
  have hfit : -2 ^ 63 ≤ Float64.trunc pm pe ∧ Float64.trunc pm pe < 2 ^ 63 := by
    unfold Second at hlo hhi
    constructor <;> omega
  have hto : Float64.toInt lib.intOfUnrepresentable (Float64.fin pm pe) = Float64.trunc pm pe := by
    simp only [Float64.toInt]
    rw [if_pos hfit]
  unfold importRow
  rw [if_neg (by omega)]
  simp only [hdate, hhours, le_zero_of_pos m e hpos, hprod, hto, ParsedDate.Location]
  rw [wrapInt64_of_fits _ hlo hhi, Time.Add_seconds _ _ rfl]
  rfl

set_option maxRecDepth 100000 in
/-- Witness of C4 as amended, on the row "2024-01-15,3.5": start 2024-01-15T17:00:00 UTC,
duration 12600 s, end 2024-01-15T20:30:00 UTC, and the entry is what the handler inserts. -/
theorem importRow_builds_witness :
    importRow sampleLib 7 0 ["2024-01-15", "3.5"] =
        Except.ok
          { ID := 0
            ProjectID := 7
            UserID := 1
            Description := "Imported from CSV"
            StartTime := Date sampleLib.localOffset 2024 1 15 17 0 0 0 Location.UTC
            EndTime := some
              { sec := (Date sampleLib.localOffset 2024 1 15 17 0 0 0 Location.UTC).sec +
                  Float64.trunc 6926923254988800 (-39)
                nsec := 0
                loc := Location.UTC }
            Duration := some (Float64.trunc 6926923254988800 (-39))
            Billable := true
            CreatedAt := Time.zero
            UpdatedAt := Time.zero } ∧
      Float64.trunc 6926923254988800 (-39) = 12600 ∧
      ({ sec := (Date sampleLib.localOffset 2024 1 15 17 0 0 0 Location.UTC).sec + 12600,
         nsec := 0, loc := Location.UTC } : Time) =
        Date sampleLib.localOffset 2024 1 15 20 30 0 0 Location.UTC ∧
      (ImportTimeEntriesCSV sampleLib recordingDB []
          (sampleUpload [["date", "hours"], ["2024-01-15", "3.5"]])).db =
        [[SQLArg.Int 7, SQLArg.Int 1, SQLArg.Str "Imported from CSV",
          SQLArg.Time (Date sampleLib.localOffset 2024 1 15 17 0 0 0 Location.UTC),
          SQLArg.OptTime (some (Date sampleLib.localOffset 2024 1 15 20 30 0 0 Location.UTC)),
          SQLArg.OptInt (some 12600), SQLArg.Bool true]] :=
  ⟨(importRow_builds sampleLib 7 0 ["2024-01-15", "3.5"] ⟨2024, 1, 15⟩
      7881299347898368 (-51) 6926923254988800 (-39)
      (by decide) (by decide) (by decide) (by decide) (by decide) (by decide) (by decide)).1,
    by decide, by decide, by decide⟩

set_option maxRecDepth 100000 in
/-- C4, counterexample. (a) On the row of the specification, "2024-01-15,3.5", the start time
is 17:00:00 UTC, which is not the instant at which a local clock one hour east of UTC shows
17:00:00. (b) On the row "2024-01-15,1.13" the duration is 4067 s, while 1.13 × 3600 is 4068.
(c) On the row "2024-01-15,3000000" the duration is 10800000000 s and the end time is not the
start plus the duration: it lies before the start. -/
theorem importRow_claim_fails :
    ((importRow sampleLib 7 0 ["2024-01-15", "3.5"]).toOption.map TimeEntry.StartTime =
        some (Date sampleLib.localOffset 2024 1 15 17 0 0 0 Location.UTC) ∧
      (Date sampleLib.localOffset 2024 1 15 17 0 0 0 Location.UTC).unixNano ≠
        (Date sampleLib.localOffset 2024 1 15 17 0 0 0 Location.Local).unixNano) ∧
    (sampleLib.ParseFloat "1.13" = some (Float64.ofFrac 113 100) ∧
      (importRow sampleLib 7 0 ["2024-01-15", "1.13"]).toOption.map TimeEntry.Duration =
        some (some 4067) ∧
      (113 / 100 : ℚ) * 3600 = 4068) ∧
    ((importRow sampleLib 7 0 ["2024-01-15", "3000000"]).toOption.map TimeEntry.Duration =
        some (some 10800000000) ∧
      (importRow sampleLib 7 0 ["2024-01-15", "3000000"]).toOption.map TimeEntry.StartTime =
        some { sec := 1705338000, nsec := 0, loc := Location.UTC } ∧
      (importRow sampleLib 7 0 ["2024-01-15", "3000000"]).toOption.map TimeEntry.EndTime =
        some (some { sec := -5941406074, nsec := 290448384, loc := Location.UTC }) ∧
      (-5941406074 : Int) * 1000000000 + 290448384 ≠
        1705338000 * 1000000000 + 10800000000 * Second) := by
  refine ⟨⟨by decide, by decide⟩, ⟨by decide, by decide, by norm_num⟩,
    ⟨by decide, by decide, by decide, by decide⟩⟩

/-! ## ImportTimeEntriesCSV: which rows are skipped -/

/-- A record is skipped by the first loop exactly when it has fewer than two columns, or its
date does not parse, or its hours do not parse, or they parse to a value `h` with `h <= 0`. -/
theorem importRow_skips_iff (lib : Lib) (projectID : Int) (i : Nat) (record : List String) :
    (importRow lib projectID i record).toOption = none ↔
      (record.length < 2 ∨
        lib.ParseDate (lib.TrimSpace (record.getD 0 "")) = none ∨
        lib.ParseFloat (lib.TrimSpace (record.getD 1 "")) = none ∨
        ∃ h, lib.ParseFloat (lib.TrimSpace (record.getD 1 "")) = some h ∧
          Float64.le h (Float64.ofInt 0) = true) := by
  unfold importRow
  by_cases hlen : record.length < 2
  · rw [if_pos hlen]
    simp only [Except.toOption, hlen, true_or]
  · rw [if_neg hlen]
    dsimp only
    cases hd : lib.ParseDate (lib.TrimSpace (record.getD 0 "")) with
    | none => simp only [Except.toOption, true_or, or_true]
    | some date =>
      cases hf : lib.ParseFloat (lib.TrimSpace (record.getD 1 "")) with
      | none => simp only [Except.toOption, true_or, or_true]
      | some h =>
        cases hle : Float64.le h (Float64.ofInt 0)
        · simp only [Except.toOption, hlen, hle, false_or, Bool.false_eq_true, ↓reduceIte,
            reduceCtorEq, Option.some.injEq, exists_eq_left', and_false, exists_false]
        · simp only [Except.toOption, hlen, hle, false_or, ↓reduceIte, reduceCtorEq,
            Option.some.injEq, exists_eq_left', and_true, exists_eq']

/-- The first loop appends to its list of entries the entries of the rows that pass its
checks, in the order of the rows. -/
theorem importRows_fst (lib : Lib) (projectID : Int) (rows : List (List String)) (i : Nat)
    (acc : List TimeEntry × List String) :
    (importRows lib projectID i rows acc).1 = acc.1 ++ acceptedEntries lib projectID i rows := by
  induction rows generalizing i acc with
  | nil => simp [importRows, acceptedEntries]
  | cons r rs ih =>
    obtain ⟨es, log⟩ := acc
    unfold importRows
    cases h : importRow lib projectID i r with
    | error line =>
      simp only [ih]
      simp [acceptedEntries, List.enumFrom_cons, List.filterMap_cons, h, Except.toOption]
    | ok entry =>
      simp only [ih]
      simp [acceptedEntries, List.enumFrom_cons, List.filterMap_cons, h, Except.toOption]

/-- The second loop adds to its counter the number of INSERTs that succeeded. -/
theorem insertEntries_createdCount {σ : Type} (database : Database σ) (entries : List TimeEntry)
    (st : InsertState σ) :
    (insertEntries database entries st).createdCount =
      st.createdCount + ((insertOutcomes database st.db entries).count true : Nat) := by
  induction entries generalizing st with
  | nil => simp [insertEntries, insertOutcomes]
  | cons e es ih =>
    unfold insertEntries insertOutcomes
    cases h : database.Exec st.db insertTimeEntryQuery (insertTimeEntryArgs e) with
    | mk db1 res =>
      cases res with
      | none =>
        simp only [ih, Option.isNone_none, List.count_cons_self]
        push_cast
        ring
      | some err =>
        simp only [ih, Option.isNone_some]
        simp

/-- The response of `ImportTimeEntriesCSV` to an upload with a header and at least one data
row: a success whose `imported_count` is the number of successful INSERTs among the entries of
the rows that pass the checks, whatever that number is. -/
theorem ImportTimeEntriesCSV_response {σ : Type} (lib : Lib) (database : Database σ) (db : σ)
    (r : ImportRequest) (projectID : Int) (records : List (List String))
    (hmethod : r.Method = "POST") (hform : r.FormParses = true) (hid : r.ProjectID ≠ "")
    (hatoi : lib.Atoi r.ProjectID = some projectID) (hfile : r.File = some (some records))
    (hrows : 2 ≤ records.length) :
    (ImportTimeEntriesCSV lib database db r).response =
      ImportResponse.Imported true
        ("Successfully imported " ++
          toString (((insertOutcomes database db
            (acceptedEntries lib projectID 0 (records.drop 1))).count true : Nat) : Int) ++
          " time entries")
        ((insertOutcomes database db
          (acceptedEntries lib projectID 0 (records.drop 1))).count true : Nat) := by
  unfold ImportTimeEntriesCSV
  rw [if_neg (by simp [hmethod]), if_neg (by simp [hform]), if_neg hid]
  simp only [hatoi, hfile]
  rw [if_neg (by omega)]
  simp only [insertEntries_createdCount, importRows_fst, List.nil_append, zero_add]

set_option maxRecDepth 100000 in
/-- C5, at the failing input. The hours text "NaN" parses to a NaN, which is not positive, and
the row is not skipped: with a header and the one data row "2024-01-15,NaN" the handler inserts
an entry and reports `imported_count` 1. The rows "2024-01-15,0" and "2024-01-15,-2" of the same
shape are skipped, and the response is a success with count 0. -/
theorem ImportTimeEntriesCSV_imports_NaN :
    sampleLib.ParseFloat "NaN" = some Float64.nan ∧
      Float64.gt Float64.nan (Float64.ofInt 0) = false ∧
      (ImportTimeEntriesCSV sampleLib recordingDB []
          (sampleUpload [["date", "hours"], ["2024-01-15", "NaN"]])).response =
        ImportResponse.Imported true "Successfully imported 1 time entries" 1 ∧
      ((ImportTimeEntriesCSV sampleLib recordingDB []
          (sampleUpload [["date", "hours"], ["2024-01-15", "NaN"]])).db).length = 1 ∧
      (ImportTimeEntriesCSV sampleLib recordingDB []
          (sampleUpload [["date", "hours"], ["2024-01-15", "0"], ["2024-01-15", "-2"]])) =
        { response := ImportResponse.Imported true "Successfully imported 0 time entries" 0
          db := []
          log := ["Skipping row 2: invalid duration '0'\n",
                  "Skipping row 3: invalid duration '-2'\n"] } := by
  refine ⟨by decide, by decide, by decide, by decide, ?_⟩
  rfl

/-! ## GetTimeEntriesByProject: the statement -/

/-- C6. The statement `GetTimeEntriesByProject` builds is the SELECT on `project_id = $1`
followed by the conditions of exactly these filters, AND-ed in this order and numbered from `$2`:
date-from iff `date_from` is not empty, date-to iff `date_to` is not empty, `billable = true` iff
`billable` is the literal "billable", `billable = false` iff it is the literal "non-billable";
every other value of `billable` adds no condition, whatever the date filters are. The arguments
are the project id followed by the values of the filters. -/
theorem byProjectStatement_clauses (projectID dateFrom dateTo billableFilter : String) :
    (byProjectStatement projectID dateFrom dateTo billableFilter).query =
        selectByProject ++ whereClauses 2 (clausesFor dateFrom dateTo billableFilter) ++
          " ORDER BY start_time DESC" ∧
      (byProjectStatement projectID dateFrom dateTo billableFilter).args =
        SQLArg.Str projectID :: (clausesFor dateFrom dateTo billableFilter).map Clause.arg ∧
      (∀ v, Clause.DateFrom v ∈ clausesFor dateFrom dateTo billableFilter ↔
        (v = dateFrom ∧ dateFrom ≠ "")) ∧
      (∀ v, Clause.DateTo v ∈ clausesFor dateFrom dateTo billableFilter ↔
        (v = dateTo ∧ dateTo ≠ "")) ∧
      (Clause.Billable true ∈ clausesFor dateFrom dateTo billableFilter ↔
        billableFilter = "billable") ∧
      (Clause.Billable false ∈ clausesFor dateFrom dateTo billableFilter ↔
        billableFilter = "non-billable") ∧
      (clausesFor dateFrom dateTo billableFilter).Nodup := by
  refine ⟨?_, ?_, ?_, ?_, ?_, ?_, ?_⟩
  · by_cases h1 : dateFrom = "" <;> by_cases h2 : dateTo = "" <;>
      by_cases h3 : billableFilter = "billable" <;>
      by_cases h4 : billableFilter = "non-billable" <;>
      simp only [byProjectStatement, clausesFor, h1, h2, h3, h4, if_true, if_false, ne_eq,
        not_true_eq_false, not_false_eq_true, List.append_nil, List.nil_append,
        List.singleton_append, whereClauses, Clause.sql] <;>
      rfl
  · by_cases h1 : dateFrom = "" <;> by_cases h2 : dateTo = "" <;>
      by_cases h3 : billableFilter = "billable" <;>
      by_cases h4 : billableFilter = "non-billable" <;>
      simp [byProjectStatement, clausesFor, h1, h2, h3, h4, Clause.arg]
  · intro v
    by_cases h1 : dateFrom = "" <;> by_cases h3 : billableFilter = "billable" <;>
      by_cases h4 : billableFilter = "non-billable" <;> by_cases h2 : dateTo = "" <;>
      simp [clausesFor, h1, h2, h3, h4, eq_comm]
  · intro v
    by_cases h1 : dateFrom = "" <;> by_cases h3 : billableFilter = "billable" <;>
      by_cases h4 : billableFilter = "non-billable" <;> by_cases h2 : dateTo = "" <;>
      simp [clausesFor, h1, h2, h3, h4, eq_comm]
  · by_cases h1 : dateFrom = "" <;> by_cases h3 : billableFilter = "billable" <;>
      by_cases h4 : billableFilter = "non-billable" <;> by_cases h2 : dateTo = "" <;>
      simp [clausesFor, h1, h2, h3, h4]
  · by_cases h1 : dateFrom = "" <;> by_cases h3 : billableFilter = "billable" <;>
      by_cases h4 : billableFilter = "non-billable" <;> by_cases h2 : dateTo = "" <;>
      simp_all [clausesFor]
  · by_cases h1 : dateFrom = "" <;> by_cases h3 : billableFilter = "billable" <;>
      by_cases h4 : billableFilter = "non-billable" <;> by_cases h2 : dateTo = "" <;>
      simp [clausesFor, h1, h2, h3, h4]

/-! ## UpdateSettings -/

/-- C7. Two decoded bodies that differ only in their id make `UpdateSettings` issue the same
statement with the same arguments and give the same outcome on every database; the statement is
the fixed UPDATE whose condition is `WHERE id = 1`, with two arguments (the rate and the
currency), and it is the one statement issued; on success the id of the response is the one the
store returned. -/
theorem UpdateSettings_ignores_body_id (settings : Settings Float64) (id : Int) :
    updateSettingsArgs { settings with ID := id } = updateSettingsArgs settings ∧
      (∀ (σ : Type) (queryRow : σ → String → List SQLArg → σ × Except String Returned) (db : σ),
        UpdateSettings queryRow db "PUT" (some { settings with ID := id }) =
          UpdateSettings queryRow db "PUT" (some settings)) ∧
      updateSettingsQuery =
        "UPDATE settings SET default_hourly_rate = $1, currency = $2, updated_at = NOW()" ++
          " WHERE id = 1" ++ " RETURNING id, created_at, updated_at" ∧
      (∀ result : Except String Returned,
        (UpdateSettings (recordingQueryRow result) [] "PUT" (some { settings with ID := id })).db =
          [(updateSettingsQuery,
            [SQLArg.OptFloat settings.DefaultHourlyRate, SQLArg.Str settings.Currency])]) ∧
      (∀ row : Returned,
        (UpdateSettings (recordingQueryRow (Except.ok row)) [] "PUT"
            (some { settings with ID := id })).response =
          SettingsResponse.JSON
            { ID := row.ID, DefaultHourlyRate := settings.DefaultHourlyRate,
              Currency := settings.Currency, CreatedAt := row.CreatedAt,
              UpdatedAt := row.UpdatedAt }) := by
  refine ⟨rfl, ?_, by decide, ?_, ?_⟩
  · intro σ queryRow db
    simp only [UpdateSettings, updateSettingsArgs]
  · intro result
    cases result <;> rfl
  · intro row
    rfl

/-! ## The terminal UI -/

/-- C8. From the initial model with two projects loaded, the keys down, enter, enter, enter lead
through: Timer with the second project selected (`selectedProject = 1`) and not running; Timer
with `running = true` (and the tick scheduled); and Confirm with `running = false` and the Save
choice highlighted (`confirmSelection = 0`). -/
theorem Update_select_start_stop (apiURL : String) (p0 p1 : Project Float64)
    (t0 t1 t2 t3 t4 : Time) :
    let m0 := ((NewModel apiURL).Update t0 (Msg.projectsLoadedMsg [p0, p1])).1
    let s1 := m0.Update t1 (Msg.KeyMsg "down")
    let s2 := s1.1.Update t2 (Msg.KeyMsg "enter")
    let s3 := s2.1.Update t3 (Msg.KeyMsg "enter")
    let s4 := s3.1.Update t4 (Msg.KeyMsg "enter")
    (m0.state = stateSelectProject ∧ m0.projects = [p0, p1] ∧ m0.cursor = 0) ∧
      (s1.1.state = stateSelectProject ∧ s1.1.cursor = 1) ∧
      (s2.1.state = stateTimer ∧ s2.1.selectedProject = 1 ∧ s2.1.running = false ∧
        s2.1.projects[s2.1.selectedProject.toNat]? = some p1) ∧
      (s3.1.state = stateTimer ∧ s3.1.running = true ∧ s3.1.startTime = t3 ∧
        s3.1.selectedProject = 1 ∧ s3.2.map Cmd.isSave = some false) ∧
      (s4.1.state = stateConfirm ∧ s4.1.running = false ∧ s4.1.confirmSelection = 0 ∧
        s4.1.selectedProject = 1 ∧ s4.1.elapsed = wrapInt64 (0 + t4.Sub t3) ∧
        s4.2.isNone = true) := by
  intro m0 s1 s2 s3 s4
  refine ⟨⟨rfl, rfl, rfl⟩, ⟨rfl, rfl⟩, ⟨rfl, rfl, rfl, rfl⟩, ⟨rfl, rfl, rfl, rfl, rfl⟩,
    ⟨rfl, rfl, rfl, rfl, rfl, rfl⟩⟩

/-- In Confirm with Save highlighted, enter issues the submission and leaves the model as it
is, whatever the model and the clock. -/
theorem Update_confirm_enter_stays (now : Time) (m : Model) (h1 : m.state = stateConfirm)
    (h2 : m.confirmSelection = 0) :
    m.Update now (Msg.KeyMsg "enter") = (m, some (Cmd.saveTimeEntry m)) := by
  simp [Model.Update, h1, h2]

/-- C9, at the failing input. With one project loaded, enter (select), enter (start), enter
(stop) reach Confirm with Save highlighted; the fourth enter issues the submission and leaves the
state at Confirm, so the fifth enter, pressed while that submission is outstanding, issues a
second submission: two save commands in one cycle, with no return to Select-Project between
them, both for the same 60 s on the stopwatch. -/
theorem Update_submits_twice :
    runStates (NewModel "http://localhost:8080")
        [(clockAt 0 0, Msg.projectsLoadedMsg [sampleProject 1 "a"]),
         (clockAt 1 0, Msg.KeyMsg "enter"), (clockAt 2 0, Msg.KeyMsg "enter"),
         (clockAt 62 0, Msg.KeyMsg "enter"), (clockAt 63 0, Msg.KeyMsg "enter"),
         (clockAt 63 500000000, Msg.KeyMsg "enter")] =
        [stateSelectProject, stateTimer, stateTimer, stateConfirm, stateConfirm, stateConfirm] ∧
      (runUpdates (NewModel "http://localhost:8080")
        [(clockAt 0 0, Msg.projectsLoadedMsg [sampleProject 1 "a"]),
         (clockAt 1 0, Msg.KeyMsg "enter"), (clockAt 2 0, Msg.KeyMsg "enter"),
         (clockAt 62 0, Msg.KeyMsg "enter"), (clockAt 63 0, Msg.KeyMsg "enter"),
         (clockAt 63 500000000, Msg.KeyMsg "enter")]).2.map Cmd.isSave =
        [false, true, true] ∧
      (runUpdates (NewModel "http://localhost:8080")
        [(clockAt 0 0, Msg.projectsLoadedMsg [sampleProject 1 "a"]),
         (clockAt 1 0, Msg.KeyMsg "enter"), (clockAt 2 0, Msg.KeyMsg "enter"),
         (clockAt 62 0, Msg.KeyMsg "enter"), (clockAt 63 0, Msg.KeyMsg "enter"),
         (clockAt 63 500000000, Msg.KeyMsg "enter")]).2 =
        [Cmd.tickCmd,
         Cmd.saveTimeEntry
           { NewModel "http://localhost:8080" with
             projects := [sampleProject 1 "a"], state := stateConfirm,
             startTime := clockAt 2 0, elapsed := 60000000000 },
         Cmd.saveTimeEntry
           { NewModel "http://localhost:8080" with
             projects := [sampleProject 1 "a"], state := stateConfirm,
             startTime := clockAt 2 0, elapsed := 60000000000 }] := by
  refine ⟨by decide, by decide, ?_⟩
  rfl

theorem Time.Add_unixNano (t : Time) (d : Int) : (t.Add d).unixNano = t.unixNano + d := by
  have h := Int.tdiv_add_tmod d 1000000000
  unfold Time.Add Time.unixNano
  simp only
  by_cases h1 : 1000000000 ≤ t.nsec + d.tmod 1000000000
  · rw [if_pos h1]
    simp only
    omega
  · rw [if_neg h1]
    by_cases h2 : t.nsec + d.tmod 1000000000 < 0
    · rw [if_pos h2]
      simp only
      omega
    · rw [if_neg h2]
      simp only
      omega

/-- What the closure of `saveTimeEntry` builds, for a model whose selected project exists: the
project id of that project, user id 1, the fixed description, billable, the end time the second
reading of the clock and the start time the first reading minus the elapsed time, so that end
minus start is the elapsed time plus what passed between the two readings. -/
theorem saveTimeEntryPayload_fields (unspec : Float64 → Int) (m : Model) (now1 now2 : Time)
    (project : Project Float64) (hsel : 0 ≤ m.selectedProject)
    (hproj : m.projects[m.selectedProject.toNat]? = some project)
    (hlo : -2 ^ 63 < m.elapsed) (hhi : m.elapsed < 2 ^ 63) :
    ∃ entry, m.saveTimeEntryPayload unspec now1 now2 = some entry ∧
      entry.ProjectID = project.ID ∧ entry.UserID = 1 ∧
      entry.Description = "Tracked via TUI" ∧ entry.Billable = true ∧
      entry.EndTime = some now2 ∧ entry.StartTime = now1.Add (-m.elapsed) ∧
      now2.unixNano - entry.StartTime.unixNano =
        m.elapsed + (now2.unixNano - now1.unixNano) ∧
      entry.Duration = some (Float64.toInt unspec (DurationSeconds m.elapsed)) := by
  have hw : wrapInt64 (-m.elapsed) = -m.elapsed :=
    wrapInt64_of_fits _ (by omega) (by omega)
  have hpay : m.saveTimeEntryPayload unspec now1 now2 =
      some
        { ID := 0
          ProjectID := project.ID
          UserID := 1
          Description := "Tracked via TUI"
          StartTime := now1.Add (-m.elapsed)
          EndTime := some now2
          Duration := some (Float64.toInt unspec (DurationSeconds m.elapsed))
          Billable := true
          CreatedAt := Time.zero
          UpdatedAt := Time.zero } := by
    unfold Model.saveTimeEntryPayload
    rw [if_neg (by omega), hproj]
    simp only [hw]
  refine ⟨_, hpay, rfl, rfl, rfl, rfl, rfl, rfl, ?_, rfl⟩
  simp only [Time.Add_unixNano]
  omega

set_option maxRecDepth 100000 in
/-- C10, at the failing input. For the model with project 42 selected and 5.9 s elapsed, and
readings of the clock 250 ns apart, the entry has project id 42, user id 1, the description
"Tracked via TUI", billable, duration 5 s, the end time the second reading and the start time
the first reading minus 5.9 s: end minus start is 5.90000025 s, not the elapsed 5.9 s. -/
theorem saveTimeEntry_end_minus_start :
    sampleConfirmModel.saveTimeEntryPayload sampleLib.intOfUnrepresentable
        (clockAt 1000 0) (clockAt 1000 250) =
      some
        { ID := 0
          ProjectID := 42
          UserID := 1
          Description := "Tracked via TUI"
          StartTime := { sec := 994, nsec := 100000000, loc := Location.Local }
          EndTime := some { sec := 1000, nsec := 250, loc := Location.Local }
          Duration := some 5
          Billable := true
          CreatedAt := Time.zero
          UpdatedAt := Time.zero } ∧
      sampleConfirmModel.elapsed = 5900000000 ∧
      (clockAt 1000 250).unixNano -
          ({ sec := 994, nsec := 100000000, loc := Location.Local } : Time).unixNano =
        5900000250 := by
  refine ⟨by decide, rfl, by decide⟩

/-! ## The table of time entries -/

theorem tdiv_tmod_of_nonneg (s : Int) (h : 0 ≤ s) :
    s.tdiv 3600 = s / 3600 ∧ (s.tmod 3600).tdiv 60 = s % 3600 / 60 := by
  have h1 : s.tmod 3600 = s % 3600 := Int.tmod_eq_emod h (by decide)
  have h2 : 0 ≤ s % 3600 := Int.emod_nonneg s (by decide)
  refine ⟨Int.tdiv_eq_ediv h (by decide), ?_⟩
  rw [h1]
  exact Int.tdiv_eq_ediv h2 (by decide)

/-- The duration cell is the third cell of a row, in either layout. -/
theorem tableRow_duration_cell (formatTime : String → Time → String) (includePricing : Bool)
    (effectiveRate : Float64) (entry : TimeEntry) :
    (tableRow formatTime includePricing effectiveRate entry)[2]? =
      some (PdfOp.Cell
        (if Float64.gt effectiveRate (Float64.ofInt 0) && includePricing then 22 else 30) 6
        (goBytes
          (match entry.Duration with
           | some d => sprintf02d (d.tdiv 3600) ++ ":" ++ sprintf02d ((d.tmod 3600).tdiv 60)
           | none => "00:00"))) := by
  unfold tableRow
  by_cases h : (Float64.gt effectiveRate (Float64.ofInt 0) && includePricing) = true
  · simp [h, pricingRow]
  · simp [h, plainRow]

/-- C11. For a time entry with a duration of `s ≥ 0` seconds the duration cell of its row reads
`HH:MM` with `HH = s div 3600` and `MM = (s mod 3600) div 60`, each written with at least two
digits (a leading zero below 10), and `MM < 60`; the text is the same in the layout with prices
and in the one without; an entry without a duration reads "00:00". -/
theorem tableRow_duration_text (formatTime : String → Time → String) (includePricing : Bool)
    (effectiveRate : Float64) (entry : TimeEntry) :
    (∀ s : Int, entry.Duration = some s → 0 ≤ s →
      (tableRow formatTime includePricing effectiveRate entry)[2]? =
          some (PdfOp.Cell
            (if Float64.gt effectiveRate (Float64.ofInt 0) && includePricing then 22 else 30) 6
            (goBytes (sprintf02d (s / 3600) ++ ":" ++ sprintf02d (s % 3600 / 60)))) ∧
        0 ≤ s / 3600 ∧ 0 ≤ s % 3600 / 60 ∧ s % 3600 / 60 < 60) ∧
    (entry.Duration = none →
      (tableRow formatTime includePricing effectiveRate entry)[2]? =
        some (PdfOp.Cell
          (if Float64.gt effectiveRate (Float64.ofInt 0) && includePricing then 22 else 30) 6
          (goBytes "00:00"))) ∧
    (∀ n : Int, 0 ≤ n →
      sprintf02d n = if n < 10 then "0" ++ toString n.natAbs else toString n.natAbs) := by
  refine ⟨?_, ?_, ?_⟩
  · intro s hs h0
    have hdiv := tdiv_tmod_of_nonneg s h0
    rw [tableRow_duration_cell, hs]
    simp only [hdiv.1, hdiv.2]
    refine ⟨trivial, ?_, ?_, ?_⟩ <;> omega
  · intro hs
    rw [tableRow_duration_cell, hs]
  · intro n hn
    unfold sprintf02d
    rw [if_neg (by omega)]

set_option maxRecDepth 100000 in
/-- Witness of C11: 45296 s (12 h 34 min 56 s) reads "12:34" and 3725 s reads "01:02", with
and without prices; no duration reads "00:00". -/
theorem tableRow_duration_text_witness :
    ((sampleEntry (some 45296) true).Duration = some 45296 ∧ (0 : Int) ≤ 45296) ∧
      (tableRow sampleFormatTime true (Float64.ofFrac 50 1) (sampleEntry (some 45296) true))[2]? =
        some (PdfOp.Cell 22 6 (goBytes "12:34")) ∧
      (tableRow sampleFormatTime false (Float64.ofFrac 50 1) (sampleEntry (some 3725) true))[2]? =
        some (PdfOp.Cell 30 6 (goBytes "01:02")) ∧
      (tableRow sampleFormatTime true (Float64.ofFrac 50 1) (sampleEntry none true))[2]? =
        some (PdfOp.Cell 22 6 (goBytes "00:00")) :=
  ⟨⟨rfl, by decide⟩,
    ((tableRow_duration_text sampleFormatTime true (Float64.ofFrac 50 1)
      (sampleEntry (some 45296) true)).1 45296 rfl (by decide)).1,
    ((tableRow_duration_text sampleFormatTime false (Float64.ofFrac 50 1)
      (sampleEntry (some 3725) true)).1 3725 rfl (by decide)).1,
    (tableRow_duration_text sampleFormatTime true (Float64.ofFrac 50 1)
      (sampleEntry none true)).2.1 rfl⟩

set_option maxRecDepth 100000 in
/-- C12, as amended. For a time entry with a duration of 7230 s the row reads "02:00" in the
duration cell (7230 mod 3600 is 30 s, that is 0 whole minutes) and "2.0" in the hours cell, in
the layout with prices and in the one without. -/
theorem tableRow_7230 (formatTime : String → Time → String) (includePricing : Bool)
    (effectiveRate : Float64) (entry : TimeEntry) (h : entry.Duration = some 7230) :
    (tableRow formatTime includePricing effectiveRate entry)[2]? =
        some (PdfOp.Cell
          (if Float64.gt effectiveRate (Float64.ofInt 0) && includePricing then 22 else 30) 6
          (goBytes "02:00")) ∧
      (tableRow formatTime includePricing effectiveRate entry)[4]? =
        some (PdfOp.Cell
          (if Float64.gt effectiveRate (Float64.ofInt 0) && includePricing then 18 else 25) 6
          (goBytes "2.0")) := by
  have hh : sprintfFixed 1 (Float64.div (Float64.ofInt 7230) (Float64.ofInt 3600)) = "2.0" := by
    decide
  have hd : sprintf02d ((7230 : Int).tdiv 3600) ++ ":" ++
      sprintf02d (((7230 : Int).tmod 3600).tdiv 60) = "02:00" := by decide
  refine ⟨?_, ?_⟩
  · rw [tableRow_duration_cell, h]
    simp only [hd]
  · unfold tableRow
    by_cases hc : (Float64.gt effectiveRate (Float64.ofInt 0) && includePricing) = true
    · simp [hc, pricingRow, h, hh]
    · simp [hc, plainRow, h, hh]

set_option maxRecDepth 100000 in
/-- Witness of C12 as amended, at rate 50 with prices. -/
theorem tableRow_7230_witness :
    (sampleEntry (some 7230) true).Duration = some 7230 ∧
      (tableRow sampleFormatTime true (Float64.ofFrac 50 1) (sampleEntry (some 7230) true))[2]? =
        some (PdfOp.Cell 22 6 (goBytes "02:00")) ∧
      (tableRow sampleFormatTime true (Float64.ofFrac 50 1) (sampleEntry (some 7230) true))[4]? =
        some (PdfOp.Cell 18 6 (goBytes "2.0")) :=
  ⟨rfl, tableRow_7230 sampleFormatTime true (Float64.ofFrac 50 1) (sampleEntry (some 7230) true)
    rfl⟩

set_option maxRecDepth 100000 in
/-- C12, counterexample. The duration cell of an entry of 7230 s reads "02:00", which is not
"02:30". -/
theorem tableRow_7230_not_0230 :
    (tableRow sampleFormatTime true (Float64.ofFrac 50 1) (sampleEntry (some 7230) true))[2]? =
        some (PdfOp.Cell 22 6 (goBytes "02:00")) ∧
      (tableRow sampleFormatTime true (Float64.ofFrac 50 1) (sampleEntry (some 7230) true))[2]? ≠
        some (PdfOp.Cell 22 6 (goBytes "02:30")) ∧
      (tableRow sampleFormatTime false (Float64.ofFrac 50 1) (sampleEntry (some 7230) true))[2]? ≠
        some (PdfOp.Cell 30 6 (goBytes "02:30")) := by
  refine ⟨by decide, by decide, by decide⟩

/-! ### Pagination -/

theorem Float64.ofFrac_ne_nan (n : Int) (d : Nat) : Float64.ofFrac n d ≠ Float64.nan := by
  unfold Float64.ofFrac Float64.roundPos
  dsimp only
  split_ifs <;> simp [Float64.neg]

theorem Float64.add_fin_ne_nan (x : Float64) (m e : Int) (hx : x ≠ Float64.nan) :
    Float64.add x (Float64.fin m e) ≠ Float64.nan := by
  cases x with
  | fin a b => exact Float64.ofFrac_ne_nan _ _
  | posInf => simp [Float64.add]
  | negInf => simp [Float64.add]
  | nan => exact absurd rfl hx

theorem Float64.le_of_gt_eq_false (x : Float64) (m e : Int) (hx : x ≠ Float64.nan)
    (h : Float64.gt x (Float64.fin m e) = false) : Float64.le x (Float64.fin m e) = true := by
  cases x with
  | fin a b =>
    simp only [Float64.gt, decide_eq_false_iff_not, not_lt] at h
    simpa only [Float64.le, decide_eq_true_eq] using h
  | posInf => simp [Float64.gt] at h
  | negInf => rfl
  | nan => exact absurd rfl hx

theorem ofInt_consts :
    Float64.ofInt 270 = Float64.fin 4749890231992320 (-44) ∧
      Float64.ofInt 20 = Float64.fin 5629499534213120 (-48) ∧
      Float64.ofInt 6 = Float64.fin 6755399441055744 (-50) := by
  refine ⟨by decide, by decide, by decide⟩

/-- The cells of a data row are drawn where the cursor is, on the page the document is on. -/
theorem cellPositions_tableRow (formatTime : String → Time → String) (includePricing : Bool)
    (effectiveRate : Float64) (entry : TimeEntry) (page : Nat) (y : Float64)
    (rest : List PdfOp) :
    ∃ n, cellPositions page y
        (tableRow formatTime includePricing effectiveRate entry ++ rest) =
      List.replicate n (page, y) ++ cellPositions page y rest := by
  unfold tableRow
  by_cases hc : (Float64.gt effectiveRate (Float64.ofInt 0) && includePricing) = true
  · refine ⟨7, ?_⟩
    cases hb : entry.Billable <;> simp [hc, pricingRow, hb, cellPositions, List.replicate]
  · refine ⟨5, ?_⟩
    simp [hc, plainRow, cellPositions, List.replicate]

/-- One turn of the loop of the table: the cursor is set, a page is started and the cursor set
to 20 when it is above 270, the row is drawn, and the loop goes on 6 further down. -/
theorem tableRows_cons (formatTime : String → Time → String) (includePricing : Bool)
    (effectiveRate : Float64) (y : Float64) (entry : TimeEntry) (rest : List TimeEntry) :
    tableRows formatTime includePricing effectiveRate y (entry :: rest) =
      PdfOp.SetXY 10 y ::
        ((if Float64.gt y (Float64.ofInt 270) then
            [PdfOp.AddPage, PdfOp.SetXY 10 (Float64.ofInt 20)]
          else []) ++
        (tableRow formatTime includePricing effectiveRate entry ++
          tableRows formatTime includePricing effectiveRate
            (Float64.add (if Float64.gt y (Float64.ofInt 270) then Float64.ofInt 20 else y)
              (Float64.ofInt 6))
            rest)) := by
  simp [tableRows]

/-- Every cell of the data rows is drawn at an ordinate that is not above 270. -/
theorem tableRows_positions (formatTime : String → Time → String) (includePricing : Bool)
    (effectiveRate : Float64) (entries : List TimeEntry) (y0 : Float64) (page : Nat)
    (y : Float64) (hy : y0 ≠ Float64.nan) :
    ∀ p ∈ cellPositions page y (tableRows formatTime includePricing effectiveRate y0 entries),
      Float64.le p.2 (Float64.ofInt 270) = true := by
  induction entries generalizing y0 page y with
  | nil => simp [tableRows, cellPositions]
  | cons entry rest ih =>
    obtain ⟨h270, h20, h6⟩ := ofInt_consts
    intro p hp
    rw [tableRows_cons] at hp
    by_cases hgt : Float64.gt y0 (Float64.ofInt 270) = true
    · rw [if_pos hgt, if_pos hgt] at hp
      change p ∈ cellPositions (page + 1) (Float64.ofInt 20)
        (tableRow formatTime includePricing effectiveRate entry ++
          tableRows formatTime includePricing effectiveRate
            (Float64.add (Float64.ofInt 20) (Float64.ofInt 6)) rest) at hp
      obtain ⟨n, hn⟩ := cellPositions_tableRow formatTime includePricing effectiveRate entry
        (page + 1) (Float64.ofInt 20)
        (tableRows formatTime includePricing effectiveRate
          (Float64.add (Float64.ofInt 20) (Float64.ofInt 6)) rest)
      rw [hn, List.mem_append] at hp
      rcases hp with hp | hp
      · rw [List.eq_of_mem_replicate hp]
        exact (by decide : Float64.le (Float64.ofInt 20) (Float64.ofInt 270) = true)
      · refine ih _ _ _ ?_ p hp
        rw [h6]
        exact Float64.add_fin_ne_nan _ _ _ (by rw [h20]; simp)
    · rw [if_neg hgt, if_neg hgt] at hp
      have hgt' : Float64.gt y0 (Float64.ofInt 270) = false := by simpa using hgt
      change p ∈ cellPositions page y0
        (tableRow formatTime includePricing effectiveRate entry ++
          tableRows formatTime includePricing effectiveRate
            (Float64.add y0 (Float64.ofInt 6)) rest) at hp
      obtain ⟨n, hn⟩ := cellPositions_tableRow formatTime includePricing effectiveRate entry
        page y0
        (tableRows formatTime includePricing effectiveRate
          (Float64.add y0 (Float64.ofInt 6)) rest)
      rw [hn, List.mem_append] at hp
      rcases hp with hp | hp
      · rw [List.eq_of_mem_replicate hp]
        rw [h270] at hgt' ⊢
        exact Float64.le_of_gt_eq_false y0 _ _ hy hgt'
      · refine ih _ _ _ ?_ p hp
        rw [h6]
        exact Float64.add_fin_ne_nan _ _ _ hy

/-- Without any assumption on the starting position, no cell of the data rows is drawn at an
ordinate above 270. -/
theorem tableRows_positions_not_above (formatTime : String → Time → String)
    (includePricing : Bool) (effectiveRate : Float64) (entries : List TimeEntry) (y0 : Float64)
    (page : Nat) (y : Float64) :
    ∀ p ∈ cellPositions page y (tableRows formatTime includePricing effectiveRate y0 entries),
      Float64.gt p.2 (Float64.ofInt 270) = false := by
  induction entries generalizing y0 page y with
  | nil => simp [tableRows, cellPositions]
  | cons entry rest ih =>
    intro p hp
    rw [tableRows_cons] at hp
    by_cases hgt : Float64.gt y0 (Float64.ofInt 270) = true
    · rw [if_pos hgt, if_pos hgt] at hp
      change p ∈ cellPositions (page + 1) (Float64.ofInt 20)
        (tableRow formatTime includePricing effectiveRate entry ++
          tableRows formatTime includePricing effectiveRate
            (Float64.add (Float64.ofInt 20) (Float64.ofInt 6)) rest) at hp
      obtain ⟨n, hn⟩ := cellPositions_tableRow formatTime includePricing effectiveRate entry
        (page + 1) (Float64.ofInt 20)
        (tableRows formatTime includePricing effectiveRate
          (Float64.add (Float64.ofInt 20) (Float64.ofInt 6)) rest)
      rw [hn, List.mem_append] at hp
      rcases hp with hp | hp
      · rw [List.eq_of_mem_replicate hp]
        exact (by decide : Float64.gt (Float64.ofInt 20) (Float64.ofInt 270) = false)
      · exact ih _ _ _ p hp
    · rw [if_neg hgt, if_neg hgt] at hp
      have hgt' : Float64.gt y0 (Float64.ofInt 270) = false := by simpa using hgt
      change p ∈ cellPositions page y0
        (tableRow formatTime includePricing effectiveRate entry ++
          tableRows formatTime includePricing effectiveRate
            (Float64.add y0 (Float64.ofInt 6)) rest) at hp
      obtain ⟨n, hn⟩ := cellPositions_tableRow formatTime includePricing effectiveRate entry
        page y0
        (tableRows formatTime includePricing effectiveRate
          (Float64.add y0 (Float64.ofInt 6)) rest)
      rw [hn, List.mem_append] at hp
      rcases hp with hp | hp
      · rw [List.eq_of_mem_replicate hp]
        exact hgt'
      · exact ih _ _ _ p hp

/-- C13. The data rows of the table are the loop started at the first row position; each turn
of the loop sets the cursor, starts a page and sets the cursor to 20 when it is above 270,
draws the row and goes on 6 further down; no cell of a data row is drawn above 270, and for a
starting position that is a number every cell is drawn at 270 or less. -/
theorem addTimeEntriesTable_rows (formatTime : String → Time → String) (currentY : Float64)
    (config : ReportConfig Float64) (effectiveRate : Float64) (page : Nat) (y : Float64) :
    (∃ header, addTimeEntriesTable formatTime currentY config effectiveRate =
      header ++ tableRows formatTime config.IncludePricing effectiveRate (firstRowY currentY)
        config.TimeEntries) ∧
    (∀ (y0 : Float64) (entry : TimeEntry) (rest : List TimeEntry),
      tableRows formatTime config.IncludePricing effectiveRate y0 (entry :: rest) =
        PdfOp.SetXY 10 y0 ::
          ((if Float64.gt y0 (Float64.ofInt 270) then
              [PdfOp.AddPage, PdfOp.SetXY 10 (Float64.ofInt 20)]
            else []) ++
          (tableRow formatTime config.IncludePricing effectiveRate entry ++
            tableRows formatTime config.IncludePricing effectiveRate
              (Float64.add (if Float64.gt y0 (Float64.ofInt 270) then Float64.ofInt 20 else y0)
                (Float64.ofInt 6))
              rest))) ∧
    (∀ p ∈ cellPositions page y
        (tableRows formatTime config.IncludePricing effectiveRate (firstRowY currentY)
          config.TimeEntries),
      Float64.gt p.2 (Float64.ofInt 270) = false) ∧
    (currentY ≠ Float64.nan →
      ∀ p ∈ cellPositions page y
        (tableRows formatTime config.IncludePricing effectiveRate (firstRowY currentY)
          config.TimeEntries),
      Float64.le p.2 (Float64.ofInt 270) = true) := by
  refine ⟨⟨_, rfl⟩, fun y0 entry rest => tableRows_cons _ _ _ _ _ _,
    tableRows_positions_not_above _ _ _ _ _ _ _, fun hy => ?_⟩
  have h10 : Float64.ofInt 10 = Float64.fin 5629499534213120 (-49) := by decide
  have h8 : Float64.ofInt 8 = Float64.fin 4503599627370496 (-49) := by decide
  refine tableRows_positions _ _ _ _ _ _ _ ?_
  unfold firstRowY
  rw [h10, h8]
  exact Float64.add_fin_ne_nan _ _ _
    (Float64.add_fin_ne_nan _ _ _ (Float64.add_fin_ne_nan _ _ _ hy))

set_option maxRecDepth 100000 in
/-- Witness of C13: a table that starts at 230 has its first row at 258; five rows are drawn
at 258, 264 and 270 on the page and at 20 and 26 on the next one. -/
theorem addTimeEntriesTable_rows_witness :
    Float64.ofInt 230 ≠ Float64.nan ∧
      (∀ p ∈ cellPositions 0 (Float64.ofInt 0)
          (tableRows sampleFormatTime false (Float64.ofInt 0) (firstRowY (Float64.ofInt 230))
            sampleFiveEntries),
        Float64.le p.2 (Float64.ofInt 270) = true) ∧
      cellPositions 0 (Float64.ofInt 0)
          (tableRows sampleFormatTime false (Float64.ofInt 0) (firstRowY (Float64.ofInt 230))
            sampleFiveEntries) =
        List.replicate 5 (0, Float64.ofInt 258) ++ List.replicate 5 (0, Float64.ofInt 264) ++
          List.replicate 5 (0, Float64.ofInt 270) ++ List.replicate 5 (1, Float64.ofInt 20) ++
          List.replicate 5 (1, Float64.ofInt 26) :=
  ⟨by decide,
    (addTimeEntriesTable_rows sampleFormatTime (Float64.ofInt 230)
      { sampleConfigFloat with TimeEntries := sampleFiveEntries } (Float64.ofInt 0) 0
      (Float64.ofInt 0)).2.2.2 (by decide),
    by decide⟩

/-! ### The description cell -/

theorem utf8EncodeChar_length_of_ascii (c : Char) (hc : c.toNat ≤ 127) :
    (String.utf8EncodeChar c).length = 1 := by
  unfold String.utf8EncodeChar
  have h : c.val ≤ 127 := by
    rw [UInt32.le_def]
    exact hc
  simp only [h, if_true, List.length_singleton]

theorem flatMap_utf8_length_of_ascii (l : List Char) (h : ∀ c ∈ l, c.toNat ≤ 127) :
    (l.flatMap String.utf8EncodeChar).length = l.length := by
  induction l with
  | nil => rfl
  | cons c cs ih =>
    rw [List.flatMap_cons, List.length_append,
      utf8EncodeChar_length_of_ascii c (h c (List.mem_cons_self c cs)),
      ih (fun c hc => h c (List.mem_cons_of_mem _ hc)), List.length_cons, Nat.add_comm]

/-- The bytes of a text of ASCII characters are as many as its characters. -/
theorem goBytes_length_of_ascii (s : String) (h : ∀ c ∈ s.data, c.toNat ≤ 127) :
    (goBytes s).length = s.length := by
  have hs : s.length = s.data.length := by cases s; rfl
  rw [hs]
  exact flatMap_utf8_length_of_ascii s.data h

/-- C14, as amended. The description cell, the second of a row, holds the description unchanged
when its UTF-8 encoding has at most 32 bytes in the layout with prices (45 in the layout
without), and otherwise the first 29 bytes (42) of the encoding followed by "..."; the cell never
holds more than 32 (45) bytes; for a description of ASCII characters the bytes are the
characters. -/
theorem tableRow_description (formatTime : String → Time → String) (includePricing : Bool)
    (effectiveRate : Float64) (entry : TimeEntry) :
    (∃ txt,
      (tableRow formatTime includePricing effectiveRate entry)[1]? =
        some (PdfOp.Cell
          (if Float64.gt effectiveRate (Float64.ofInt 0) && includePricing then 65 else 80) 6
          txt) ∧
      (if Float64.gt effectiveRate (Float64.ofInt 0) && includePricing then
        txt = (if (goBytes entry.Description).length ≤ 32 then goBytes entry.Description
               else (goBytes entry.Description).take 29 ++ goBytes "...") ∧
          txt.length ≤ 32
       else
        txt = (if (goBytes entry.Description).length ≤ 45 then goBytes entry.Description
               else (goBytes entry.Description).take 42 ++ goBytes "...") ∧
          txt.length ≤ 45)) ∧
    ((∀ c ∈ entry.Description.data, c.toNat ≤ 127) →
      (goBytes entry.Description).length = entry.Description.length) := by
  refine ⟨?_, goBytes_length_of_ascii entry.Description⟩
  have h3 : (goBytes "...").length = 3 := by decide
  unfold tableRow
  by_cases hc : (Float64.gt effectiveRate (Float64.ofInt 0) && includePricing) = true
  · by_cases hl : (goBytes entry.Description).length ≤ 32
    · refine ⟨goBytes entry.Description, ?_, ?_⟩
      · simp [hc, pricingRow, Nat.not_lt.mpr hl]
      · simp [hc, hl]
    · refine ⟨(goBytes entry.Description).take 29 ++ goBytes "...", ?_, ?_⟩
      · simp [hc, pricingRow, Nat.lt_of_not_le hl]
      · have ht := List.length_take_le 29 (goBytes entry.Description)
        rw [if_pos hc, if_neg hl]
        refine ⟨rfl, ?_⟩
        rw [List.length_append, h3]
        omega
  · by_cases hl : (goBytes entry.Description).length ≤ 45
    · refine ⟨goBytes entry.Description, ?_, ?_⟩
      · simp [hc, plainRow, Nat.not_lt.mpr hl]
      · simp [hc, hl]
    · refine ⟨(goBytes entry.Description).take 42 ++ goBytes "...", ?_, ?_⟩
      · simp [hc, plainRow, Nat.lt_of_not_le hl]
      · have ht := List.length_take_le 42 (goBytes entry.Description)
        rw [if_neg hc, if_neg hl]
        refine ⟨rfl, ?_⟩
        rw [List.length_append, h3]
        omega

set_option maxRecDepth 100000 in
/-- C14, worked example. The description "Design review" is ASCII, so its 13 bytes are as many
as its characters, and the cell of the layout with prices holds it unchanged. -/
theorem tableRow_description_witness :
    (∀ c ∈ ({ sampleEntry (some 3600) true with
        Description := "Design review" } : TimeEntry).Description.data, c.toNat ≤ 127) ∧
      (goBytes ({ sampleEntry (some 3600) true with
        Description := "Design review" } : TimeEntry).Description).length =
        ({ sampleEntry (some 3600) true with
          Description := "Design review" } : TimeEntry).Description.length ∧
      (tableRow sampleFormatTime true (Float64.ofFrac 50 1)
          { sampleEntry (some 3600) true with Description := "Design review" })[1]? =
        some (PdfOp.Cell 65 6 (goBytes "Design review")) :=
  ⟨by decide,
    (tableRow_description sampleFormatTime true (Float64.ofFrac 50 1)
      { sampleEntry (some 3600) true with Description := "Design review" }).2 (by decide),
    by decide⟩

set_option maxRecDepth 100000 in
/-- C14, counterexample. A description of 17 characters "é" has at most 32 characters, but its
encoding has 34 bytes, and the cell of the layout with prices does not hold the description
unchanged: it holds the first 29 bytes, which end in the middle of the fifteenth character,
followed by "...". -/
theorem tableRow_description_cut :
    sampleAccentedDescription.length = 17 ∧
      (goBytes sampleAccentedDescription).length = 34 ∧
      (tableRow sampleFormatTime true (Float64.ofFrac 50 1)
          { sampleEntry (some 3600) true with Description := sampleAccentedDescription })[1]? =
        some (PdfOp.Cell 65 6
          ((goBytes sampleAccentedDescription).take 29 ++ goBytes "...")) ∧
      (goBytes sampleAccentedDescription).take 29 ++ goBytes "..." ≠
        goBytes sampleAccentedDescription ∧
      (goBytes sampleAccentedDescription).take 29 =
        goBytes "éééééééééééééé" ++ [0xC3] := by
  refine ⟨by decide, by decide, by decide, by decide, by decide⟩

/-! ## The migration command -/

/-- C15, as amended. With the database and the engine set up, `main` makes exactly one call on
the engine for the directions "up" and "down": the migration to the version when the version
is not zero; otherwise the given number of steps when that number is positive (negated for
"down"); otherwise, also for a negative number of steps, the full up (resp. the full down). For
every other direction it is fatal and makes no call. -/
theorem Migrate.main_calls (run : Migrate.Call → Migrate.Result) (direction : String)
    (steps : Int) (version : Nat) :
    (Migrate.main Migrate.setupOk run direction steps version).2 =
        (if direction = "up" ∨ direction = "down" then
          [if version ≠ 0 then Migrate.Call.Migrate version
           else if 0 < steps then
             Migrate.Call.Steps (if direction = "up" then steps else -steps)
           else if direction = "up" then Migrate.Call.Up else Migrate.Call.Down]
         else []) ∧
      (¬ (direction = "up" ∨ direction = "down") →
        Migrate.main Migrate.setupOk run direction steps version =
          (Migrate.Exit.Fatal ("Invalid direction: " ++ direction ++ ". Use 'up' or 'down'"),
            [])) := by
  have hud : ("down" : String) ≠ "up" := by decide
  unfold Migrate.main Migrate.setupOk Migrate.selectCall
  by_cases hu : direction = "up"
  · subst hu
    by_cases hv : version = 0
    · subst hv
      by_cases hs : 0 < steps
      · cases h : run (Migrate.Call.Steps steps) <;> simp [hs, h]
      · cases h : run Migrate.Call.Up <;> simp [hs, h]
    · have hv' : version > 0 := Nat.pos_of_ne_zero hv
      cases h : run (Migrate.Call.Migrate version) <;> simp [hv, hv', h]
  · by_cases hd : direction = "down"
    · subst hd
      by_cases hv : version = 0
      · subst hv
        by_cases hs : 0 < steps
        · cases h : run (Migrate.Call.Steps (-steps)) <;> simp [hs, h]
        · cases h : run Migrate.Call.Down <;> simp [hs, h]
      · have hv' : version > 0 := Nat.pos_of_ne_zero hv
        cases h : run (Migrate.Call.Migrate version) <;> simp [hv, hv', h]
    · simp [hu, hd]

/-- Witness of C15 as amended: the direction "sideways" is fatal with no call made. -/
theorem Migrate.main_calls_witness :
    ¬ (("sideways" : String) = "up" ∨ ("sideways" : String) = "down") ∧
      Migrate.main Migrate.setupOk (fun _ => Migrate.Result.Ok) "sideways" 3 0 =
        (Migrate.Exit.Fatal "Invalid direction: sideways. Use 'up' or 'down'", []) :=
  ⟨by decide,
    (Migrate.main_calls (fun _ => Migrate.Result.Ok) "sideways" 3 0).2 (by decide)⟩

/-- C15, counterexample. With `-direction up -steps -2` the step count is not zero, and `main`
does not move by that many steps: it does the full up. With `-direction down -steps -2` it does
the full down. -/
theorem Migrate.main_negative_steps :
    (Migrate.main Migrate.setupOk (fun _ => Migrate.Result.Ok) "up" (-2) 0).2 =
        [Migrate.Call.Up] ∧
      (Migrate.main Migrate.setupOk (fun _ => Migrate.Result.Ok) "up" (-2) 0).2 ≠
        [Migrate.Call.Steps (-2)] ∧
      (Migrate.main Migrate.setupOk (fun _ => Migrate.Result.Ok) "down" (-2) 0).2 =
        [Migrate.Call.Down] ∧
      (Migrate.main Migrate.setupOk (fun _ => Migrate.Result.Ok) "down" (-2) 0).2 ≠
        [Migrate.Call.Steps 2] := by
  refine ⟨by decide, by decide, by decide, by decide⟩

/-! ## The terminal UI: leaving Confirm, Success and Error -/

/-- C19. In the Confirm state, enter with Cancel highlighted (a confirm choice other than Save),
and esc with either choice highlighted, give the Timer state with the elapsed time, the running
flag, the project list, the cursor and the selected project unchanged (as every other field),
the confirm choice reset to Save, and no command. -/
theorem Update_confirm_cancel (now : Time) (m : Model) (hstate : m.state = stateConfirm) :
    (m.confirmSelection ≠ 0 →
      m.Update now (Msg.KeyMsg "enter") =
        ({ m with state := stateTimer, confirmSelection := 0 }, none)) ∧
    m.Update now (Msg.KeyMsg "esc") =
      ({ m with state := stateTimer, confirmSelection := 0 }, none) ∧
    ({ m with state := stateTimer, confirmSelection := 0 } : Model).elapsed = m.elapsed ∧
    ({ m with state := stateTimer, confirmSelection := 0 } : Model).running = m.running ∧
    ({ m with state := stateTimer, confirmSelection := 0 } : Model).projects = m.projects ∧
    ({ m with state := stateTimer, confirmSelection := 0 } : Model).cursor = m.cursor ∧
    ({ m with state := stateTimer, confirmSelection := 0 } : Model).selectedProject =
      m.selectedProject := by
  refine ⟨fun hsel => ?_, ?_, rfl, rfl, rfl, rfl, rfl⟩
  · simp [Model.Update, hstate, hsel]
  · simp [Model.Update, hstate]

/-- Witness of C19 on the sample model in Confirm with Cancel highlighted. -/
theorem Update_confirm_cancel_witness :
    (sampleModelIn stateConfirm 1).state = stateConfirm ∧
      (sampleModelIn stateConfirm 1).confirmSelection ≠ 0 ∧
      (sampleModelIn stateConfirm 1).Update (clockAt 100 0) (Msg.KeyMsg "enter") =
        ({ sampleModelIn stateConfirm 1 with state := stateTimer, confirmSelection := 0 },
          none) ∧
      (sampleModelIn stateConfirm 1).Update (clockAt 100 0) (Msg.KeyMsg "esc") =
        ({ sampleModelIn stateConfirm 1 with state := stateTimer, confirmSelection := 0 },
          none) :=
  ⟨rfl, by decide,
    (Update_confirm_cancel (clockAt 100 0) (sampleModelIn stateConfirm 1) rfl).1 (by decide),
    (Update_confirm_cancel (clockAt 100 0) (sampleModelIn stateConfirm 1) rfl).2.1⟩

/-- C20. In the Success state and in the Error state, enter gives the Select-Project state with
elapsed time 0, not running and no error (and the confirm choice at Save), with no command; the
project list and the cursor are unchanged, as every other field. -/
theorem Update_result_enter (now : Time) (m : Model)
    (hstate : m.state = stateSuccess ∨ m.state = stateError) :
    m.Update now (Msg.KeyMsg "enter") =
        ({ m with state := stateSelectProject, elapsed := 0, running := false, err := none,
                  confirmSelection := 0 }, none) ∧
      (m.Update now (Msg.KeyMsg "enter")).1.state = stateSelectProject ∧
      (m.Update now (Msg.KeyMsg "enter")).1.elapsed = 0 ∧
      (m.Update now (Msg.KeyMsg "enter")).1.running = false ∧
      (m.Update now (Msg.KeyMsg "enter")).1.err = none ∧
      (m.Update now (Msg.KeyMsg "enter")).1.projects = m.projects ∧
      (m.Update now (Msg.KeyMsg "enter")).1.cursor = m.cursor := by
  have h : m.Update now (Msg.KeyMsg "enter") =
      ({ m with state := stateSelectProject, elapsed := 0, running := false, err := none,
                confirmSelection := 0 }, none) := by
    rcases hstate with hs | hs <;> simp [Model.Update, hs]
  rw [h]
  exact ⟨rfl, rfl, rfl, rfl, rfl, rfl, rfl⟩

/-- Witness of C20 on the sample model in Error. -/
theorem Update_result_enter_witness :
    ((sampleModelIn stateError 0).state = stateSuccess ∨
        (sampleModelIn stateError 0).state = stateError) ∧
      (sampleModelIn stateError 0).Update (clockAt 100 0) (Msg.KeyMsg "enter") =
        ({ sampleModelIn stateError 0 with
            state := stateSelectProject, elapsed := 0, running := false, err := none,
            confirmSelection := 0 }, none) :=
  ⟨Or.inr rfl, (Update_result_enter (clockAt 100 0) (sampleModelIn stateError 0) (Or.inr rfl)).1⟩

/-! ## The server: verbs -/

/-- On the routes whose handler or switch looks at the verb, a request with a verb that the
API surface does not list for the route is answered 405 "Method not allowed", and the database
is left as it was, whatever the store. -/
theorem ServeHTTP_method_not_allowed {σ : Type} (lib : Lib) (generator : ReportGenerator)
    (store : Store σ) (db : σ) (r : Request) (path : String) (verbs : List String)
    (hmem : (path, verbs) ∈ apiSurface) (hguard : path ∉ routesWithoutVerbCheck)
    (hpath : r.Path = path) (hverb : r.Method ∉ verbs) :
    ServeHTTP lib generator store db r = httpError db 405 "Method not allowed" [] := by
  simp only [apiSurface, List.mem_cons, Prod.mk.injEq, List.mem_singleton, List.not_mem_nil,
    or_false] at hmem
  simp only [routesWithoutVerbCheck, List.mem_cons, List.mem_singleton, List.not_mem_nil,
    or_false, not_or] at hguard
  rcases hmem with ⟨rfl, rfl⟩ | ⟨rfl, rfl⟩ | ⟨rfl, rfl⟩ | ⟨rfl, rfl⟩ | ⟨rfl, rfl⟩ | ⟨rfl, rfl⟩ |
    ⟨rfl, rfl⟩ | ⟨rfl, rfl⟩ | ⟨rfl, rfl⟩ | ⟨rfl, rfl⟩ | ⟨rfl, rfl⟩ | ⟨rfl, rfl⟩
  · exact absurd rfl hguard.1
  · exact absurd rfl hguard.2.1
  · simp only [List.mem_cons, List.mem_singleton, List.not_mem_nil, or_false, not_or] at hverb
    simp [ServeHTTP, hpath, hverb.1, hverb.2]
  · simp only [List.mem_cons, List.mem_singleton, List.not_mem_nil, or_false, not_or] at hverb
    simp [ServeHTTP, hpath, hverb.1, hverb.2.1, hverb.2.2]
  · simp only [List.mem_cons, List.mem_singleton, List.not_mem_nil, or_false, not_or] at hverb
    simp [ServeHTTP, hpath, hverb.1, hverb.2]
  · exact absurd rfl hguard.2.2.1
  · simp only [List.mem_cons, List.mem_singleton, List.not_mem_nil, or_false, not_or] at hverb
    simp [ServeHTTP, hpath, UpdateTimeEntryBillable, hverb]
  · simp only [List.mem_cons, List.mem_singleton, List.not_mem_nil, or_false, not_or] at hverb
    simp [ServeHTTP, hpath, serveImportTimeEntriesCSV, ImportTimeEntriesCSV, hverb, httpError]
  · simp only [List.mem_cons, List.mem_singleton, List.not_mem_nil, or_false, not_or] at hverb
    simp [ServeHTTP, hpath, hverb.1, hverb.2.1, hverb.2.2]
  · simp only [List.mem_cons, List.mem_singleton, List.not_mem_nil, or_false, not_or] at hverb
    simp [ServeHTTP, hpath, hverb.1, hverb.2]
  · exact absurd rfl hguard.2.2.2
  · simp only [List.mem_cons, List.mem_singleton, List.not_mem_nil, or_false, not_or] at hverb
    simp [ServeHTTP, hpath, GeneratePDFReport, hverb]

/-- C16, at the failing input. The API surface lists GET for `/api/users`; a POST to that path
is not answered 405: `GetUsers` runs its SELECT (one operation on the database) and answers 200.
The same holds for a DELETE on `/api/time-entries/project`, and `/healthz` and
`/api/currencies` answer 200 to every verb. -/
theorem ServeHTTP_users_post :
    (("/api/users", ["GET"]) ∈ apiSurface ∧ "POST" ∉ ["GET"]) ∧
      ((ServeHTTP sampleLib sampleGenerator countingStore 0
          (sampleRequest "POST" "/api/users" [])).response.status = 200 ∧
        (ServeHTTP sampleLib sampleGenerator countingStore 0
          (sampleRequest "POST" "/api/users" [])).db = 1) ∧
      ((ServeHTTP sampleLib sampleGenerator countingStore 0
          (sampleRequest "DELETE" "/api/time-entries/project"
            [("project_id", ["7"])])).response.status = 200 ∧
        (ServeHTTP sampleLib sampleGenerator countingStore 0
          (sampleRequest "DELETE" "/api/time-entries/project" [("project_id", ["7"])])).db = 1) ∧
      (ServeHTTP sampleLib sampleGenerator countingStore 0
        (sampleRequest "POST" "/healthz" [])).response.status = 200 ∧
      (ServeHTTP sampleLib sampleGenerator countingStore 0
        (sampleRequest "PUT" "/api/currencies" [])).response.status = 200 := by
  refine ⟨⟨by decide, by decide⟩, ⟨by decide, by decide⟩, ⟨by decide, by decide⟩, by decide,
    by decide⟩

/-! ## The server: errors of the database -/

/-- The second loop adds to its log one line for each INSERT that failed. -/
theorem insertEntries_log {σ : Type} (database : Database σ) (entries : List TimeEntry)
    (st : InsertState σ) :
    (insertEntries database entries st).log =
      st.log ++ insertFailures database st.db entries := by
  induction entries generalizing st with
  | nil => simp [insertEntries, insertFailures]
  | cons e es ih =>
    unfold insertEntries insertFailures
    cases h : database.Exec st.db insertTimeEntryQuery (insertTimeEntryArgs e) with
    | mk db1 res =>
      cases res with
      | none => simp only [ih]
      | some err => simp only [ih, List.append_assoc, List.singleton_append]

/-- Each entry of the second loop is either inserted or printed as a failure. -/
theorem insertFailures_length {σ : Type} (database : Database σ) (entries : List TimeEntry)
    (db : σ) :
    (insertFailures database db entries).length +
      (insertOutcomes database db entries).count true = entries.length := by
  induction entries generalizing db with
  | nil => simp [insertFailures, insertOutcomes]
  | cons e es ih =>
    unfold insertFailures insertOutcomes
    cases h : database.Exec db insertTimeEntryQuery (insertTimeEntryArgs e) with
    | mk db1 res =>
      cases res with
      | none =>
        simp only [Option.isNone_none, List.count_cons_self, List.length_cons]
        have := ih db1
        omega
      | some err =>
        simp only [Option.isNone_some, List.length_cons]
        have := ih db1
        simp only [List.count_cons, Bool.false_eq_true, beq_iff_eq, if_false, add_zero]
        omega

/-- The outcome of the import for an upload with a header and at least one data row, whatever
the INSERTs do: the answer is 200 with the number of successful INSERTs, and the log holds the
lines of the rows skipped followed by one line for each INSERT that failed. -/
theorem serveImportTimeEntriesCSV_outcome {σ : Type} (lib : Lib) (store : Store σ) (db : σ)
    (r : Request) (projectID : Int) (records : List (List String))
    (hmethod : r.Method = "POST") (hform : r.FormParses = true) (hid : r.FormProjectID ≠ "")
    (hatoi : lib.Atoi r.FormProjectID = some projectID)
    (hfile : r.FormFile = some (some records)) (hrows : 2 ≤ records.length) :
    (serveImportTimeEntriesCSV lib store db r).response =
        { status := 200
          body := Body.Imported
            ("Successfully imported " ++
              toString (((insertOutcomes store.asDatabase db
                (acceptedEntries lib projectID 0 (records.drop 1))).count true : Nat) : Int) ++
              " time entries")
            ((insertOutcomes store.asDatabase db
              (acceptedEntries lib projectID 0 (records.drop 1))).count true : Nat) } ∧
      (serveImportTimeEntriesCSV lib store db r).log =
        (importRows lib projectID 0 (records.drop 1) ([], [])).2 ++
          insertFailures store.asDatabase db
            (acceptedEntries lib projectID 0 (records.drop 1)) := by
  have hresp := ImportTimeEntriesCSV_response lib store.asDatabase db
    { Method := r.Method, FormParses := r.FormParses, ProjectID := r.FormProjectID,
      File := r.FormFile } projectID records hmethod hform hid hatoi hfile hrows
  constructor
  · unfold serveImportTimeEntriesCSV
    dsimp only
    unfold Store.asDatabase at hresp
    rw [hresp]
    rfl
  · unfold serveImportTimeEntriesCSV ImportTimeEntriesCSV
    dsimp only
    rw [if_neg (by simp [hmethod]), if_neg (by simp [hform]), if_neg hid]
    simp only [hatoi, hfile]
    rw [if_neg (by omega)]
    simp only [insertEntries_log, importRows_fst, List.nil_append]
    rfl

/-- C17, as amended. For every store, state of the database and request: (1) a handler whose
list, create, update or delete statement gives an error answers 500 with its fixed text, the
text of the error going to the log only, whatever the other operations of the store do; so does
the report handler when its SELECT of the time entries gives an error after the project was
found; (2) the CSV import answers 200 with the number of INSERTs that succeeded, whatever INSERTs
fail, and prints one line for each INSERT that failed, each entry being either inserted or
printed; (3) the report handler prints an error of the read of the settings and goes on with
the zero settings to the document; (4) a lookup by id that finds no row (`GetProject`,
`GetTimeEntry`, the project of the report) is answered 404. -/
theorem handlers_database_errors {σ : Type} (lib : Lib) (generator : ReportGenerator)
    (store : Store σ) (db : σ) (r : Request) :
    ((∀ db1 err,
        store.SelectUsers db
            "SELECT id, email, name, created_at, updated_at FROM users ORDER BY created_at DESC"
            [] = (db1, Except.error err) →
        GetUsers store db r = httpError db1 500 "Failed to fetch users" [err.text ++ "\n"]) ∧
      (∀ db1 err,
        store.SelectProjects db
            "SELECT id, name, description, user_id, hourly_rate, created_at, updated_at FROM projects ORDER BY created_at DESC"
            [] = (db1, Except.error err) →
        GetProjects store db r = httpError db1 500 "Failed to fetch projects" []) ∧
      (∀ project db1 err, r.Method = "POST" → r.ProjectBody = some project →
        store.QueryRow db
            "INSERT INTO projects (name, description, user_id, hourly_rate) VALUES ($1, $2, $3, $4) RETURNING id, created_at, updated_at"
            [SQLArg.Str project.Name, SQLArg.Str project.Description,
              SQLArg.Int project.UserID, SQLArg.OptFloat project.HourlyRate] =
          (db1, Except.error err) →
        CreateProject store db r =
          httpError db1 500 "Failed to create project"
            ["Error creating project: " ++ err.text ++ "\n"]) ∧
      (∀ project db1 err, r.Method = "PUT" → r.Query.Get "id" ≠ "" →
        r.ProjectBody = some project →
        store.QueryRow db
            "UPDATE projects SET name = $1, description = $2, hourly_rate = $3, updated_at = NOW() WHERE id = $4 RETURNING id, created_at, updated_at"
            [SQLArg.Str project.Name, SQLArg.Str project.Description,
              SQLArg.OptFloat project.HourlyRate, SQLArg.Str (r.Query.Get "id")] =
          (db1, Except.error err) →
        UpdateProject store db r =
          httpError db1 500 "Failed to update project"
            ["Error updating project: " ++ err.text ++ "\n"]) ∧
      (∀ db1 err, r.Method = "DELETE" → r.Query.Get "id" ≠ "" →
        store.Exec db "DELETE FROM projects WHERE id = $1" [SQLArg.Str (r.Query.Get "id")] =
          (db1, some err) →
        DeleteProject store db r =
          httpError db1 500 "Failed to delete project"
            ["Error deleting project: " ++ err.text ++ "\n"]) ∧
      (∀ db1 err,
        store.SelectTimeEntries db
            "SELECT id, project_id, user_id, description, start_time, end_time, duration, billable, created_at, updated_at FROM time_entries ORDER BY start_time DESC"
            [] = (db1, Except.error err) →
        GetTimeEntries store db r =
          httpError db1 500 "Failed to fetch time entries" [err.text ++ "\n"]) ∧
      (∀ timeEntry db1 err, r.Method = "POST" → r.TimeEntryBody = some timeEntry →
        store.QueryRow db
            "INSERT INTO time_entries (project_id, user_id, description, start_time, end_time, duration, billable) VALUES ($1, $2, $3, $4, $5, $6, $7) RETURNING id, created_at, updated_at"
            (insertTimeEntryArgs timeEntry) = (db1, Except.error err) →
        CreateTimeEntry store db r =
          httpError db1 500 "Failed to create time entry"
            ["Error creating time entry: " ++ err.text ++ "\n"]) ∧
      (∀ db1 err, r.Query.Get "project_id" ≠ "" →
        store.SelectTimeEntries db
            (byProjectStatement (r.Query.Get "project_id") (r.Query.Get "date_from")
              (r.Query.Get "date_to") (r.Query.Get "billable")).query
            (byProjectStatement (r.Query.Get "project_id") (r.Query.Get "date_from")
              (r.Query.Get "date_to") (r.Query.Get "billable")).args =
          (db1, Except.error err) →
        serveTimeEntriesByProject store db r =
          httpError db1 500 "Failed to fetch time entries"
            ["Error fetching time entries: " ++ err.text ++ "\n"]) ∧
      (∀ billable db1 err, r.Method = "PUT" → r.Query.Get "id" ≠ "" →
        r.BillableBody = some billable →
        store.Exec db "UPDATE time_entries SET billable = $1, updated_at = NOW() WHERE id = $2"
            [SQLArg.Bool billable, SQLArg.Str (r.Query.Get "id")] = (db1, some err) →
        UpdateTimeEntryBillable store db r =
          httpError db1 500 "Failed to update time entry"
            ["Error updating time entry billable status: " ++ err.text ++ "\n"]) ∧
      (∀ timeEntry db1 err, r.Method = "PUT" → r.Query.Get "id" ≠ "" →
        r.TimeEntryBody = some timeEntry →
        store.QueryRow db
            "UPDATE time_entries SET project_id = $1, description = $2, start_time = $3, end_time = $4, duration = $5, billable = $6, updated_at = NOW() WHERE id = $7 RETURNING id, created_at, updated_at"
            [SQLArg.Int timeEntry.ProjectID, SQLArg.Str timeEntry.Description,
              SQLArg.Time timeEntry.StartTime, SQLArg.OptTime timeEntry.EndTime,
              SQLArg.OptInt timeEntry.Duration, SQLArg.Bool timeEntry.Billable,
              SQLArg.Str (r.Query.Get "id")] = (db1, Except.error err) →
        UpdateTimeEntry store db r =
          httpError db1 500 "Failed to update time entry"
            ["Error updating time entry: " ++ err.text ++ "\n"]) ∧
      (∀ db1 err, r.Method = "DELETE" → r.Query.Get "id" ≠ "" →
        store.Exec db "DELETE FROM time_entries WHERE id = $1"
            [SQLArg.Str (r.Query.Get "id")] = (db1, some err) →
        DeleteTimeEntry store db r =
          httpError db1 500 "Failed to delete time entry"
            ["Error deleting time entry: " ++ err.text ++ "\n"]) ∧
      (∀ db1 err,
        store.GetSettings db
            "SELECT id, default_hourly_rate, currency, created_at, updated_at FROM settings LIMIT 1"
            [] = (db1, Except.error err) →
        GetSettings store db r =
          httpError db1 500 "Failed to fetch settings"
            ["Error fetching settings: " ++ err.text ++ "\n"]) ∧
      (∀ settings db1 err, r.Method = "PUT" → r.SettingsBody = some settings →
        store.QueryRow db updateSettingsQuery (updateSettingsArgs settings) =
          (db1, Except.error err) →
        serveUpdateSettings store db r =
          httpError db1 500 "Failed to update settings"
            ["Error updating settings: " ++ err.text ++ "\n"]) ∧
      (∀ project db1 db2 db3 settingsResult err, r.Method = "GET" →
        r.Query.Get "project_id" ≠ "" →
        store.GetProject db
            "SELECT id, name, description, user_id, hourly_rate, created_at, updated_at FROM projects WHERE id = $1"
            [SQLArg.Str (r.Query.Get "project_id")] = (db1, Except.ok project) →
        store.GetSettings db1
            "SELECT id, default_hourly_rate, currency, created_at, updated_at FROM settings LIMIT 1"
            [] = (db2, settingsResult) →
        store.SelectTimeEntries db2
            (reportStatement (r.Query.Get "project_id") (r.Query.Get "date_from")
              (r.Query.Get "date_to") (r.Query.Get "billable")).query
            (reportStatement (r.Query.Get "project_id") (r.Query.Get "date_from")
              (r.Query.Get "date_to") (r.Query.Get "billable")).args =
          (db3, Except.error err) →
        (GeneratePDFReport generator store db r).response =
            { status := 500, body := Body.Text "Failed to fetch time entries" } ∧
          (GeneratePDFReport generator store db r).db = db3)) ∧
    (∀ projectID records, r.Method = "POST" → r.FormParses = true → r.FormProjectID ≠ "" →
      lib.Atoi r.FormProjectID = some projectID → r.FormFile = some (some records) →
      2 ≤ records.length →
      (serveImportTimeEntriesCSV lib store db r).response =
          { status := 200
            body := Body.Imported
              ("Successfully imported " ++
                toString (((insertOutcomes store.asDatabase db
                  (acceptedEntries lib projectID 0 (records.drop 1))).count true : Nat) : Int) ++
                " time entries")
              ((insertOutcomes store.asDatabase db
                (acceptedEntries lib projectID 0 (records.drop 1))).count true : Nat) } ∧
        (serveImportTimeEntriesCSV lib store db r).log =
          (importRows lib projectID 0 (records.drop 1) ([], [])).2 ++
            insertFailures store.asDatabase db
              (acceptedEntries lib projectID 0 (records.drop 1)) ∧
        (insertFailures store.asDatabase db
            (acceptedEntries lib projectID 0 (records.drop 1))).length +
          (insertOutcomes store.asDatabase db
            (acceptedEntries lib projectID 0 (records.drop 1))).count true =
          (acceptedEntries lib projectID 0 (records.drop 1)).length) ∧
    (∀ project db1 db2 db3 err timeEntries buf, r.Method = "GET" →
      r.Query.Get "project_id" ≠ "" →
      store.GetProject db
          "SELECT id, name, description, user_id, hourly_rate, created_at, updated_at FROM projects WHERE id = $1"
          [SQLArg.Str (r.Query.Get "project_id")] = (db1, Except.ok project) →
      store.GetSettings db1
          "SELECT id, default_hourly_rate, currency, created_at, updated_at FROM settings LIMIT 1"
          [] = (db2, Except.error err) →
      store.SelectTimeEntries db2
          (reportStatement (r.Query.Get "project_id") (r.Query.Get "date_from")
            (r.Query.Get "date_to") (r.Query.Get "billable")).query
          (reportStatement (r.Query.Get "project_id") (r.Query.Get "date_from")
            (r.Query.Get "date_to") (r.Query.Get "billable")).args =
        (db3, Except.ok timeEntries) →
      generator.GenerateTimeReport
          { Project := project, TimeEntries := timeEntries, Settings := Settings.zero,
            IncludePricing := decide (r.Query.Get "include_pricing" ≠ "false"),
            DateFrom := r.Query.Get "date_from", DateTo := r.Query.Get "date_to",
            BillableFilter := r.Query.Get "billable" } = Except.ok buf →
      GeneratePDFReport generator store db r =
        { response := { status := 200, body := Body.PDF (generator.GetFilename project.Name) buf }
          db := db3
          log := ["Error fetching settings: " ++ err.text ++ "\n"] }) ∧
    ((∀ db1, r.Method = "GET" → r.Query.Get "id" ≠ "" →
        store.GetProject db
            "SELECT id, name, description, user_id, hourly_rate, created_at, updated_at FROM projects WHERE id = $1"
            [SQLArg.Str (r.Query.Get "id")] = (db1, Except.error DBError.NoRows) →
        (GetProject store db r).response =
          { status := 404, body := Body.Text "Project not found" }) ∧
      (∀ db1, r.Method = "GET" → r.Query.Get "id" ≠ "" →
        store.GetTimeEntry db
            "SELECT id, project_id, user_id, description, start_time, end_time, duration, billable, created_at, updated_at FROM time_entries WHERE id = $1"
            [SQLArg.Str (r.Query.Get "id")] = (db1, Except.error DBError.NoRows) →
        (GetTimeEntry store db r).response =
          { status := 404, body := Body.Text "Time entry not found" }) ∧
      (∀ db1, r.Method = "GET" → r.Query.Get "project_id" ≠ "" →
        store.GetProject db
            "SELECT id, name, description, user_id, hourly_rate, created_at, updated_at FROM projects WHERE id = $1"
            [SQLArg.Str (r.Query.Get "project_id")] = (db1, Except.error DBError.NoRows) →
        (GeneratePDFReport generator store db r).response =
          { status := 404, body := Body.Text "Project not found" })) := by
  refine ⟨⟨?_, ?_, ?_, ?_, ?_, ?_, ?_, ?_, ?_, ?_, ?_, ?_, ?_, ?_⟩, ?_, ?_, ⟨?_, ?_, ?_⟩⟩
  · intro db1 err h
    simp only [GetUsers, h]
  · intro db1 err h
    simp only [GetProjects, h]
  · intro project db1 err hm hb h
    simp only [CreateProject, hm, hb, h, ne_eq, not_true_eq_false, if_false]
  · intro project db1 err hm hid hb h
    simp only [UpdateProject, hm, hid, hb, h, ne_eq, not_true_eq_false, if_false]
  · intro db1 err hm hid h
    simp only [DeleteProject, hm, hid, h, ne_eq, not_true_eq_false, if_false]
  · intro db1 err h
    simp only [GetTimeEntries, h]
  · intro timeEntry db1 err hm hb h
    simp only [CreateTimeEntry, hm, hb, h, ne_eq, not_true_eq_false, if_false]
  · intro db1 err hid h
    simp only [serveTimeEntriesByProject, hid, h, if_false]
  · intro billable db1 err hm hid hb h
    simp only [UpdateTimeEntryBillable, hm, hid, hb, h, ne_eq, not_true_eq_false, if_false]
  · intro timeEntry db1 err hm hid hb h
    simp only [UpdateTimeEntry, hm, hid, hb, h, ne_eq, not_true_eq_false, if_false]
  · intro db1 err hm hid h
    simp only [DeleteTimeEntry, hm, hid, h, ne_eq, not_true_eq_false, if_false]
  · intro db1 err h
    simp only [GetSettings, h]
  · intro settings db1 err hm hb h
    simp only [serveUpdateSettings, UpdateSettings, hm, hb, h, ne_eq, not_true_eq_false,
      if_false]
    rfl
  · intro project db1 db2 db3 settingsResult err hm hid hp hs ht
    simp only [GeneratePDFReport, hm, hid, hp, hs, ht, ne_eq, not_true_eq_false, if_false]
    exact ⟨rfl, rfl⟩
  · intro projectID records hm hf hid ha hfile hrows
    obtain ⟨h1, h2⟩ :=
      serveImportTimeEntriesCSV_outcome lib store db r projectID records hm hf hid ha hfile
        hrows
    exact ⟨h1, h2, insertFailures_length _ _ _⟩
  · intro project db1 db2 db3 err timeEntries buf hm hid hp hs ht hg
    simp only [GeneratePDFReport, hm, hid, hp, hs, ht, ne_eq, not_true_eq_false, if_false]
    simp only [ne_eq] at hg
    rw [hg]
  · intro db1 hm hid h
    simp only [GetProject, hm, hid, h, ne_eq, not_true_eq_false, if_false]
    rfl
  · intro db1 hm hid h
    simp only [GetTimeEntry, hm, hid, h, ne_eq, not_true_eq_false, if_false]
    rfl
  · intro db1 hm hid h
    simp only [GeneratePDFReport, hm, hid, h, ne_eq, not_true_eq_false, if_false]
    rfl

set_option maxRecDepth 100000 in
/-- Witness of C17 as amended. (a) On a store whose reads succeed and whose INSERT violates a
constraint, the creation of a project is answered 500 "Failed to create project", the text of
the violation going to the log. (b) With the database unreachable, the import of a file with
one valid row is answered 200 with count 0, and the failed INSERT is printed. (c) With a
settings table that cannot be read, the report is answered 200 with the document, and the error
is printed. (d) On a store with no row for the id, the lookup of a project is answered 404. -/
theorem handlers_database_errors_witness :
    ((sampleRequest "POST" "/api/projects" []).Method = "POST" ∧
      (sampleRequest "POST" "/api/projects" []).ProjectBody = some (sampleProject 0 "p") ∧
      constraintStore.QueryRow 0
          "INSERT INTO projects (name, description, user_id, hourly_rate) VALUES ($1, $2, $3, $4) RETURNING id, created_at, updated_at"
          [SQLArg.Str (sampleProject 0 "p").Name, SQLArg.Str (sampleProject 0 "p").Description,
            SQLArg.Int (sampleProject 0 "p").UserID,
            SQLArg.OptFloat (sampleProject 0 "p").HourlyRate] =
        (1, Except.error
          (DBError.Failure "duplicate key value violates unique constraint")) ∧
      (constraintStore.SelectProjects 0 "SELECT 1" []).2 = Except.ok [] ∧
      CreateProject constraintStore 0 (sampleRequest "POST" "/api/projects" []) =
        httpError 1 500 "Failed to create project"
          ["Error creating project: duplicate key value violates unique constraint\n"]) ∧
    ((sampleRequest "POST" "/api/time-entries/import" []).FormFile =
        some (some [["date", "hours"], ["2024-01-15", "3.5"]]) ∧
      sampleLib.Atoi (sampleRequest "POST" "/api/time-entries/import" []).FormProjectID =
        some 7 ∧
      (serveImportTimeEntriesCSV sampleLib failingStore 0
          (sampleRequest "POST" "/api/time-entries/import" [])).response =
        { status := 200, body := Body.Imported "Successfully imported 0 time entries" 0 } ∧
      (serveImportTimeEntriesCSV sampleLib failingStore 0
          (sampleRequest "POST" "/api/time-entries/import" [])).log =
        ["Error inserting time entry: connection refused\n"]) ∧
    ((sampleRequest "GET" "/api/reports/pdf" [("project_id", ["7"])]).Method = "GET" ∧
      (sampleRequest "GET" "/api/reports/pdf" [("project_id", ["7"])]).Query.Get "project_id" ≠
        "" ∧
      GeneratePDFReport sampleGenerator settingsDownStore 0
          (sampleRequest "GET" "/api/reports/pdf" [("project_id", ["7"])]) =
        { response := { status := 200, body := Body.PDF "p-time-report.pdf" [] }
          db := 3
          log := ["Error fetching settings: relation \"settings\" does not exist\n"] }) ∧
    ((sampleRequest "GET" "/api/projects/single" [("id", ["7"])]).Query.Get "id" ≠ "" ∧
      (GetProject noRowStore 0
          (sampleRequest "GET" "/api/projects/single" [("id", ["7"])])).response =
        { status := 404, body := Body.Text "Project not found" }) :=
  ⟨⟨rfl, rfl, rfl, rfl,
      (handlers_database_errors sampleLib sampleGenerator constraintStore 0
        (sampleRequest "POST" "/api/projects" [])).1.2.2.1 (sampleProject 0 "p") 1
        (DBError.Failure "duplicate key value violates unique constraint") rfl rfl rfl⟩,
    ⟨rfl, rfl,
      ((handlers_database_errors sampleLib sampleGenerator failingStore 0
        (sampleRequest "POST" "/api/time-entries/import" [])).2.1 7
        [["date", "hours"], ["2024-01-15", "3.5"]] rfl rfl (by decide) rfl rfl
        (by decide)).1,
      ((handlers_database_errors sampleLib sampleGenerator failingStore 0
        (sampleRequest "POST" "/api/time-entries/import" [])).2.1 7
        [["date", "hours"], ["2024-01-15", "3.5"]] rfl rfl (by decide) rfl rfl
        (by decide)).2.1⟩,
    ⟨rfl, by decide,
      (handlers_database_errors sampleLib sampleGenerator settingsDownStore 0
        (sampleRequest "GET" "/api/reports/pdf" [("project_id", ["7"])])).2.2.1
        (sampleProject 7 "p") 1 2 3
        (DBError.Failure "relation \"settings\" does not exist") [] [] rfl (by decide) rfl rfl
        rfl rfl⟩,
    ⟨by decide,
      (handlers_database_errors sampleLib sampleGenerator noRowStore 0
        (sampleRequest "GET" "/api/projects/single" [("id", ["7"])])).2.2.2.1 1 rfl
        (by decide) rfl⟩⟩

set_option maxRecDepth 100000 in
/-- C17, counterexample. (a) With the database unreachable, the import of a file with one valid
row performs its INSERT, which fails, and answers 200: the failure is printed and the row
passed over. (b) With a settings table that cannot be read, the report handler prints the error
and goes on to answer 200 with the document. (c) With the database unreachable, the lookups of
a project and of a time entry by id are answered 404, not 500. -/
theorem handlers_database_errors_not_500 :
    ((ServeHTTP sampleLib sampleGenerator failingStore 0
          (sampleRequest "POST" "/api/time-entries/import" [])).response.status = 200 ∧
        (ServeHTTP sampleLib sampleGenerator failingStore 0
          (sampleRequest "POST" "/api/time-entries/import" [])).db = 1 ∧
        (ServeHTTP sampleLib sampleGenerator failingStore 0
          (sampleRequest "POST" "/api/time-entries/import" [])).log =
          ["Error inserting time entry: connection refused\n"]) ∧
      ((ServeHTTP sampleLib sampleGenerator settingsDownStore 0
          (sampleRequest "GET" "/api/reports/pdf" [("project_id", ["7"])])).response.status =
          200 ∧
        (ServeHTTP sampleLib sampleGenerator settingsDownStore 0
          (sampleRequest "GET" "/api/reports/pdf" [("project_id", ["7"])])).log =
          ["Error fetching settings: relation \"settings\" does not exist\n"]) ∧
      ((ServeHTTP sampleLib sampleGenerator failingStore 0
          (sampleRequest "GET" "/api/projects/single" [("id", ["7"])])).response.status = 404 ∧
        (ServeHTTP sampleLib sampleGenerator failingStore 0
          (sampleRequest "GET" "/api/time-entries/single" [("id", ["7"])])).response.status =
          404) := by
  refine ⟨⟨by decide, by decide, by decide⟩, ⟨by decide, by decide⟩, ⟨by decide, by decide⟩⟩

/-! ## formatDuration: the conversions through float64 -/

theorem bitLen_zero (fuel : Nat) : bitLen fuel 0 = 0 := by
  cases fuel <;> simp [bitLen]

theorem bitLen_spec (fuel : Nat) : ∀ n : Nat, n < 2 ^ fuel →
    n < 2 ^ bitLen fuel n ∧ (0 < n → 2 ^ (bitLen fuel n - 1) ≤ n) := by
  induction fuel with
  | zero =>
    intro n h
    simp only [pow_zero, Nat.lt_one_iff] at h
    subst h
    simp [bitLen]
  | succ fuel ih =>
    intro n h
    by_cases hn : n = 0
    · subst hn
      simp [bitLen]
    · have h2 : n / 2 < 2 ^ fuel := by
        rw [pow_succ] at h
        omega
      obtain ⟨ih1, ih2⟩ := ih (n / 2) h2
      simp only [bitLen, if_neg hn, Nat.add_sub_cancel]
      constructor
      · rw [pow_succ]
        omega
      · intro _
        by_cases hh : n / 2 = 0
        · rw [hh, bitLen_zero]
          simp only [pow_zero]
          omega
        · have hpos : 0 < n / 2 := Nat.pos_of_ne_zero hh
          have h3 := ih2 hpos
          have hb : bitLen fuel (n / 2) ≠ 0 := by
            intro hb
            rw [hb] at ih1
            simp only [pow_zero] at ih1
            omega
          obtain ⟨b, hb2⟩ := Nat.exists_eq_succ_of_ne_zero hb
          rw [hb2] at h3 ⊢
          simp only [Nat.succ_eq_add_one, Nat.add_sub_cancel] at h3
          rw [pow_succ]
          omega

theorem ilog2_spec (n : Nat) (hn : 0 < n) : 2 ^ ilog2 n ≤ n ∧ n < 2 ^ (ilog2 n + 1) := by
  obtain ⟨h1, h2⟩ := bitLen_spec n n (Nat.lt_two_pow n)
  have hb : bitLen n n ≠ 0 := by
    intro hb
    rw [hb] at h1
    simp only [pow_zero] at h1
    omega
  unfold ilog2
  obtain ⟨b, hb2⟩ := Nat.exists_eq_succ_of_ne_zero hb
  rw [hb2] at h1 h2 ⊢
  simp only [Nat.succ_eq_add_one, Nat.add_sub_cancel] at h2 ⊢
  exact ⟨h2 hn, h1⟩

theorem divRoundEven_bounds (n d : Nat) (hd : 0 < d) :
    n / d ≤ divRoundEven n d ∧ 2 * (divRoundEven n d * d) ≤ 2 * n + d := by
  have h := Nat.div_add_mod n d
  have hm := Nat.mod_lt n hd
  have hq : d * (n / d) = n / d * d := Nat.mul_comm _ _
  unfold divRoundEven
  dsimp only
  split_ifs with h1 h2 h3
  · exact ⟨le_refl _, by omega⟩
  · constructor
    · omega
    · rw [Nat.add_mul]; omega
  · exact ⟨le_refl _, by omega⟩
  · constructor
    · omega
    · rw [Nat.add_mul]; omega

theorem divRoundEven_one (n : Nat) : divRoundEven n 1 = n := by
  unfold divRoundEven
  simp [Nat.mod_one]

theorem ulpExp_le (n d s : Nat) (hn : 0 < n) (hd : 0 < d) (hs : s ≤ 1074)
    (h : n * 2 ^ s < 2 ^ 53 * d) : ulpExp n d ≤ -(s : Int) ∧ -1074 ≤ ulpExp n d := by
  unfold ulpExp
  dsimp only
  refine ⟨?_, le_max_right _ _⟩
  apply max_le _ (by omega)
  obtain ⟨ha, -⟩ := ilog2_spec n hn
  obtain ⟨-, hb⟩ := ilog2_spec d hd
  split_ifs with hbump
  · -- the quotient reaches 2 ^ 53
    rcases le_or_lt 0 ((ilog2 n : Int) - (ilog2 d : Int) - 53) with he | he
    · exfalso
      simp only [scaleNum, scaleDen, if_pos he] at hbump
      have hpos : 0 < d * 2 ^ ((ilog2 n : Int) - (ilog2 d : Int) - 53).toNat := by positivity
      have h1 := (Nat.le_div_iff_mul_le hpos).mp hbump
      have h2 : d ≤ d * 2 ^ ((ilog2 n : Int) - (ilog2 d : Int) - 53).toNat :=
        Nat.le_mul_of_pos_right d (by positivity)
      have h3 : 2 ^ 53 * d ≤ n := le_trans (Nat.mul_le_mul_left _ h2) h1
      have h4 : n ≤ n * 2 ^ s := Nat.le_mul_of_pos_right n (by positivity)
      omega
    · have hne : ¬ (0 ≤ (ilog2 n : Int) - (ilog2 d : Int) - 53) := by omega
      simp only [scaleNum, scaleDen, if_neg hne] at hbump
      have h1 := (Nat.le_div_iff_mul_le hd).mp hbump
      have h2 : n * 2 ^ s < n * 2 ^ (-((ilog2 n : Int) - (ilog2 d : Int) - 53)).toNat := by
        omega
      have h3 := Nat.lt_of_mul_lt_mul_left h2
      have h4 := (Nat.pow_lt_pow_iff_right (by decide : 1 < 2)).mp h3
      omega
  · have h1 : 2 ^ ilog2 n * 2 ^ s ≤ n * 2 ^ s := Nat.mul_le_mul_right _ ha
    have h2 : 2 ^ 53 * d < 2 ^ 53 * 2 ^ (ilog2 d + 1) :=
      Nat.mul_lt_mul_of_pos_left hb (by positivity)
    have h3 : 2 ^ (ilog2 n + s) < 2 ^ (53 + (ilog2 d + 1)) := by
      rw [pow_add, pow_add]
      omega
    have h4 := (Nat.pow_lt_pow_iff_right (by decide : 1 < 2)).mp h3
    omega

theorem scaleNum_neg (n k : Nat) : scaleNum n (-(k : Int)) = n * 2 ^ k := by
  unfold scaleNum
  rcases Nat.eq_zero_or_pos k with hk | hk
  · subst hk
    simp
  · rw [if_neg (by omega)]
    simp

theorem scaleDen_neg (d k : Nat) : scaleDen d (-(k : Int)) = d := by
  unfold scaleDen
  rcases Nat.eq_zero_or_pos k with hk | hk
  · subst hk
    simp
  · rw [if_neg (by omega)]

theorem zpow_neg_nat (k : Nat) : (2 : ℚ) ^ (-(k : Int)) = 1 / (2 : ℚ) ^ k := by
  rw [zpow_neg, zpow_natCast, one_div]

/-- Rounding a fraction below `2 ^ (53 - s)`: the result is finite, a multiple of `2 ^ (-k)`
for some `k ≥ s`, namely the nearest one. -/
theorem Float64.roundPos_spec (n d s : Nat) (hn : 0 < n) (hd : 0 < d) (hs : s ≤ 1074)
    (h : n * 2 ^ s < 2 ^ 53 * d) :
    ∃ (m e : Int) (k : Nat), Float64.roundPos n d = Float64.fin m e ∧ 0 ≤ m ∧ s ≤ k ∧
      (m : ℚ) * (2 : ℚ) ^ e = (divRoundEven (n * 2 ^ k) d : ℚ) / (2 : ℚ) ^ k := by
  obtain ⟨hle, hge⟩ := ulpExp_le n d s hn hd hs h
  have hk : ulpExp n d = -(((-ulpExp n d).toNat : Nat) : Int) := by omega
  have hsk : s ≤ (-ulpExp n d).toNat := by omega
  generalize (-ulpExp n d).toNat = k at hk hsk
  unfold Float64.roundPos
  dsimp only
  rw [hk, scaleNum_neg, scaleDen_neg]
  have hq : (0 : ℚ) < (2 : ℚ) ^ k := by positivity
  by_cases h53 : divRoundEven (n * 2 ^ k) d = 2 ^ 53
  · refine ⟨2 ^ 52, -(k : Int) + 1, k, ?_, by positivity, hsk, ?_⟩
    · rw [if_pos h53, if_pos h53, if_neg (by norm_num), if_neg (by omega)]
      rfl
    · rw [h53, zpow_add₀ (by norm_num), zpow_neg_nat]
      push_cast
      field_simp
      norm_num
  · by_cases h0 : divRoundEven (n * 2 ^ k) d = 0
    · refine ⟨0, 0, k, ?_, le_refl _, hsk, ?_⟩
      · rw [if_neg h53, if_neg h53, if_pos h0]
      · rw [h0]
        simp
    · refine ⟨(divRoundEven (n * 2 ^ k) d : Nat), -(k : Int), k, ?_, by positivity, hsk, ?_⟩
      · rw [if_neg h53, if_neg h53, if_neg h0, if_neg (by omega)]
      · rw [zpow_neg_nat]
        push_cast
        field_simp

/-- Rounding a non-negative fraction below `2 ^ (53 - s)`: the result is finite, at most half
of `2 ^ (-s)` above the fraction, and not below any multiple of `2 ^ (-s)` that the fraction
reaches. -/
theorem Float64.ofFrac_bounds (n : Int) (d s : Nat) (hn : 0 ≤ n) (hd : 0 < d) (hs : s ≤ 1074)
    (h : (n : ℚ) / d * (2 : ℚ) ^ s < 2 ^ 53) :
    ∃ m e : Int, Float64.ofFrac n d = Float64.fin m e ∧ 0 ≤ m ∧
      (m : ℚ) * (2 : ℚ) ^ e ≤ (n : ℚ) / d + 1 / (2 : ℚ) ^ (s + 1) ∧
      ∀ G : Nat, (G : ℚ) / (2 : ℚ) ^ s ≤ (n : ℚ) / d → (G : ℚ) / (2 : ℚ) ^ s ≤ (m : ℚ) * (2 : ℚ) ^ e := by
  have hdq : (0 : ℚ) < (d : ℚ) := by exact_mod_cast hd
  have hsq : (0 : ℚ) < (2 : ℚ) ^ s := by positivity
  rcases eq_or_lt_of_le hn with h0 | hpos
  · refine ⟨0, 0, ?_, le_refl _, ?_, ?_⟩
    · rw [← h0]; rfl
    · rw [← h0]
      simp only [Int.cast_zero, zero_mul, zero_div, zero_add]
      positivity
    · intro G hG
      rw [← h0] at hG
      simpa using hG
  · obtain ⟨n', rfl⟩ := Int.eq_ofNat_of_zero_le hn
    have hn' : 0 < n' := by exact_mod_cast hpos
    have hnat : n' * 2 ^ s < 2 ^ 53 * d := by
      have h1 : (n' : ℚ) * (2 : ℚ) ^ s < 2 ^ 53 * d := by
        have h2 : ((n' : ℤ) : ℚ) / d * (2 : ℚ) ^ s = ((n' : ℚ) * (2 : ℚ) ^ s) / d := by
          push_cast
          ring
        rw [h2, div_lt_iff₀ hdq] at h
        exact h
      exact_mod_cast h1
    obtain ⟨m, e, k, hr, hm, hsk, hv⟩ := Float64.roundPos_spec n' d s hn' hd hs hnat
    obtain ⟨hfloor, hhalf⟩ := divRoundEven_bounds (n' * 2 ^ k) d hd
    have hkq : (0 : ℚ) < (2 : ℚ) ^ k := by positivity
    refine ⟨m, e, ?_, hm, ?_, ?_⟩
    · unfold Float64.ofFrac
      rw [if_neg (by omega), if_pos hpos]
      exact hr
    · rw [hv]
      have h1 : (2 : ℚ) * ((divRoundEven (n' * 2 ^ k) d : ℚ) * d) ≤ 2 * ((n' : ℚ) * 2 ^ k) + d := by
        exact_mod_cast hhalf
      have h2 : (1 : ℚ) / (2 : ℚ) ^ (k + 1) ≤ 1 / (2 : ℚ) ^ (s + 1) := by
        apply one_div_le_one_div_of_le (by positivity)
        exact pow_le_pow_right₀ (by norm_num) (by omega)
      have h3 : (divRoundEven (n' * 2 ^ k) d : ℚ) / (2 : ℚ) ^ k ≤
          ((n' : ℤ) : ℚ) / d + 1 / (2 : ℚ) ^ (k + 1) := by
        rw [div_add_div _ _ (ne_of_gt hdq) (by positivity), div_le_div_iff₀ hkq (by positivity)]
        push_cast
        rw [pow_succ]
        nlinarith
      linarith
    · intro G hG
      rw [hv]
      have h1 : G * d ≤ n' * 2 ^ s := by
        have h2 : (G : ℚ) * d ≤ (n' : ℚ) * (2 : ℚ) ^ s := by
          rw [div_le_div_iff₀ hsq hdq] at hG
          exact_mod_cast hG
        exact_mod_cast h2
      obtain ⟨j, rfl⟩ := Nat.exists_eq_add_of_le hsk
      have h2 : G * 2 ^ j ≤ n' * 2 ^ (s + j) / d := by
        rw [Nat.le_div_iff_mul_le hd, pow_add]
        calc G * 2 ^ j * d = G * d * 2 ^ j := by ring
          _ ≤ n' * 2 ^ s * 2 ^ j := Nat.mul_le_mul_right _ h1
          _ = n' * (2 ^ s * 2 ^ j) := by ring
      have h3 : G * 2 ^ j ≤ divRoundEven (n' * 2 ^ (s + j)) d := le_trans h2 hfloor
      have h4 : (G : ℚ) * (2 : ℚ) ^ j ≤ (divRoundEven (n' * 2 ^ (s + j)) d : ℚ) := by
        exact_mod_cast h3
      rw [div_le_div_iff₀ hsq (by positivity), pow_add]
      have hjq : (0 : ℚ) < (2 : ℚ) ^ j := by positivity
      nlinarith

theorem two_zpow_split (t : Int) : (2 : ℚ) ^ t = (2 : ℚ) ^ t.toNat / (2 : ℚ) ^ (-t).toNat := by
  rcases le_or_lt 0 t with ht | ht
  · have h1 : (-t).toNat = 0 := by omega
    have h2 : ((t.toNat : ℤ)) = t := Int.toNat_of_nonneg ht
    rw [h1, pow_zero, div_one]
    conv_lhs => rw [← h2]
    exact zpow_natCast 2 t.toNat
  · have h1 : t.toNat = 0 := by omega
    have h2 : t = -((-t).toNat : ℤ) := by omega
    rw [h1, pow_zero]
    conv_lhs => rw [h2]
    exact zpow_neg_nat _

/-- The conversion `float64(i)` is exact for `0 ≤ i < 2 ^ 53`. -/
theorem Float64.ofInt_exact (i : Int) (h0 : 0 ≤ i) (h : i < 2 ^ 53) :
    ∃ m e : Int, Float64.ofInt i = Float64.fin m e ∧ 0 ≤ m ∧ (m : ℚ) * (2 : ℚ) ^ e = i := by
  rcases eq_or_lt_of_le h0 with hz | hpos
  · refine ⟨0, 0, ?_, le_refl _, ?_⟩
    · rw [← hz]; rfl
    · rw [← hz]; simp
  · obtain ⟨n, rfl⟩ := Int.eq_ofNat_of_zero_le h0
    have hn : 0 < n := by exact_mod_cast hpos
    have hlt : n * 2 ^ 0 < 2 ^ 53 * 1 := by
      have : n < 2 ^ 53 := by exact_mod_cast h
      omega
    obtain ⟨m, e, k, hr, hm, -, hv⟩ := Float64.roundPos_spec n 1 0 hn (by decide) (by decide) hlt
    refine ⟨m, e, ?_, hm, ?_⟩
    · unfold Float64.ofInt Float64.ofFrac
      rw [if_neg (by omega), if_pos hpos]
      exact hr
    · rw [hv, divRoundEven_one]
      push_cast
      field_simp

/-- The quotient of a non-negative value by a larger one is finite, not negative, and at most
`2 ^ (-54)` above the exact quotient. -/
theorem Float64.div_bounds (a e b f : Int) (ha : 0 ≤ a) (hb : 0 < b)
    (hlt : (a : ℚ) * (2 : ℚ) ^ e < (b : ℚ) * (2 : ℚ) ^ f) :
    ∃ m g : Int, Float64.div (Float64.fin a e) (Float64.fin b f) = Float64.fin m g ∧ 0 ≤ m ∧
      (m : ℚ) * (2 : ℚ) ^ g ≤ ((a : ℚ) * (2 : ℚ) ^ e) / ((b : ℚ) * (2 : ℚ) ^ f) + 1 / 2 ^ 54 := by
  have hbq : (0 : ℚ) < (b : ℚ) := by exact_mod_cast hb
  have hfq : (0 : ℚ) < (2 : ℚ) ^ f := by positivity
  have heq : (0 : ℚ) < (2 : ℚ) ^ e := by positivity
  have hval : (((Int.sign b * a * 2 ^ (e - f).toNat : ℤ)) : ℚ) /
      ((b.natAbs * 2 ^ (f - e).toNat : ℕ) : ℚ) =
      ((a : ℚ) * (2 : ℚ) ^ e) / ((b : ℚ) * (2 : ℚ) ^ f) := by
    have h1 : ((b.natAbs : ℕ) : ℚ) = (b : ℚ) := by
      have : ((b.natAbs : ℕ) : ℤ) = b := Int.natAbs_of_nonneg (le_of_lt hb)
      rw [← Int.cast_natCast, this]
    have h2 := two_zpow_split (e - f)
    have h3 : -(e - f) = f - e := by ring
    rw [h3, zpow_sub₀ (by norm_num)] at h2
    rw [Int.sign_eq_one_of_pos hb]
    push_cast
    rw [h1, one_mul]
    have h4 : (0 : ℚ) < (2 : ℚ) ^ (f - e).toNat := by positivity
    have h5 : (0 : ℚ) < (2 : ℚ) ^ (e - f).toNat := by positivity
    rw [div_eq_div_iff (by positivity) (by positivity)] at h2 ⊢
    calc (a : ℚ) * 2 ^ (e - f).toNat * ((b : ℚ) * 2 ^ f)
        = (a : ℚ) * b * (2 ^ (e - f).toNat * 2 ^ f) := by ring
      _ = (a : ℚ) * b * (2 ^ e * 2 ^ (f - e).toNat) := by rw [← h2]
      _ = (a : ℚ) * 2 ^ e * ((b : ℚ) * 2 ^ (f - e).toNat) := by ring
  have hn0 : 0 ≤ Int.sign b * a * 2 ^ (e - f).toNat := by
    rw [Int.sign_eq_one_of_pos hb]
    positivity
  have hd0 : 0 < b.natAbs * 2 ^ (f - e).toNat := by
    have : 0 < b.natAbs := Int.natAbs_pos.mpr (by omega)
    positivity
  have hfrac : (((Int.sign b * a * 2 ^ (e - f).toNat : ℤ)) : ℚ) /
      ((b.natAbs * 2 ^ (f - e).toNat : ℕ) : ℚ) * (2 : ℚ) ^ 53 < 2 ^ 53 := by
    rw [hval]
    have : ((a : ℚ) * (2 : ℚ) ^ e) / ((b : ℚ) * (2 : ℚ) ^ f) < 1 := by
      rw [div_lt_one (by positivity)]
      exact hlt
    nlinarith
  obtain ⟨m, g, hr, hm, hup, -⟩ := Float64.ofFrac_bounds _ _ 53 hn0 hd0 (by decide) hfrac
  refine ⟨m, g, ?_, hm, ?_⟩
  · have hb0 : ¬ b = 0 := by omega
    simp only [Float64.div, if_neg hb0]
    exact hr
  · rw [hval] at hup
    exact hup

theorem two_pow_toNat_sub (e g : Int) (h : g ≤ e) :
    (2 : ℚ) ^ (e - g).toNat * (2 : ℚ) ^ g = (2 : ℚ) ^ e := by
  have h1 : (((e - g).toNat : ℤ)) = e - g := Int.toNat_of_nonneg (by omega)
  rw [← zpow_natCast, h1, ← zpow_add₀ (by norm_num)]
  congr 1
  ring

/-- The sum of a whole number `H` and a fraction that stays far enough below 1 is a finite
value in `[H, H + 1)`. -/
theorem Float64.add_bounds (a e b f : Int) (H s : Nat) (ha : 0 ≤ a) (hb : 0 ≤ b)
    (hH : (a : ℚ) * (2 : ℚ) ^ e = H) (hs : s ≤ 53) (hHs : (H + 1) * 2 ^ s ≤ 2 ^ 53)
    (hq : (b : ℚ) * (2 : ℚ) ^ f + 1 / (2 : ℚ) ^ (s + 1) < 1) :
    ∃ m g : Int, Float64.add (Float64.fin a e) (Float64.fin b f) = Float64.fin m g ∧ 0 ≤ m ∧
      (H : ℚ) ≤ (m : ℚ) * (2 : ℚ) ^ g ∧ (m : ℚ) * (2 : ℚ) ^ g < (H : ℚ) + 1 := by
  have hsq : (0 : ℚ) < (2 : ℚ) ^ s := by positivity
  have hq0 : (0 : ℚ) ≤ (b : ℚ) * (2 : ℚ) ^ f := by positivity
  have hq1 : (b : ℚ) * (2 : ℚ) ^ f < 1 := by
    have : (0 : ℚ) < 1 / (2 : ℚ) ^ (s + 1) := by positivity
    linarith
  have hval : (((a * 2 ^ (e - min e f).toNat + b * 2 ^ (f - min e f).toNat) *
      2 ^ (min e f).toNat : ℤ) : ℚ) / ((2 ^ (-min e f).toNat : ℕ) : ℚ) =
      (H : ℚ) + (b : ℚ) * (2 : ℚ) ^ f := by
    have h1 := two_pow_toNat_sub e (min e f) (min_le_left _ _)
    have h2 := two_pow_toNat_sub f (min e f) (min_le_right _ _)
    have h3 := two_zpow_split (min e f)
    push_cast
    rw [mul_div_assoc, ← h3, ← hH, ← h1, ← h2]
    ring
  have hn0 : 0 ≤ (a * 2 ^ (e - min e f).toNat + b * 2 ^ (f - min e f).toNat) *
      2 ^ (min e f).toNat := by positivity
  have hd0 : 0 < 2 ^ (-min e f).toNat := by positivity
  have hHsq : ((H : ℚ) + 1) * (2 : ℚ) ^ s ≤ 2 ^ 53 := by exact_mod_cast hHs
  have hfrac : (((a * 2 ^ (e - min e f).toNat + b * 2 ^ (f - min e f).toNat) *
      2 ^ (min e f).toNat : ℤ) : ℚ) / ((2 ^ (-min e f).toNat : ℕ) : ℚ) * (2 : ℚ) ^ s < 2 ^ 53 := by
    rw [hval]
    nlinarith
  obtain ⟨m, g, hr, hm, hup, hlow⟩ := Float64.ofFrac_bounds _ _ s hn0 hd0 (by omega) hfrac
  rw [hval] at hup hlow
  refine ⟨m, g, ?_, hm, ?_, by linarith⟩
  · simp only [Float64.add, Float64.ofDyadic]
    exact hr
  · have h1 := hlow (H * 2 ^ s) (by
      push_cast
      rw [mul_div_assoc, div_self (ne_of_gt hsq)]
      linarith)
    push_cast at h1
    rw [mul_div_assoc, div_self (ne_of_gt hsq), mul_one] at h1
    exact h1

/-- The conversion to `int` of a finite value in `[H, H + 1)` is `H`. -/
theorem Float64.toInt_of_bounds (unspec : Float64 → Int) (m g : Int) (H : Nat) (hm : 0 ≤ m)
    (hH : H < 2 ^ 53) (h1 : (H : ℚ) ≤ (m : ℚ) * (2 : ℚ) ^ g)
    (h2 : (m : ℚ) * (2 : ℚ) ^ g < (H : ℚ) + 1) :
    Float64.toInt unspec (Float64.fin m g) = H := by
  obtain ⟨h3, h4⟩ := Float64.trunc_floor m g hm
  have h5 : Float64.trunc m g < (H : ℤ) + 1 := by
    have : (Float64.trunc m g : ℚ) < ((H : ℤ) : ℚ) + 1 := by push_cast; linarith
    exact_mod_cast this
  have h6 : (H : ℤ) < Float64.trunc m g + 1 := by
    have : ((H : ℤ) : ℚ) < (Float64.trunc m g : ℚ) + 1 := by push_cast; linarith
    exact_mod_cast this
  have h7 : Float64.trunc m g = H := by omega
  simp only [Float64.toInt]
  rw [h7, if_pos (by constructor <;> omega)]

/-- The whole units of a duration survive the conversion through `float64`: for `h` whole
units and a remainder `r` below the unit `U`, the sum `float64(h) + float64(r) / U` converts
back to `h`, as long as `h + 1 ≤ 2 ^ (53 - s)` and `1 / U` exceeds the two rounding errors. -/
theorem Float64.toInt_whole_units (unspec : Float64 → Int) (h r um ue : Int) (U s : Nat)
    (hh : 0 ≤ h) (hr0 : 0 ≤ r) (hrU : r < U) (hU : U < 2 ^ 53) (hum : 0 < um)
    (huv : (um : ℚ) * (2 : ℚ) ^ ue = U) (hs : s ≤ 53) (hhs : (h + 1) * 2 ^ s ≤ 2 ^ 53)
    (hgap : 1 / (2 : ℚ) ^ 54 + 1 / (2 : ℚ) ^ (s + 1) < 1 / (U : ℚ)) :
    Float64.toInt unspec
      (Float64.add (Float64.ofInt h) (Float64.div (Float64.ofInt r) (Float64.fin um ue))) = h := by
  have hUpos : (0 : ℚ) < (U : ℚ) := by
    have : (0 : ℤ) < (U : ℤ) := by omega
    exact_mod_cast this
  have hpow : (1 : ℤ) ≤ 2 ^ s := by
    have : (0 : ℤ) < 2 ^ s := by positivity
    omega
  have hh53 : h < 2 ^ 53 := by nlinarith
  obtain ⟨a, e, hae, ha, hav⟩ := Float64.ofInt_exact h hh hh53
  obtain ⟨b, f, hbf, hb, hbv⟩ := Float64.ofInt_exact r hr0 (by omega)
  have hrq : (r : ℚ) < (U : ℚ) := by exact_mod_cast hrU
  have hrq1 : (r : ℚ) + 1 ≤ (U : ℚ) := by
    have : r + 1 ≤ (U : ℤ) := by omega
    exact_mod_cast this
  obtain ⟨m, g, hmg, hm, hmv⟩ := Float64.div_bounds b f um ue hb hum (by rw [hbv, huv]; exact hrq)
  rw [hbv, huv] at hmv
  have hquot : (r : ℚ) / (U : ℚ) ≤ 1 - 1 / (U : ℚ) := by
    rw [div_le_iff₀ hUpos, sub_mul, one_mul, one_div, inv_mul_cancel₀ (ne_of_gt hUpos)]
    linarith
  obtain ⟨H, rfl⟩ := Int.eq_ofNat_of_zero_le hh
  have hHs : (H + 1) * 2 ^ s ≤ 2 ^ 53 := by exact_mod_cast hhs
  have hav2 : (a : ℚ) * (2 : ℚ) ^ e = H := by rw [hav]; simp
  obtain ⟨m2, g2, hadd, hm2, hlo, hhi⟩ :=
    Float64.add_bounds a e m g H s ha hm hav2 hs hHs (by linarith)
  rw [hae, hbf, hmg, hadd]
  exact Float64.toInt_of_bounds unspec m2 g2 H hm2 (by exact_mod_cast hh53) hlo hhi

theorem unit_consts :
    Float64.ofFrac 3600000000000 1 = Float64.fin 7372800000000000 (-11) ∧
    Float64.ofFrac 60000000000 1 = Float64.fin 7864320000000000 (-17) ∧
    Float64.ofFrac 1000000000 1 = Float64.fin 8388608000000000 (-23) := by
  decide

/-- Below 4096 hours `int(d.Hours())` is the number of whole hours of `d`. -/
theorem DurationHours_toInt (unspec : Float64 → Int) (d : Int) (h0 : 0 ≤ d)
    (h : d < 4096 * Hour) : Float64.toInt unspec (DurationHours d) = d / Hour := by
  unfold Hour at h
  unfold DurationHours
  dsimp only
  rw [unit_consts.1, Int.tdiv_eq_ediv h0 (by decide), Int.tmod_eq_emod h0 (by decide)]
  unfold Hour
  exact Float64.toInt_whole_units unspec _ _ _ _ 3600000000000 41 (by omega) (by omega)
    (by omega) (by norm_num) (by norm_num) (by norm_num) (by norm_num) (by omega) (by norm_num)

/-- Below 4096 hours `int(d.Minutes())` is the number of whole minutes of `d`. -/
theorem DurationMinutes_toInt (unspec : Float64 → Int) (d : Int) (h0 : 0 ≤ d)
    (h : d < 4096 * Hour) : Float64.toInt unspec (DurationMinutes d) = d / Minute := by
  unfold Hour at h
  unfold DurationMinutes
  dsimp only
  rw [unit_consts.2.1, Int.tdiv_eq_ediv h0 (by decide), Int.tmod_eq_emod h0 (by decide)]
  unfold Minute
  exact Float64.toInt_whole_units unspec _ _ _ _ 60000000000 35 (by omega) (by omega)
    (by omega) (by norm_num) (by norm_num) (by norm_num) (by norm_num) (by omega) (by norm_num)

/-- Below 4096 hours `int(d.Seconds())` is the number of whole seconds of `d`. -/
theorem DurationSeconds_toInt (unspec : Float64 → Int) (d : Int) (h0 : 0 ≤ d)
    (h : d < 4096 * Hour) : Float64.toInt unspec (DurationSeconds d) = d / Second := by
  unfold Hour at h
  unfold DurationSeconds
  dsimp only
  rw [unit_consts.2.2, Int.tdiv_eq_ediv h0 (by decide), Int.tmod_eq_emod h0 (by decide)]
  unfold Second
  exact Float64.toInt_whole_units unspec _ _ _ _ 1000000000 29 (by omega) (by omega)
    (by omega) (by norm_num) (by norm_num) (by norm_num) (by norm_num) (by omega) (by norm_num)

/-- Below 4096 hours `formatDuration` prints the whole hours, the whole minutes modulo 60 and
the whole seconds modulo 60 of the duration, which add up to the duration in whole seconds. -/
theorem formatDuration_below_4096h (unspec : Float64 → Int) (d : Int) (h0 : 0 ≤ d)
    (h : d < 4096 * Hour) :
    formatDuration unspec d =
        sprintf02d (d / Hour) ++ ":" ++ sprintf02d (d / Minute % 60) ++ ":" ++
          sprintf02d (d / Second % 60) ∧
      0 ≤ d / Minute % 60 ∧ d / Minute % 60 < 60 ∧ 0 ≤ d / Second % 60 ∧ d / Second % 60 < 60 ∧
      3600 * (d / Hour) + 60 * (d / Minute % 60) + d / Second % 60 = d / Second := by
  have hm : 0 ≤ d / Minute := Int.ediv_nonneg h0 (by decide)
  have hs : 0 ≤ d / Second := Int.ediv_nonneg h0 (by decide)
  refine ⟨?_, ?_⟩
  · unfold formatDuration
    dsimp only
    rw [DurationHours_toInt unspec d h0 h, DurationMinutes_toInt unspec d h0 h,
      DurationSeconds_toInt unspec d h0 h, Int.tmod_eq_emod hm (by decide),
      Int.tmod_eq_emod hs (by decide)]
  · unfold Hour Minute Second
    omega

/-- The clock of the timer view is the text of `formatDuration` for the elapsed time, to which
the time since the start is added while the timer runs. -/
theorem viewTimerClock_eq_formatDuration (unspec : Float64 → Int) (now : Time) (m : Model) :
    m.viewTimerClock unspec now =
      formatDuration unspec
        (if m.running then wrapInt64 (m.elapsed + now.Sub m.startTime) else m.elapsed) := rfl

set_option maxRecDepth 100000 in
/-- C18, at the failing input. For the duration of 4096 hours, 59 minutes and 59.999999999
seconds `formatDuration` gives "4097:59:59": the float64 sum `4096 + 3599999999999 / 3.6e12` of
`Duration.Hours()` rounds up to 4097, so the hours printed are not the 4096 whole hours of the
duration, and 3600·4097 + 60·59 + 59 is not the 14749199 whole seconds of the duration. -/
theorem formatDuration_long :
    formatDuration sampleLib.intOfUnrepresentable sampleLongDuration = "4097:59:59" ∧
      DurationHours sampleLongDuration = Float64.ofInt 4097 ∧
      sampleLongDuration / Hour = 4096 ∧
      sampleLongDuration / Minute % 60 = 59 ∧
      sampleLongDuration / Second % 60 = 59 ∧
      sampleLongDuration / Second = 14749199 ∧
      (3600 * 4097 + 60 * 59 + 59 : Int) ≠ sampleLongDuration / Second := by
  refine ⟨by decide, by decide, by decide, by decide, by decide, by decide, by decide⟩

/-! ## ImportTimeEntriesCSV: the duration and the end time of a built entry -/

/-- The integer part of a finite value with a non-negative mantissa is not negative. -/
theorem Float64.trunc_nonneg (m e : Int) (hm : 0 ≤ m) : 0 ≤ Float64.trunc m e := by
  unfold Float64.trunc
  exact Int.tdiv_nonneg (by positivity) (by positivity)

/-- An instant is before another exactly when its count of nanoseconds is smaller, the
nanosecond fields being within a second. -/
theorem Time.Before_iff (t u : Time) (ht0 : 0 ≤ t.nsec) (ht1 : t.nsec < 1000000000)
    (hu0 : 0 ≤ u.nsec) (hu1 : u.nsec < 1000000000) :
    t.Before u = true ↔ t.unixNano < u.unixNano := by
  unfold Time.Before Time.unixNano
  rw [decide_eq_true_iff]
  constructor
  · rintro (h | ⟨h1, h2⟩) <;> omega
  · intro h
    omega

/-- A row that passes the checks with a finite number of hours, whose product with 3600 is
finite and whose duration in nanoseconds is within the range of `time.Duration`, is built into an
entry with a duration that is not negative and an end time that is the start time plus the
duration, hence not before the start time. -/
theorem importRow_duration_in_range (lib : Lib) (projectID : Int) (i : Nat)
    (record : List String) (date : ParsedDate) (m e pm pe : Int)
    (hlen : 2 ≤ record.length)
    (hdate : lib.ParseDate (lib.TrimSpace (record.getD 0 "")) = some date)
    (hhours : lib.ParseFloat (lib.TrimSpace (record.getD 1 "")) = some (Float64.fin m e))
    (hpos : 0 < m)
    (hprod : Float64.mul (Float64.fin m e) (Float64.ofInt 3600) = Float64.fin pm pe)
    (hhi : Float64.trunc pm pe * Second < 2 ^ 63) :
    ∃ entry endTime, importRow lib projectID i record = Except.ok entry ∧
      entry.Duration = some (Float64.trunc pm pe) ∧ 0 ≤ Float64.trunc pm pe ∧
      entry.EndTime = some endTime ∧
      endTime.unixNano = entry.StartTime.unixNano + Float64.trunc pm pe * Second ∧
      endTime.Before entry.StartTime = false := by
  have hpm : 0 ≤ pm := Float64.mul_3600_nonneg m e pm pe hpos hprod
  have ht : 0 ≤ Float64.trunc pm pe := Float64.trunc_nonneg pm pe hpm
  have hlo : -2 ^ 63 ≤ Float64.trunc pm pe * Second := by
    unfold Second
    omega
  have hfit : -2 ^ 63 ≤ Float64.trunc pm pe ∧ Float64.trunc pm pe < 2 ^ 63 := by
    unfold Second at hhi
    constructor <;> omega
  have hto : Float64.toInt lib.intOfUnrepresentable (Float64.fin pm pe) = Float64.trunc pm pe := by
    simp only [Float64.toInt]
    rw [if_pos hfit]
  refine ⟨{ ID := 0
            ProjectID := projectID
            UserID := 1
            Description := "Imported from CSV"
            StartTime := Date lib.localOffset date.Year date.Month date.Day 17 0 0 0 Location.UTC
            EndTime := some
              { sec := (Date lib.localOffset date.Year date.Month date.Day 17 0 0 0
                  Location.UTC).sec + Float64.trunc pm pe
                nsec := 0
                loc := Location.UTC }
            Duration := some (Float64.trunc pm pe)
            Billable := true
            CreatedAt := Time.zero
            UpdatedAt := Time.zero },
          { sec := (Date lib.localOffset date.Year date.Month date.Day 17 0 0 0
              Location.UTC).sec + Float64.trunc pm pe
            nsec := 0
            loc := Location.UTC }, ?_, rfl, ht, rfl, ?_, ?_⟩
  · unfold importRow
    rw [if_neg (by omega)]
    simp only [hdate, hhours, le_zero_of_pos m e hpos, hprod, hto, ParsedDate.Location]
    rw [wrapInt64_of_fits _ hlo hhi, Time.Add_seconds _ _ rfl]
    rfl
  · simp only [Time.unixNano, Date, Second]
    ring
  · simp only [Time.Before, Date, decide_eq_false_iff_not]
    omega

set_option maxRecDepth 100000 in
/-- C21, at the failing input. The hours text "3000000" parses to a positive number and the row
"2024-01-15,3000000" passes the checks; the duration is 10800000000 s, whose count of
nanoseconds is beyond the range of `time.Duration` and wraps around to a negative one: the entry
that the handler inserts starts on 2024-01-15 at 17:00:00 UTC and ends 7646744073.7 s before,
in the year 1781. On a platform where `int` of a NaN is the least `int64`, the row
"2024-01-15,NaN" is built into an entry with a negative duration. -/
theorem ImportTimeEntriesCSV_end_before_start :
    sampleLib.ParseFloat "3000000" = some (Float64.ofFrac 3000000 1) ∧
      (importRow sampleLib 7 0 ["2024-01-15", "3000000"]).toOption =
        some
          { ID := 0
            ProjectID := 7
            UserID := 1
            Description := "Imported from CSV"
            StartTime := { sec := 1705338000, nsec := 0, loc := Location.UTC }
            EndTime := some { sec := -5941406074, nsec := 290448384, loc := Location.UTC }
            Duration := some 10800000000
            Billable := true
            CreatedAt := Time.zero
            UpdatedAt := Time.zero } ∧
      Time.Before { sec := -5941406074, nsec := 290448384, loc := Location.UTC }
          { sec := 1705338000, nsec := 0, loc := Location.UTC } = true ∧
      wrapInt64 (10800000000 * Second) = -7646744073709551616 ∧
      (ImportTimeEntriesCSV sampleLib recordingDB []
          (sampleUpload [["date", "hours"], ["2024-01-15", "3000000"]])).response =
        ImportResponse.Imported true "Successfully imported 1 time entries" 1 ∧
      (ImportTimeEntriesCSV sampleLib recordingDB []
          (sampleUpload [["date", "hours"], ["2024-01-15", "3000000"]])).db =
        [[SQLArg.Int 7, SQLArg.Int 1, SQLArg.Str "Imported from CSV",
          SQLArg.Time { sec := 1705338000, nsec := 0, loc := Location.UTC },
          SQLArg.OptTime (some { sec := -5941406074, nsec := 290448384, loc := Location.UTC }),
          SQLArg.OptInt (some 10800000000), SQLArg.Bool true]] ∧
      (importRow sampleLib 7 0 ["2024-01-15", "NaN"]).toOption.map TimeEntry.Duration =
        some (some (-9223372036854775808)) := by
  refine ⟨by decide, by decide, by decide, by decide, by decide, by decide, by decide⟩

/-! ## The terminal UI: the selected project is an index of the list -/

/-- A key press keeps the invariant, and a submission is only issued from the Confirm state,
for the model as it is. -/
theorem Update_key_inRange (now : Time) (m : Model) (key : String) (loaded : Bool)
    (hinv : m.inRange loaded) :
    (m.Update now (Msg.KeyMsg key)).1.inRange loaded ∧
      (∀ m1, (m.Update now (Msg.KeyMsg key)).2 = some (Cmd.saveTimeEntry m1) →
        m1 = m ∧ m.state = stateConfirm) := by
  obtain ⟨hc0, hc1, hsel, hload⟩ := hinv
  unfold Model.Update
  dsimp only
  by_cases hq : key = "ctrl+c" ∨ key = "q"
  · rw [if_pos hq]
    exact ⟨⟨hc0, hc1, hsel, hload⟩, by simp⟩
  rw [if_neg hq]
  by_cases hup : key = "up" ∨ key = "k"
  · rw [if_pos hup]
    split_ifs with h1 h2
    · refine ⟨⟨?_, ?_, ?_, hload⟩, by simp⟩
      · dsimp only; omega
      · dsimp only; omega
      · intro hs
        rw [h1.1] at hs
        simp at hs
    · exact ⟨⟨hc0, hc1, hsel, hload⟩, by simp⟩
    · exact ⟨⟨hc0, hc1, hsel, hload⟩, by simp⟩
  rw [if_neg hup]
  by_cases hdown : key = "down" ∨ key = "j"
  · rw [if_pos hdown]
    split_ifs with h1 h2
    · refine ⟨⟨?_, ?_, ?_, hload⟩, by simp⟩
      · dsimp only; omega
      · dsimp only; omega
      · intro hs
        rw [h1.1] at hs
        simp at hs
    · exact ⟨⟨hc0, hc1, hsel, hload⟩, by simp⟩
    · exact ⟨⟨hc0, hc1, hsel, hload⟩, by simp⟩
  rw [if_neg hdown]
  by_cases henter : key = "enter"
  · rw [if_pos henter]
    cases hst : m.state with
    | stateSelectProject =>
      dsimp only
      split_ifs with hlen
      · refine ⟨⟨hc0, hc1, fun _ => ?_, hload⟩, by simp⟩
        dsimp only
        have hlen2 : 0 < m.projects.length := hlen
        omega
      · exact ⟨⟨hc0, hc1, hsel, hload⟩, by simp⟩
    | stateTimer =>
      have hs := hsel (Or.inl hst)
      dsimp only
      split_ifs with hrun
      · exact ⟨⟨hc0, hc1, fun _ => hs, hload⟩, by simp⟩
      · refine ⟨⟨hc0, hc1, fun _ => hs, hload⟩, by simp⟩
    | stateConfirm =>
      have hs := hsel (Or.inr hst)
      dsimp only
      split_ifs with hcs
      · refine ⟨⟨hc0, hc1, hsel, hload⟩, ?_⟩
        intro m1 hm1
        simp only [Option.some.injEq, Cmd.saveTimeEntry.injEq] at hm1
        exact ⟨hm1.symm, rfl⟩
      · exact ⟨⟨hc0, hc1, fun _ => hs, hload⟩, by simp⟩
    | stateSuccess =>
      exact ⟨⟨hc0, hc1, by simp, hload⟩, by simp⟩
    | stateError =>
      exact ⟨⟨hc0, hc1, by simp, hload⟩, by simp⟩
  rw [if_neg henter]
  by_cases hesc : key = "esc"
  · rw [if_pos hesc]
    split_ifs with h1 h2
    · exact ⟨⟨hc0, hc1, by simp, hload⟩, by simp⟩
    · exact ⟨⟨hc0, hc1, fun _ => hsel (Or.inr h2), hload⟩, by simp⟩
    · exact ⟨⟨hc0, hc1, hsel, hload⟩, by simp⟩
  rw [if_neg hesc]
  exact ⟨⟨hc0, hc1, hsel, hload⟩, by simp⟩

/-- One step of the event loop keeps the invariant, as long as a list of projects arrives only
when none has arrived before; and a submission is only issued from the Confirm state, for the
model as it is. -/
theorem Update_inRange (now : Time) (m : Model) (msg : Msg) (loaded : Bool)
    (hinv : m.inRange loaded) (hmsg : msg.isProjectsLoaded = true → loaded = false) :
    (m.Update now msg).1.inRange (loaded || msg.isProjectsLoaded) ∧
      (∀ m1, (m.Update now msg).2 = some (Cmd.saveTimeEntry m1) →
        m1 = m ∧ m.state = stateConfirm) := by
  cases msg with
  | KeyMsg key =>
    simp only [Msg.isProjectsLoaded, Bool.or_false]
    exact Update_key_inRange now m key loaded hinv
  | tickMsg t =>
    obtain ⟨hc0, hc1, hsel, hload⟩ := hinv
    simp only [Msg.isProjectsLoaded, Bool.or_false]
    unfold Model.Update
    dsimp only
    split_ifs
    · exact ⟨⟨hc0, hc1, hsel, hload⟩, by simp⟩
    · exact ⟨⟨hc0, hc1, hsel, hload⟩, by simp⟩
  | projectsLoadedMsg projects =>
    obtain ⟨hc0, hc1, hsel, hload⟩ := hinv
    have hl := hmsg rfl
    have hnil := hload hl
    simp only [Model.Update, Model.inRange, Msg.isProjectsLoaded, Bool.or_true]
    rw [hnil] at hc1 hsel
    simp only [List.length_nil, Nat.cast_zero] at hc1 hsel
    refine ⟨⟨hc0, Or.inl (by omega), ?_, by simp⟩, by simp⟩
    intro hs
    have := hsel hs
    omega
  | successMsg =>
    obtain ⟨hc0, hc1, hsel, hload⟩ := hinv
    simp only [Model.Update, Model.inRange, Msg.isProjectsLoaded, Bool.or_false]
    exact ⟨⟨hc0, hc1, by simp, hload⟩, by simp⟩
  | errorMsg err =>
    obtain ⟨hc0, hc1, hsel, hload⟩ := hinv
    simp only [Model.Update, Model.inRange, Msg.isProjectsLoaded, Bool.or_false]
    exact ⟨⟨hc0, hc1, by simp, hload⟩, by simp⟩
  | other =>
    obtain ⟨hc0, hc1, hsel, hload⟩ := hinv
    simp only [Model.Update, Msg.isProjectsLoaded, Bool.or_false]
    exact ⟨⟨hc0, hc1, hsel, hload⟩, by simp⟩

/-- A run of the event loop in which at most one list of projects arrives, and none if one
has arrived before, keeps the invariant; every submission it issues holds a model in the
Confirm state that satisfies the invariant. -/
theorem runUpdates_inRange (run : List (Time × Msg)) :
    ∀ (m : Model) (loaded : Bool), m.inRange loaded →
      run.countP (fun p => p.2.isProjectsLoaded) ≤ (if loaded then 0 else 1) →
      (∃ l, (runUpdates m run).1.inRange l) ∧
        ∀ m1, Cmd.saveTimeEntry m1 ∈ (runUpdates m run).2 →
          m1.state = stateConfirm ∧ ∃ l, m1.inRange l := by
  induction run with
  | nil =>
    intro m loaded hinv _
    exact ⟨⟨loaded, hinv⟩, by simp [runUpdates]⟩
  | cons head rest ih =>
    intro m loaded hinv hcount
    obtain ⟨now, msg⟩ := head
    rw [List.countP_cons] at hcount
    have hmsg : msg.isProjectsLoaded = true → loaded = false := by
      intro h
      cases loaded
      · rfl
      · simp [h] at hcount
    obtain ⟨hstep, hcmd⟩ := Update_inRange now m msg loaded hinv hmsg
    have hrest : rest.countP (fun p => p.2.isProjectsLoaded) ≤
        (if (loaded || msg.isProjectsLoaded) = true then 0 else 1) := by
      revert hcount
      cases loaded <;> cases msg.isProjectsLoaded <;> intro hcount <;>
        simp only [Bool.or_false, Bool.or_true, Bool.false_eq_true, if_false, if_true,
          add_zero] at hcount ⊢ <;> omega
    obtain ⟨hfin, hcmds⟩ := ih (m.Update now msg).1 (loaded || msg.isProjectsLoaded) hstep hrest
    refine ⟨hfin, ?_⟩
    intro m1 hm1
    simp only [runUpdates, List.mem_append, Option.mem_toList, Option.mem_def] at hm1
    rcases hm1 with h | h
    · obtain ⟨h1, h2⟩ := hcmd m1 h
      rw [h1]
      exact ⟨h2, loaded, hinv⟩
    · exact hcmds m1 h

/-- In the Timer and the Confirm states of a model that satisfies the invariant, the lookup of
the selected project finds a project. -/
theorem lookupSelectedProject_isSome (m : Model) (loaded : Bool) (hinv : m.inRange loaded)
    (hs : m.state = stateTimer ∨ m.state = stateConfirm) :
    m.lookupSelectedProject.isSome = true := by
  obtain ⟨h0, h1⟩ := hinv.2.2.1 hs
  unfold Model.lookupSelectedProject
  rw [if_neg (by omega)]
  have hlt : m.selectedProject.toNat < m.projects.length := by omega
  rw [List.getElem?_eq_getElem hlt]
  rfl

/-- C22. In every state reached from the initial model by a run of messages in which at most
one list of projects arrives: in the Timer and the Confirm states the selected project is an
index of the list of projects, the cursor is one whenever the list is not empty, the lookup of
`viewTimer` and `viewConfirm` finds its project, so that `View` renders a screen, and every
submission issued during the run holds a model in which the lookup of `saveTimeEntry` finds its
project, so that the closure builds its entry whatever the clock reads. -/
theorem Update_selected_in_range (apiURL : String) (run : List (Time × Msg))
    (hone : run.countP (fun p => p.2.isProjectsLoaded) ≤ 1) :
    (((runUpdates (NewModel apiURL) run).1.state = stateTimer ∨
        (runUpdates (NewModel apiURL) run).1.state = stateConfirm) →
      0 ≤ (runUpdates (NewModel apiURL) run).1.selectedProject ∧
        (runUpdates (NewModel apiURL) run).1.selectedProject <
          (runUpdates (NewModel apiURL) run).1.projects.length ∧
        (runUpdates (NewModel apiURL) run).1.lookupSelectedProject.isSome = true) ∧
    ((runUpdates (NewModel apiURL) run).1.projects ≠ [] →
      0 ≤ (runUpdates (NewModel apiURL) run).1.cursor ∧
        (runUpdates (NewModel apiURL) run).1.cursor <
          (runUpdates (NewModel apiURL) run).1.projects.length) ∧
    (runUpdates (NewModel apiURL) run).1.View.isSome = true ∧
    (∀ m1, Cmd.saveTimeEntry m1 ∈ (runUpdates (NewModel apiURL) run).2 →
      0 ≤ m1.selectedProject ∧ m1.selectedProject < m1.projects.length ∧
        ∀ (intOfUnrepresentable : Float64 → Int) (now1 now2 : Time),
          (m1.saveTimeEntryPayload intOfUnrepresentable now1 now2).isSome = true) := by
  have hinit : (NewModel apiURL).inRange false := by
    simp [Model.inRange, NewModel]
  obtain ⟨⟨l, hfin⟩, hcmds⟩ := runUpdates_inRange run (NewModel apiURL) false hinit hone
  refine ⟨?_, ?_, ?_, ?_⟩
  · intro hs
    obtain ⟨h0, h1⟩ := hfin.2.2.1 hs
    exact ⟨h0, h1, lookupSelectedProject_isSome _ l hfin hs⟩
  · intro hne
    obtain ⟨hc0, hc1, -, -⟩ := hfin
    refine ⟨hc0, ?_⟩
    rcases hc1 with h | h
    · have : 0 < (runUpdates (NewModel apiURL) run).1.projects.length :=
        List.length_pos.mpr hne
      omega
    · exact h
  · unfold Model.View
    split_ifs
    · rfl
    · cases hst : (runUpdates (NewModel apiURL) run).1.state with
      | stateSelectProject => rfl
      | stateTimer =>
        obtain ⟨project, hp⟩ := Option.isSome_iff_exists.mp
          (lookupSelectedProject_isSome _ l hfin (Or.inl hst))
        dsimp only
        rw [hp]
        rfl
      | stateConfirm =>
        obtain ⟨project, hp⟩ := Option.isSome_iff_exists.mp
          (lookupSelectedProject_isSome _ l hfin (Or.inr hst))
        dsimp only
        rw [hp]
        rfl
      | stateSuccess => rfl
      | stateError => rfl
  · intro m1 hm1
    obtain ⟨hst, l1, hinv1⟩ := hcmds m1 hm1
    obtain ⟨h0, h1⟩ := hinv1.2.2.1 (Or.inr hst)
    refine ⟨h0, h1, ?_⟩
    intro unspec now1 now2
    have hlt : m1.selectedProject.toNat < m1.projects.length := by omega
    unfold Model.saveTimeEntryPayload
    rw [if_neg (by omega), List.getElem?_eq_getElem hlt]
    rfl

set_option maxRecDepth 100000 in
/-- Witness of C22: two projects arrive once, then "down" and "enter" reach the Timer state with
the second project selected, index 1 of a list of 2, and the lookup finds project 42. -/
theorem Update_selected_in_range_witness :
    sampleSelectRun.countP (fun p => p.2.isProjectsLoaded) ≤ 1 ∧
      (runUpdates (NewModel "http://localhost:8080") sampleSelectRun).1.state = stateTimer ∧
      (runUpdates (NewModel "http://localhost:8080") sampleSelectRun).1.selectedProject = 1 ∧
      (runUpdates (NewModel "http://localhost:8080")
        sampleSelectRun).1.lookupSelectedProject.map Project.ID = some 42 ∧
      (0 ≤ (runUpdates (NewModel "http://localhost:8080") sampleSelectRun).1.selectedProject ∧
        (runUpdates (NewModel "http://localhost:8080") sampleSelectRun).1.selectedProject <
          (runUpdates (NewModel "http://localhost:8080") sampleSelectRun).1.projects.length ∧
        (runUpdates (NewModel "http://localhost:8080")
          sampleSelectRun).1.lookupSelectedProject.isSome = true) :=
  ⟨by decide, by decide, by decide, by decide,
    (Update_selected_in_range "http://localhost:8080" sampleSelectRun (by decide)).1
      (Or.inl (by decide))⟩

/-! ## The statements of the filtered listings: placeholders and arguments -/

/-- The text of the statement of `GetTimeEntriesByProject`: the SELECT, the conditions of the
filters numbered from `$2`, and the descending order. -/
theorem byProjectStatement_query (projectID dateFrom dateTo billableFilter : String) :
    (byProjectStatement projectID dateFrom dateTo billableFilter).query =
      selectByProject ++ whereClauses 2 (clausesFor dateFrom dateTo billableFilter) ++
        " ORDER BY start_time DESC" := by
  by_cases h1 : dateFrom = "" <;> by_cases h2 : dateTo = "" <;>
    by_cases h3 : billableFilter = "billable" <;>
    by_cases h4 : billableFilter = "non-billable" <;>
    simp only [byProjectStatement, clausesFor, h1, h2, h3, h4, if_true, if_false, ne_eq,
      not_true_eq_false, not_false_eq_true, List.append_nil, List.nil_append,
      List.singleton_append, whereClauses, Clause.sql] <;>
    rfl

/-- The text of the statement of `GeneratePDFReport`: the same SELECT and conditions, and the
ascending order. -/
theorem reportStatement_query (projectID dateFrom dateTo billableFilter : String) :
    (reportStatement projectID dateFrom dateTo billableFilter).query =
      selectByProject ++ whereClauses 2 (clausesFor dateFrom dateTo billableFilter) ++
        " ORDER BY start_time ASC" := by
  by_cases h1 : dateFrom = "" <;> by_cases h2 : dateTo = "" <;>
    by_cases h3 : billableFilter = "billable" <;>
    by_cases h4 : billableFilter = "non-billable" <;>
    simp only [reportStatement, clausesFor, h1, h2, h3, h4, if_true, if_false, ne_eq,
      not_true_eq_false, not_false_eq_true, List.append_nil, List.nil_append,
      List.singleton_append, whereClauses, Clause.sql] <;>
    rfl

/-- The arguments of the statement of `GetTimeEntriesByProject`: the project id, then the
values of the filters. -/
theorem byProjectStatement_args (projectID dateFrom dateTo billableFilter : String) :
    (byProjectStatement projectID dateFrom dateTo billableFilter).args =
      SQLArg.Str projectID :: (clausesFor dateFrom dateTo billableFilter).map Clause.arg := by
  by_cases h1 : dateFrom = "" <;> by_cases h2 : dateTo = "" <;>
    by_cases h3 : billableFilter = "billable" <;>
    by_cases h4 : billableFilter = "non-billable" <;>
    simp [byProjectStatement, clausesFor, h1, h2, h3, h4, Clause.arg]

/-- The arguments of the statement of `GeneratePDFReport`: the project id, then the values of
the filters. -/
theorem reportStatement_args (projectID dateFrom dateTo billableFilter : String) :
    (reportStatement projectID dateFrom dateTo billableFilter).args =
      SQLArg.Str projectID :: (clausesFor dateFrom dateTo billableFilter).map Clause.arg := by
  by_cases h1 : dateFrom = "" <;> by_cases h2 : dateTo = "" <;>
    by_cases h3 : billableFilter = "billable" <;>
    by_cases h4 : billableFilter = "non-billable" <;>
    simp [reportStatement, clausesFor, h1, h2, h3, h4, Clause.arg]

/-- The conditions of a list of filters are the conditions of the filters before the one at
index `j`, the condition of that filter with the placeholder `$(k + j)`, and the conditions of
the filters after it. -/
theorem whereClauses_split (cs : List Clause) :
    ∀ (k : Int) (j : Nat) (c : Clause), cs[j]? = some c →
      whereClauses k cs =
        whereClauses k (cs.take j) ++ c.sql (k + j) ++ whereClauses (k + j + 1) (cs.drop (j + 1)) := by
  induction cs with
  | nil =>
    intro k j c h
    simp at h
  | cons d ds ih =>
    intro k j c h
    cases j with
    | zero =>
      simp only [List.getElem?_cons_zero, Option.some.injEq] at h
      subst h
      simp [whereClauses]
    | succ j =>
      simp only [List.getElem?_cons_succ] at h
      have := ih (k + 1) j c h
      simp only [whereClauses, List.take_succ_cons, List.drop_succ_cons, this, String.append_assoc]
      push_cast
      have e1 : k + 1 + (j : Int) = k + ((j : Int) + 1) := by ring
      rw [e1]

/-- At most three filters are asked for. -/
theorem clausesFor_length (dateFrom dateTo billableFilter : String) :
    (clausesFor dateFrom dateTo billableFilter).length ≤ 3 := by
  unfold clausesFor
  split_ifs <;> simp

set_option maxRecDepth 100000 in
/-- The placeholders of the SELECT followed by the conditions of the filters and an ORDER BY
are `$1`, ..., `$n` in this order, each once, `n` being one more than the number of filters. -/
theorem placeholders_statement (dateFrom dateTo billableFilter : String) :
    placeholders (selectByProject ++ whereClauses 2 (clausesFor dateFrom dateTo billableFilter)
        ++ " ORDER BY start_time DESC") =
        List.range' 1 ((clausesFor dateFrom dateTo billableFilter).length + 1) ∧
      placeholders (selectByProject ++ whereClauses 2 (clausesFor dateFrom dateTo billableFilter)
        ++ " ORDER BY start_time ASC") =
        List.range' 1 ((clausesFor dateFrom dateTo billableFilter).length + 1) := by
  by_cases h1 : dateFrom = "" <;> by_cases h2 : dateTo = "" <;>
    by_cases h3 : billableFilter = "billable" <;>
    by_cases h4 : billableFilter = "non-billable" <;>
    simp only [clausesFor, h1, h2, h3, h4, if_true, if_false, List.append_nil, List.nil_append,
      List.singleton_append, List.cons_append, whereClauses, Clause.sql, List.length_cons,
      List.length_nil] <;>
    decide

set_option maxRecDepth 100000 in
/-- C23. For all values of the four parameters, the text that `GetTimeEntriesByProject` builds
and the text that `GeneratePDFReport` builds hold the placeholders `$1`, ..., `$n` in this
order, each once, where `n` is the number of arguments; the two texts are the same SELECT with
the same conditions, followed by `ORDER BY start_time DESC` in the one and
`ORDER BY start_time ASC` in the other, and the two argument lists are equal; the first argument
is the project id, for the `$1` of the SELECT, and the filter at index `j` has its condition
written with the placeholder `$(j + 2)` and its value at index `j + 1` of the arguments. -/
theorem statements_placeholders (projectID dateFrom dateTo billableFilter : String) :
    placeholders (byProjectStatement projectID dateFrom dateTo billableFilter).query =
        List.range' 1 (byProjectStatement projectID dateFrom dateTo billableFilter).args.length ∧
      placeholders (reportStatement projectID dateFrom dateTo billableFilter).query =
        List.range' 1 (reportStatement projectID dateFrom dateTo billableFilter).args.length ∧
      (byProjectStatement projectID dateFrom dateTo billableFilter).query =
        selectByProject ++ whereClauses 2 (clausesFor dateFrom dateTo billableFilter) ++
          " ORDER BY start_time DESC" ∧
      (reportStatement projectID dateFrom dateTo billableFilter).query =
        selectByProject ++ whereClauses 2 (clausesFor dateFrom dateTo billableFilter) ++
          " ORDER BY start_time ASC" ∧
      (reportStatement projectID dateFrom dateTo billableFilter).args =
        (byProjectStatement projectID dateFrom dateTo billableFilter).args ∧
      placeholders selectByProject = [1] ∧
      (byProjectStatement projectID dateFrom dateTo billableFilter).args[0]? =
        some (SQLArg.Str projectID) ∧
      (∀ (j : Nat) (c : Clause), (clausesFor dateFrom dateTo billableFilter)[j]? = some c →
        whereClauses 2 (clausesFor dateFrom dateTo billableFilter) =
          whereClauses 2 ((clausesFor dateFrom dateTo billableFilter).take j) ++
            c.sql (2 + j) ++
            whereClauses (2 + j + 1) ((clausesFor dateFrom dateTo billableFilter).drop (j + 1)) ∧
        placeholders (c.sql (2 + j)) = [2 + j] ∧
        (byProjectStatement projectID dateFrom dateTo billableFilter).args[j + 1]? =
          some c.arg) := by
  have hq := byProjectStatement_query projectID dateFrom dateTo billableFilter
  have hr := reportStatement_query projectID dateFrom dateTo billableFilter
  have ha := byProjectStatement_args projectID dateFrom dateTo billableFilter
  have hb := reportStatement_args projectID dateFrom dateTo billableFilter
  have hp := placeholders_statement dateFrom dateTo billableFilter
  refine ⟨?_, ?_, hq, hr, by rw [ha, hb], by decide,
    by rw [ha, List.getElem?_cons_zero], ?_⟩
  · rw [hq, ha, List.length_cons, List.length_map]
    exact hp.1
  · rw [hr, hb, List.length_cons, List.length_map]
    exact hp.2
  · intro j c hc
    refine ⟨whereClauses_split _ 2 j c hc, ?_, ?_⟩
    · have hlen := clausesFor_length dateFrom dateTo billableFilter
      have hj : j < (clausesFor dateFrom dateTo billableFilter).length := by
        by_contra hge
        rw [List.getElem?_eq_none (by omega)] at hc
        exact Option.noConfusion hc
      have hj3 : j < 3 := by omega
      interval_cases j <;> cases c <;> simp only [Clause.sql] <;> decide
    · rw [ha, List.getElem?_cons_succ, List.getElem?_map, hc]
      rfl

set_option maxRecDepth 100000 in
/-- Witness of C23 for the project 7 with both dates and the filter "billable": the third
filter, `billable = true`, has its condition written with `$4` and its value at index 3 of the
arguments, and the text of the listing holds `$1` to `$4`. -/
theorem statements_placeholders_witness :
    (clausesFor "2024-01-01" "2024-01-31" "billable")[2]? = some (Clause.Billable true) ∧
      (whereClauses 2 (clausesFor "2024-01-01" "2024-01-31" "billable") =
          whereClauses 2 ((clausesFor "2024-01-01" "2024-01-31" "billable").take 2) ++
            (Clause.Billable true).sql ((2 : Int) + ((2 : Nat) : Int)) ++
            whereClauses ((2 : Int) + ((2 : Nat) : Int) + 1)
              ((clausesFor "2024-01-01" "2024-01-31" "billable").drop (2 + 1)) ∧
        placeholders ((Clause.Billable true).sql ((2 : Int) + ((2 : Nat) : Int))) = [2 + 2] ∧
        (byProjectStatement "7" "2024-01-01" "2024-01-31" "billable").args[2 + 1]? =
          some (Clause.Billable true).arg) ∧
      (byProjectStatement "7" "2024-01-01" "2024-01-31" "billable").query =
        "SELECT id, project_id, user_id, description, start_time, end_time, duration, billable, created_at, updated_at FROM time_entries WHERE project_id = $1 AND DATE(start_time) >= $2 AND DATE(start_time) <= $3 AND billable = $4 ORDER BY start_time DESC" ∧
      (byProjectStatement "7" "2024-01-01" "2024-01-31" "billable").args =
        [SQLArg.Str "7", SQLArg.Str "2024-01-01", SQLArg.Str "2024-01-31", SQLArg.Bool true] :=
  ⟨by decide,
    (statements_placeholders "7" "2024-01-01" "2024-01-31" "billable").2.2.2.2.2.2.2 2
      (Clause.Billable true) (by decide),
    by decide, by decide⟩

end SideSync
